import Mathlib

/-!
# The client session of the proxy (`server/proxy/session.go`)

A shallow embedding of `Session`: its fields, `SetAuthenticated`, `Disconnect`,
`DisconnectRaw`, `Redirect`, `HandlePacket`, `ErrorCaught` and the derived
predicates `Authenticated` / `Initializing`.

* The session record is passed explicitly; every method returns the new record.
* Every call the session makes on a collaborator (connection, codec, registry,
  backend-connection manager, router, identity verifier, bridge) is recorded, in
  program order, in a list of `Event`s.  Assignments to `state` are recorded as
  well, so that the order of a phase change relative to the calls is visible.
* Everything a collaborator answers (and every constant of package `minecraft`)
  is read from an `Env`, the snapshot of the outside world for one call.
* Go values `(v, err)` are pairs whose second component is `none` for `nil`.
-/

namespace Proxy

/-- A byte slice (`[]byte`); the `nil` slice and the empty slice are both `[]`. -/
abbrev Bytes := List Nat

/-- The protocol phase of a session (`SessionState`, declared next to `session.go`). -/
inductive SessionState
  | STATE_DISCONNECTED
  | STATE_STATUS
  | STATE_STATUS_PING
  | STATE_LOGIN
  | STATE_LOGIN_ENCRYPT
  | STATE_INIT
  | STATE_CONNECTED
  deriving DecidableEq, Repr

/-- The eight codec tables of package `minecraft` that the session installs or tests. -/
inductive PacketCodec
  | HandshakePacketClientCodec
  | HandshakePacketServerCodec
  | StatusPacketClientCodec
  | StatusPacketServerCodec
  | LoginPacketClientCodec
  | LoginPacketServerCodec
  | PlayPacketClientCodec
  | PlayPacketServerCodec
  deriving DecidableEq, Repr

/-- The fields of `minecraft.PacketServerHandshake` read by the session. -/
structure PacketServerHandshake where
  ProtocolVersion : Int
  ServerAddress : String
  State : Int
  deriving DecidableEq, Repr

/-- The payload of `minecraft.PacketServerStatusPing`. -/
structure PacketServerStatusPing where
  Time : Int
  deriving DecidableEq, Repr

/-- The payload of `minecraft.PacketServerLoginStart`. -/
structure PacketServerLoginStart where
  Name : String
  deriving DecidableEq, Repr

/-- The payload of `minecraft.PacketServerLoginEncryptResponse`. -/
structure PacketServerLoginEncryptResponse where
  SharedSecret : Bytes
  VerifyToken : Bytes
  deriving DecidableEq, Repr

/-- A decoded inbound packet (`packet.Packet`): its dynamic Go type is the constructor. -/
inductive Packet
  | ServerHandshake (p : PacketServerHandshake)
  | ServerStatusRequest
  | ServerStatusPing (p : PacketServerStatusPing)
  | ServerLoginStart (p : PacketServerLoginStart)
  | ServerLoginEncryptResponse (p : PacketServerLoginEncryptResponse)
  | ServerClientSettings (payload : Bytes)
  | Other (id : Int) (payload : Bytes)
  deriving DecidableEq, Repr

/-- The packets the session itself builds and hands to `Write`. -/
inductive ClientPacket
  | PacketClientLoginSuccess (uuid : String) (name : String)
  | PacketClientLoginDisconnect (json : String)
  | PacketClientDisconnect (json : String)
  | PacketClientStatusResponse (json : String)
  | PacketClientStatusPing (time : Int)
  | PacketClientLoginEncryptRequest (serverId : String) (publicKey : Bytes) (verifyToken : Bytes)
  deriving DecidableEq, Repr

/-- An AES block cipher (`cipher.Block`) together with the key it was built from. -/
structure Block where
  key : Bytes
  deriving DecidableEq, Repr

/-- A stream built by `minecraft.NewCFB8Decrypter` / `NewCFB8Encrypter`: the block,
the feedback seed and the direction it was built with. -/
structure CFB8 where
  block : Block
  iv : Bytes
  decrypt : Bool
  deriving DecidableEq, Repr

/-- The field of `connect.Server` read by `Redirect`. -/
structure ConnectServer where
  Addr : String
  deriving DecidableEq, Repr

/-- The document marshalled for a status request (a `map[string]interface{}` in the source). -/
structure StatusResponse where
  versionName : String
  versionProtocol : Int
  playersMax : Int
  playersOnline : Int
  descriptionText : String
  favicon : Option String
  deriving DecidableEq, Repr

/-- The connection (`net.Conn`): only whether `Close` has been called is tracked. -/
structure Conn where
  closed : Bool
  deriving DecidableEq, Repr

/-- The `packet.PacketConnCodec`: the stream wrappers installed by `SetReader` / `SetWriter`
(`none` while the raw connection is used). -/
structure PacketConnCodec where
  reader : Option CFB8
  writer : Option CFB8
  deriving DecidableEq, Repr

/-- The `packet.PacketCodecVariable`: the active encode and decode tables. -/
structure PacketCodecVariable where
  encodeCodec : PacketCodec
  decodeCodec : PacketCodec
  deriving DecidableEq, Repr

/-- The `Session` struct.  The `server` pointer is the `Env` given to each method.
`connCodec` and `codec` are the objects built by `Serve` (they are `nil` only before it,
and the read loop that calls `HandlePacket` starts in `Serve`). -/
structure Session where
  conn : Conn
  connCodec : PacketConnCodec
  codec : PacketCodecVariable
  outBridge : Option Nat
  active : Bool
  redirecting : Bool
  serverAddress : String
  name : String
  uuid : String
  serverId : String
  publicKey : Bytes
  verifyToken : Bytes
  clientSettings : Option Packet
  clientEntityId : Int
  serverEntityId : Int
  playerList : List String
  scoreboards : List String
  teams : List String
  remoteHost : String
  remotePort : String
  state : SessionState
  deriving DecidableEq, Repr

/-- What the outside world answers during one method call, and the constants of package
`minecraft`.  None of it is declared in `session.go`, so all of it is a parameter. -/
structure Env where
  /-- The constant `minecraft.VERSION`. -/
  VERSION : Int
  /-- The constant `minecraft.STRING_VERSION`. -/
  STRING_VERSION : String
  PACKET_SERVER_HANDSHAKE : Int
  PACKET_SERVER_STATUS_REQUEST : Int
  PACKET_SERVER_STATUS_PING : Int
  PACKET_SERVER_LOGIN_START : Int
  PACKET_SERVER_LOGIN_ENCRYPT_RESPONSE : Int
  PACKET_SERVER_CLIENT_SETTINGS : Int
  /-- The function `minecraft.Colorize`. -/
  Colorize : String → String
  /-- The result of `server.Authenticate()`: whether the proxy requires authentication. -/
  Authenticate : Bool
  /-- The result of `server.MaxPlayers()`. -/
  MaxPlayers : Int
  /-- The result of `server.Motd()`. -/
  Motd : String
  LocaleLoggedIn : String
  LocaleFull : String
  LocaleOffline : String
  /-- The answer of `SessionRegistry().HasName`. -/
  HasName : String → Bool
  /-- The answer of `SessionRegistry().Len()`. -/
  Len : Int
  /-- The answer of `Router().Route`. -/
  Route : String → String
  /-- The answer of `Connect().Server` (`none` for `nil`). -/
  Server : String → Option ConnectServer
  /-- The answer of `Connect().AddLocalPlayer`. -/
  AddLocalPlayer : String → Int
  /-- The answer of `Connect().MaxPlayers()`. -/
  ConnectMaxPlayers : Int
  /-- The answer of `Connect().Players()`. -/
  Players : Int
  /-- The error returned by `connCodec.Write` for a packet. -/
  Write : ClientPacket → Option String
  /-- The error returned by `net.Dial("tcp", addr)`. -/
  Dial : String → Option String
  /-- The result of `ioutil.ReadFile`. -/
  ReadFile : String → Bytes × Option String
  /-- The function `base64.StdEncoding.EncodeToString`. -/
  base64 : Bytes → String
  /-- The result of `json.Marshal` on a string. -/
  jsonMarshalString : String → String
  /-- The result of `json.Marshal` on the status document. -/
  jsonMarshalStatus : StatusResponse → String × Option String
  /-- The result of `GenSalt()`. -/
  GenSalt : String × Option String
  /-- The result of `x509.MarshalPKIXPublicKey` on the proxy's public key. -/
  MarshalPKIXPublicKey : Bytes × Option String
  /-- The result of `RandomBytes(n)`. -/
  RandomBytes : Nat → Bytes × Option String
  /-- The result of `rsa.DecryptPKCS1v15` under the proxy's private key. -/
  DecryptPKCS1v15 : Bytes → Bytes × Option String
  /-- The error returned by `minecraft.NewCFB8Decrypter(block, iv)`. -/
  NewCFB8DecrypterErr : Block → Bytes → Option String
  /-- The error returned by `minecraft.NewCFB8Encrypter(block, iv)`. -/
  NewCFB8EncrypterErr : Block → Bytes → Option String
  /-- The result of `auth.Authenticate(name, serverId, sharedSecret, publicKey)`. -/
  AuthAuthenticate : String → String → Bytes → Bytes → String × Option String

/-- The calls a session makes on its collaborators, and its assignments to `state`. -/
inductive Event
  | SetState (st : SessionState)
  | SetEncodeCodec (c : PacketCodec)
  | SetDecodeCodec (c : PacketCodec)
  | Write (p : ClientPacket)
  | ConnClose
  | SetReader (s : CFB8)
  | SetWriter (s : CFB8)
  | AuthAuthenticate (name : String) (serverId : String) (sharedSecret : Bytes) (publicKey : Bytes)
  | CallSetAuthenticated (result : Bool)
  | HasName (name : String)
  | Len
  | Route (addr : String)
  | ConnectServer (name : String)
  | AddLocalPlayer (name : String) (result : Int)
  | RemoveLocalPlayer (name : String)
  | Register (name : String)
  | Unregister (name : String)
  | Dial (addr : String)
  | OutBridgeServe (server : ConnectServer)
  | OutBridgeWrite (p : Packet)
  deriving DecidableEq, Repr

/-- The state after a method that returns nothing, with the events it produced. -/
structure Effect where
  session : Session
  events : List Event
  deriving DecidableEq, Repr

/-- How a call of `HandlePacket` ends: it returns `err`, or a type assertion panics. -/
inductive Outcome
  | returned (err : Option String)
  | panicked
  deriving DecidableEq, Repr

/-- The state after `HandlePacket`, the events it produced and how it ended. -/
structure HandleResult where
  session : Session
  events : List Event
  outcome : Outcome
  deriving DecidableEq, Repr

/-- The method `Id()` of a packet: each packet type returns its own constant. -/
def Packet.Id (env : Env) : Packet → Int
  | .ServerHandshake _ => env.PACKET_SERVER_HANDSHAKE
  | .ServerStatusRequest => env.PACKET_SERVER_STATUS_REQUEST
  | .ServerStatusPing _ => env.PACKET_SERVER_STATUS_PING
  | .ServerLoginStart _ => env.PACKET_SERVER_LOGIN_START
  | .ServerLoginEncryptResponse _ => env.PACKET_SERVER_LOGIN_ENCRYPT_RESPONSE
  | .ServerClientSettings _ => env.PACKET_SERVER_CLIENT_SETTINGS
  | .Other id _ => id

/-- The standard-library `aes.NewCipher`: it fails unless the key has 16, 24 or 32 bytes. -/
def aesNewCipher (key : Bytes) : Block × Option String :=
  if key.length = 16 ∨ key.length = 24 ∨ key.length = 32 then (⟨key⟩, none)
  else (⟨[]⟩, some ("crypto/aes: invalid key size " ++ toString key.length))

/-- `NewSession`: the record built for an accepted connection.  The codec fields hold the
values `Serve` gives them (see `Serve`). -/
def NewSession (host port : String) : Session :=
  { conn := ⟨false⟩
    connCodec := ⟨none, none⟩
    codec := ⟨.HandshakePacketClientCodec, .HandshakePacketServerCodec⟩
    outBridge := none
    active := true
    redirecting := false
    serverAddress := ""
    name := ""
    uuid := ""
    serverId := ""
    publicKey := []
    verifyToken := []
    clientSettings := none
    clientEntityId := 0
    serverEntityId := 0
    playerList := []
    scoreboards := []
    teams := []
    remoteHost := host
    remotePort := port
    state := .STATE_DISCONNECTED }

/-- `Serve`: builds the variable codec on the handshake tables and the connection codec on
the raw connection; the read loop it starts is the caller of `HandlePacket`. -/
def Serve (s : Session) : Session :=
  { s with
    codec := ⟨.HandshakePacketClientCodec, .HandshakePacketServerCodec⟩
    connCodec := ⟨none, none⟩ }

/-- `Session.Authenticated`. -/
def Session.Authenticated (s : Session) : Bool :=
  s.state == .STATE_INIT || s.state == .STATE_CONNECTED

/-- `Session.Initializing`. -/
def Session.Initializing (s : Session) : Bool :=
  s.state == .STATE_INIT

/-- `Session.Name`. -/
def Session.Name (s : Session) : String :=
  s.name

/-- `Session.DisconnectRaw`: one disconnect packet chosen by the active encode codec (its
write error is dropped), then `conn.Close()`. -/
def DisconnectRaw (s : Session) (raw : String) : Effect :=
  let writes : List Event :=
    if s.codec.encodeCodec = .LoginPacketClientCodec then
      [.Write (.PacketClientLoginDisconnect raw)]
    else if s.codec.encodeCodec = .PlayPacketClientCodec then
      [.Write (.PacketClientDisconnect raw)]
    else []
  { session := { s with conn := ⟨true⟩ }, events := writes ++ [.ConnClose] }

/-- The chat document `Disconnect` builds around a plain reason. -/
def chatText (env : Env) (reason : String) : String :=
  "\x7b\"text\":" ++ env.jsonMarshalString reason ++ "\x7d"

/-- `Session.Disconnect`. -/
def Disconnect (env : Env) (s : Session) (reason : String) : Effect :=
  DisconnectRaw s (chatText env reason)

/-- `Session.Redirect`: dial the backend; on failure disconnect the client if the session
is still initializing; on success start the bridge. -/
def Redirect (env : Env) (s : Session) (server : ConnectServer) : Effect :=
  match env.Dial server.Addr with
  | some _ =>
    if s.Initializing then
      let d := Disconnect env s "Error: Outbound Connection Mismatch"
      { session := d.session, events := [.Dial server.Addr] ++ d.events }
    else
      { session := s, events := [.Dial server.Addr] }
  | none => { session := s, events := [.Dial server.Addr, .OutBridgeServe server] }

/-- Put events in front of those of an effect. -/
def Effect.after (pre : List Event) (e : Effect) : Effect :=
  { session := e.session, events := pre ++ e.events }

/-- `Session.SetAuthenticated`. -/
def SetAuthenticated (env : Env) (s : Session) (result : Bool) : Effect :=
  if !result then
    (Disconnect env s "Error: Authentication to Minecraft.net Failed").after
      [.CallSetAuthenticated result]
  else if env.HasName s.name then
    (Disconnect env s (env.Colorize env.LocaleLoggedIn)).after
      [.CallSetAuthenticated result, .HasName s.name]
  else
    -- `MaxPlayers() > 1 && Len() >= int(MaxPlayers())`: `Len` is only asked when the
    -- left operand holds
    let capEvents : List Event := if env.MaxPlayers > 1 then [.Len] else []
    if env.MaxPlayers > 1 ∧ env.Len ≥ env.MaxPlayers then
      (Disconnect env s (env.Colorize env.LocaleFull)).after
        ([.CallSetAuthenticated result, .HasName s.name] ++ capEvents)
    else
      let serverName := env.Route s.serverAddress
      let pre1 : List Event :=
        [.CallSetAuthenticated result, .HasName s.name] ++ capEvents ++ [.Route s.serverAddress]
      if serverName.length = 0 then
        (Disconnect env s (env.Colorize env.LocaleOffline)).after pre1
      else
        let pre2 : List Event := pre1 ++ [.ConnectServer serverName]
        match env.Server serverName with
        | none => (Disconnect env s (env.Colorize env.LocaleOffline)).after pre2
        | some server =>
          let addResult := env.AddLocalPlayer s.name
          let pre3 : List Event := pre2 ++ [.AddLocalPlayer s.name addResult]
          if addResult = 0 then
            (Disconnect env s (env.Colorize env.LocaleLoggedIn)).after pre3
          else if addResult = -1 then
            (Disconnect env s (env.Colorize env.LocaleLoggedIn)).after pre3
          else
            let s1 : Session :=
              { s with
                state := .STATE_INIT
                codec := ⟨.PlayPacketClientCodec, .PlayPacketServerCodec⟩ }
            (Redirect env s1 server).after
              (pre3 ++
                [ .SetState .STATE_INIT,
                  .Write (.PacketClientLoginSuccess s.uuid s.name),
                  .SetEncodeCodec .PlayPacketClientCodec,
                  .SetDecodeCodec .PlayPacketServerCodec,
                  .Register s.name ])

/-- A `HandlePacket` that returns `err` without having produced any event. -/
def failWith (s : Session) (err : String) : HandleResult :=
  { session := s, events := [], outcome := .returned (some err) }

/-- A `HandlePacket` whose type assertion panics (nothing has been changed before it). -/
def panicAt (s : Session) : HandleResult :=
  { session := s, events := [], outcome := .panicked }

/-- A `HandlePacket` that returns `nil` after an effect. -/
def Effect.done (e : Effect) : HandleResult :=
  { session := e.session, events := e.events, outcome := .returned none }

/-- The `STATE_DISCONNECTED` case of `HandlePacket`. -/
def handleDisconnected (env : Env) (s : Session) (packet : Packet) : HandleResult :=
  if packet.Id env = env.PACKET_SERVER_HANDSHAKE then
    match packet with
    | .ServerHandshake handshakePacket =>
      let s1 : Session := { s with serverAddress := handshakePacket.ServerAddress }
      if handshakePacket.State = 1 then
        { session :=
            { s1 with
              codec := ⟨.StatusPacketClientCodec, .StatusPacketServerCodec⟩
              state := .STATE_STATUS }
          events :=
            [ .SetEncodeCodec .StatusPacketClientCodec,
              .SetDecodeCodec .StatusPacketServerCodec,
              .SetState .STATE_STATUS ]
          outcome := .returned none }
      else if handshakePacket.State = 2 then
        if handshakePacket.ProtocolVersion ≠ env.VERSION then
          failWith s1 "Protocol version does not match"
        else
          { session :=
              { s1 with
                codec := ⟨.LoginPacketClientCodec, .LoginPacketServerCodec⟩
                state := .STATE_LOGIN }
            events :=
              [ .SetEncodeCodec .LoginPacketClientCodec,
                .SetDecodeCodec .LoginPacketServerCodec,
                .SetState .STATE_LOGIN ]
            outcome := .returned none }
      else failWith s1 "Unexpected state"
    | _ => panicAt s
  else failWith s "Unexpected packet"

/-- The `STATE_STATUS` case of `HandlePacket`. -/
def handleStatus (env : Env) (s : Session) (packet : Packet) : HandleResult :=
  if packet.Id env = env.PACKET_SERVER_STATUS_REQUEST then
    let favicon := (env.ReadFile "server-icon.png").1
    let faviconErr := (env.ReadFile "server-icon.png").2
    let faviconString : String :=
      if faviconErr = none then "data:image/png;base64," ++ env.base64 favicon else ""
    let response : StatusResponse :=
      { versionName := env.STRING_VERSION
        versionProtocol := env.VERSION
        playersMax := env.ConnectMaxPlayers
        playersOnline := env.Players
        descriptionText := env.Colorize env.Motd
        favicon := if faviconString ≠ "" then some faviconString else none }
    match env.jsonMarshalStatus response with
    | (_, some err) => failWith s err
    | (marshalled, none) =>
      match env.Write (.PacketClientStatusResponse marshalled) with
      | some err =>
        { session := s
          events := [.Write (.PacketClientStatusResponse marshalled)]
          outcome := .returned (some err) }
      | none =>
        { session := { s with state := .STATE_STATUS_PING }
          events := [.Write (.PacketClientStatusResponse marshalled), .SetState .STATE_STATUS_PING]
          outcome := .returned none }
  else failWith s "Unexpected packet"

/-- The `STATE_STATUS_PING` case of `HandlePacket`. -/
def handleStatusPing (env : Env) (s : Session) (packet : Packet) : HandleResult :=
  if packet.Id env = env.PACKET_SERVER_STATUS_PING then
    match packet with
    | .ServerStatusPing ping =>
      match env.Write (.PacketClientStatusPing ping.Time) with
      | some err =>
        { session := s
          events := [.Write (.PacketClientStatusPing ping.Time)]
          outcome := .returned (some err) }
      | none =>
        { session := { s with conn := ⟨true⟩ }
          events := [.Write (.PacketClientStatusPing ping.Time), .ConnClose]
          outcome := .returned none }
    | _ => panicAt s
  else failWith s "Unexpected packet"

/-- The `STATE_LOGIN` case of `HandlePacket`. -/
def handleLogin (env : Env) (s : Session) (packet : Packet) : HandleResult :=
  if packet.Id env = env.PACKET_SERVER_LOGIN_START then
    match packet with
    | .ServerLoginStart loginStart =>
      let s1 : Session := { s with name := loginStart.Name }
      if env.Authenticate then
        let s2 : Session := { s1 with serverId := env.GenSalt.1 }
        match env.GenSalt.2 with
        | some err => { session := s2, events := [], outcome := .returned (some err) }
        | none =>
          let s3 : Session := { s2 with publicKey := env.MarshalPKIXPublicKey.1 }
          match env.MarshalPKIXPublicKey.2 with
          | some err => { session := s3, events := [], outcome := .returned (some err) }
          | none =>
            let s4 : Session := { s3 with verifyToken := (env.RandomBytes 4).1 }
            match (env.RandomBytes 4).2 with
            | some err => { session := s4, events := [], outcome := .returned (some err) }
            | none =>
              let request : ClientPacket :=
                .PacketClientLoginEncryptRequest s4.serverId s4.publicKey s4.verifyToken
              match env.Write request with
              | some err =>
                { session := s4, events := [.Write request], outcome := .returned (some err) }
              | none =>
                { session := { s4 with state := .STATE_LOGIN_ENCRYPT }
                  events := [.Write request, .SetState .STATE_LOGIN_ENCRYPT]
                  outcome := .returned none }
      else (SetAuthenticated env s1 true).done
    | _ => panicAt s
  else failWith s "Unexpected packet"

/-- The `STATE_LOGIN_ENCRYPT` case of `HandlePacket`. -/
def handleLoginEncrypt (env : Env) (s : Session) (packet : Packet) : HandleResult :=
  if packet.Id env = env.PACKET_SERVER_LOGIN_ENCRYPT_RESPONSE then
    match packet with
    | .ServerLoginEncryptResponse loginEncryptResponsePacket =>
      let sharedSecret := (env.DecryptPKCS1v15 loginEncryptResponsePacket.SharedSecret).1
      match (env.DecryptPKCS1v15 loginEncryptResponsePacket.SharedSecret).2 with
      | some err => failWith s err
      | none =>
        let verifyToken := (env.DecryptPKCS1v15 loginEncryptResponsePacket.VerifyToken).1
        match (env.DecryptPKCS1v15 loginEncryptResponsePacket.VerifyToken).2 with
        | some err => failWith s err
        | none =>
          -- `bytes.Compare(this.verifyToken, verifyToken) != 0`
          if s.verifyToken ≠ verifyToken then failWith s "Verify token does not match"
          else
            let block := (aesNewCipher sharedSecret).1
            match (aesNewCipher sharedSecret).2 with
            | some err => failWith s err
            | none =>
              match env.NewCFB8DecrypterErr block sharedSecret with
              | some err => failWith s err
              | none =>
                let decrypter : CFB8 := ⟨block, sharedSecret, true⟩
                match env.NewCFB8EncrypterErr block sharedSecret with
                | some err => failWith s err
                | none =>
                  let encrypter : CFB8 := ⟨block, sharedSecret, false⟩
                  let s1 : Session :=
                    { s with connCodec := ⟨some decrypter, some encrypter⟩ }
                  let answer := env.AuthAuthenticate s.name s.serverId sharedSecret s.publicKey
                  let s2 : Session := { s1 with uuid := answer.1 }
                  let pre : List Event :=
                    [ .SetReader decrypter,
                      .SetWriter encrypter,
                      .AuthAuthenticate s.name s.serverId sharedSecret s.publicKey ]
                  match answer.2 with
                  | some _ => ((SetAuthenticated env s2 false).after pre).done
                  | none => ((SetAuthenticated env s2 true).after pre).done
    | _ => panicAt s
  else failWith s "Unexpected packet"

/-- The `STATE_CONNECTED` case of `HandlePacket`. -/
def handleConnected (env : Env) (s : Session) (packet : Packet) : HandleResult :=
  let s1 : Session :=
    if packet.Id env = env.PACKET_SERVER_CLIENT_SETTINGS then
      { s with clientSettings := some packet }
    else s
  if s1.redirecting then
    { session := s1, events := [], outcome := .returned none }
  else
    { session := s1, events := [.OutBridgeWrite packet], outcome := .returned none }

/-- `Session.HandlePacket`: the switch on the phase.  `STATE_INIT` has no case, so the
call falls out of the switch and returns `nil`. -/
def HandlePacket (env : Env) (s : Session) (packet : Packet) : HandleResult :=
  match s.state with
  | .STATE_DISCONNECTED => handleDisconnected env s packet
  | .STATE_STATUS => handleStatus env s packet
  | .STATE_STATUS_PING => handleStatusPing env s packet
  | .STATE_LOGIN => handleLogin env s packet
  | .STATE_LOGIN_ENCRYPT => handleLoginEncrypt env s packet
  | .STATE_CONNECTED => handleConnected env s packet
  | .STATE_INIT => { session := s, events := [], outcome := .returned none }

/-- `Session.ErrorCaught`. -/
def ErrorCaught (s : Session) (_err : String) : Effect :=
  let release : List Event :=
    if s.Authenticated then [.RemoveLocalPlayer s.name, .Unregister s.name] else []
  { session := { s with state := .STATE_DISCONNECTED, conn := ⟨true⟩ }
    events := release ++ [.SetState .STATE_DISCONNECTED, .ConnClose] }

/-- Modelled from the spec: the bridging component (`SessionOutBridge`) is not in
`session.go`; for the session's phase its only action is to move `STATE_INIT` to
`STATE_CONNECTED` once the backend has accepted the player, attaching itself. -/
def BridgeConnected (s : Session) (bridge : Nat) : Effect :=
  if s.state = .STATE_INIT then
    { session := { s with state := .STATE_CONNECTED, outBridge := some bridge }
      events := [.SetState .STATE_CONNECTED] }
  else { session := s, events := [] }

/-- One call made on a session from outside: by the read loop or by the bridge. -/
inductive Call
  | HandlePacket (env : Env) (packet : Packet)
  | ErrorCaught (err : String)
  | BridgeConnected (bridge : Nat)

/-- The effect of one call. -/
def Call.apply (s : Session) : Call → Effect
  | .HandlePacket env packet =>
    let r := Proxy.HandlePacket env s packet
    { session := r.session, events := r.events }
  | .ErrorCaught err => Proxy.ErrorCaught s err
  | .BridgeConnected bridge => Proxy.BridgeConnected s bridge

/-- The calls applied one after the other, with all events in order. -/
def runCalls (s : Session) : List Call → Effect
  | [] => { session := s, events := [] }
  | c :: cs => (runCalls (c.apply s).session cs).after (c.apply s).events

/-- A fresh session: `NewSession` followed by `Serve`. -/
def freshSession (host port : String) : Session :=
  Serve (NewSession host port)

/-- The sessions that a sequence of calls produces from a fresh session. -/
def Reachable (s : Session) : Prop :=
  ∃ host port calls, (runCalls (freshSession host port) calls).session = s

/-- The sessions that `HandlePacket` calls alone produce from a fresh session. -/
def handlePackets (s : Session) : List (Env × Packet) → Session
  | [] => s
  | (env, packet) :: rest => handlePackets (HandlePacket env s packet).session rest

/-- Modelled from the spec: the active-sessions registry (`SessionRegistry`) is not in
`session.go`; by its interface `Register` enters the session under its name and `Unregister`
removes that entry.  This is the name under which the events leave the session entered,
starting from `entry`. -/
def registryEntry (entry : Option String) : List Event → Option String
  | [] => entry
  | .Register n :: es => registryEntry (some n) es
  | .Unregister n :: es => registryEntry (if entry = some n then none else entry) es
  | _ :: es => registryEntry entry es

/-- Modelled from the spec: the backend-connection manager (`Connect()`) is not in
`session.go`; by its interface `AddLocalPlayer` reserves a slot keyed by name when its answer
is positive (zero or negative: already present, or error) and `RemoveLocalPlayer` releases
it.  This is the name under which the events leave the session holding a reservation,
starting from `held`. -/
def reservation (held : Option String) : List Event → Option String
  | [] => held
  | .AddLocalPlayer n r :: es => reservation (if 0 < r then some n else held) es
  | .RemoveLocalPlayer n :: es => reservation (if held = some n then none else held) es
  | _ :: es => reservation held es

/-- Registration and release are paired in the events: `Register` only while no entry is
held, `Unregister` only of the entry held, `AddLocalPlayer` only while no reservation is
held, `RemoveLocalPlayer` only of the reservation held. -/
def wellPaired (entry held : Option String) : List Event → Bool
  | [] => true
  | .Register n :: es => entry.isNone && wellPaired (some n) held es
  | .Unregister n :: es => decide (entry = some n) && wellPaired none held es
  | .AddLocalPlayer n r :: es =>
    held.isNone && wellPaired entry (if 0 < r then some n else held) es
  | .RemoveLocalPlayer n :: es => decide (held = some n) && wellPaired entry none es
  | _ :: es => wellPaired entry held es

/-- Registration and unregistration are paired in the events: `Register` only while no
entry is held, `Unregister` only of the entry held. -/
def registerPaired (entry : Option String) : List Event → Bool
  | [] => true
  | .Register n :: es => entry.isNone && registerPaired (some n) es
  | .Unregister n :: es => decide (entry = some n) && registerPaired none es
  | _ :: es => registerPaired entry es

/-- The packets written, each with the encode codec in force when it was written,
starting from the codec `c`. -/
def writtenUnder (c : PacketCodec) : List Event → List (PacketCodec × ClientPacket)
  | [] => []
  | .SetEncodeCodec c2 :: es => writtenUnder c2 es
  | .Write p :: es => (c, p) :: writtenUnder c es
  | _ :: es => writtenUnder c es

/-- Whether an event is a call of `Register`. -/
def Event.isRegister : Event → Bool
  | .Register _ => true
  | _ => false

/-- Whether an event is a call of `Unregister`. -/
def Event.isUnregister : Event → Bool
  | .Unregister _ => true
  | _ => false

/-- Whether an event is a call of `AddLocalPlayer`. -/
def Event.isAddLocalPlayer : Event → Bool
  | .AddLocalPlayer _ _ => true
  | _ => false

/-- Whether an event is a call of `RemoveLocalPlayer`. -/
def Event.isRemoveLocalPlayer : Event → Bool
  | .RemoveLocalPlayer _ => true
  | _ => false

/-- Whether an event is a call of the identity verifier. -/
def Event.isAuthAuthenticate : Event → Bool
  | .AuthAuthenticate _ _ _ _ => true
  | _ => false

/-- Whether an event is an entry into `SetAuthenticated`. -/
def Event.isCallSetAuthenticated : Event → Bool
  | .CallSetAuthenticated _ => true
  | _ => false

/-- In the two login phases the encode codec in force is the login codec. -/
def LoginCodecInForce (s : Session) : Prop :=
  (s.state = .STATE_LOGIN ∨ s.state = .STATE_LOGIN_ENCRYPT) →
    s.codec.encodeCodec = .LoginPacketClientCodec

/-- Whether an event is one of the queries `HasName`, `Len`, `Route`, `Server`. -/
def Event.isQuery : Event → Bool
  | .HasName _ => true
  | .Len => true
  | .Route _ => true
  | .ConnectServer _ => true
  | _ => false

/-- The queries `SetAuthenticated` makes before it reserves a player slot. -/
def queriesBeforeReservation (env : Env) (s : Session) : List Event :=
  [.HasName s.name] ++ (if 1 < env.MaxPlayers then [.Len] else []) ++
    [.Route s.serverAddress, .ConnectServer (env.Route s.serverAddress)]

/-- The session as the accepting branch of `SetAuthenticated` leaves it before `Redirect`. -/
def Session.accepted (s : Session) : Session :=
  { s with
    state := .STATE_INIT
    codec := ⟨.PlayPacketClientCodec, .PlayPacketServerCodec⟩ }

/-- The events of the accepting branch of `SetAuthenticated` from the reservation on,
up to the call of `Redirect`. -/
def acceptEvents (s : Session) (addResult : Int) : List Event :=
  [ .AddLocalPlayer s.name addResult,
    .SetState .STATE_INIT,
    .Write (.PacketClientLoginSuccess s.uuid s.name),
    .SetEncodeCodec .PlayPacketClientCodec,
    .SetDecodeCodec .PlayPacketServerCodec,
    .Register s.name ]

/-- Whether an event changes the active-sessions registry or the player reservations. -/
def Event.changesRegistry : Event → Bool
  | .Register _ => true
  | .Unregister _ => true
  | .AddLocalPlayer _ _ => true
  | .RemoveLocalPlayer _ => true
  | _ => false

/-- The name an authenticated session is known by, `none` for a session that is not
authenticated. -/
def Session.registeredName (s : Session) : Option String :=
  if s.Authenticated then some s.name else none

/-- Whether an event touches the active-sessions registry or the player reservations. -/
def Event.touchesRegistry : Event → Bool
  | .HasName _ => true
  | .Len => true
  | .Register _ => true
  | .Unregister _ => true
  | .AddLocalPlayer _ _ => true
  | .RemoveLocalPlayer _ => true
  | _ => false

/-- The accepted set of a phase, as a test on the packet's type identifier. -/
def accepted (env : Env) : SessionState → Packet → Bool
  | .STATE_DISCONNECTED, p => decide (p.Id env = env.PACKET_SERVER_HANDSHAKE)
  | .STATE_STATUS, p => decide (p.Id env = env.PACKET_SERVER_STATUS_REQUEST)
  | .STATE_STATUS_PING, p => decide (p.Id env = env.PACKET_SERVER_STATUS_PING)
  | .STATE_LOGIN, p => decide (p.Id env = env.PACKET_SERVER_LOGIN_START)
  | .STATE_LOGIN_ENCRYPT, p => decide (p.Id env = env.PACKET_SERVER_LOGIN_ENCRYPT_RESPONSE)
  | .STATE_INIT, _ => false
  | .STATE_CONNECTED, _ => true

/-- A call of `HandlePacket` made on the session `before` has rejected the session with a
reason: it returned a nil error, the phase is the one of `before`, and its events end with
the write of the login-disconnect packet carrying the reason followed by the closing of
the connection, no packet having been written and the connection not having been closed
earlier in the call. -/
def rejectedWith (env : Env) (before : Session) (r : HandleResult) (reason : String) : Prop :=
  r.outcome = .returned none ∧ r.session.state = before.state ∧
    ∃ pre, Event.ConnClose ∉ pre ∧ (∀ p, Event.Write p ∉ pre) ∧
      r.events =
        pre ++ [.Write (.PacketClientLoginDisconnect (chatText env reason)), .ConnClose]

/-- The four reason texts `SetAuthenticated` disconnects with. -/
def rejectionReasons (env : Env) : List String :=
  [ "Error: Authentication to Minecraft.net Failed",
    env.Colorize env.LocaleLoggedIn,
    env.Colorize env.LocaleFull,
    env.Colorize env.LocaleOffline ]

/-- A concrete outside world for evaluating the model: a proxy that does not require
authentication, with a player cap of 1, five registered sessions, one backend and
collaborators that never fail.  The packet identifiers are those of the wire protocol
(they repeat across phases). -/
def exampleEnv : Env :=
  { VERSION := 4
    STRING_VERSION := "1.7.2"
    PACKET_SERVER_HANDSHAKE := 0
    PACKET_SERVER_STATUS_REQUEST := 0
    PACKET_SERVER_STATUS_PING := 1
    PACKET_SERVER_LOGIN_START := 0
    PACKET_SERVER_LOGIN_ENCRYPT_RESPONSE := 1
    PACKET_SERVER_CLIENT_SETTINGS := 21
    Colorize := fun t => t
    Authenticate := false
    MaxPlayers := 1
    Motd := "A proxy"
    LocaleLoggedIn := "already logged in"
    LocaleFull := "server full"
    LocaleOffline := "server offline"
    HasName := fun _ => false
    Len := 5
    Route := fun _ => "lobby"
    Server := fun _ => some ⟨"127.0.0.1:25566"⟩
    AddLocalPlayer := fun _ => 1
    ConnectMaxPlayers := 100
    Players := 5
    Write := fun _ => none
    Dial := fun _ => none
    ReadFile := fun _ => ([], some "open server-icon.png: no such file or directory")
    base64 := fun _ => ""
    jsonMarshalString := fun t => "\"" ++ t ++ "\""
    jsonMarshalStatus := fun _ => ("\x7b\x7d", none)
    GenSalt := ("salt", none)
    MarshalPKIXPublicKey := ([48, 129], none)
    RandomBytes := fun n => (List.replicate n 7, none)
    DecryptPKCS1v15 := fun ct => (ct, none)
    NewCFB8DecrypterErr := fun _ _ => none
    NewCFB8EncrypterErr := fun _ _ => none
    AuthAuthenticate := fun _ _ _ _ => ("uuid-1", none) }

/-- A handshake that asks for the login phase with the protocol version of `exampleEnv`. -/
def loginHandshake : Packet :=
  .ServerHandshake ⟨4, "play.example.org", 2⟩

/-- A login-start packet for the player `alice`. -/
def aliceLoginStart : Packet :=
  .ServerLoginStart ⟨"alice"⟩

/-- The session after the handshake `loginHandshake`: it is in `STATE_LOGIN`. -/
def loginSession : Session :=
  handlePackets (freshSession "10.0.0.1" "50000") [(exampleEnv, loginHandshake)]

/-- The session after `loginHandshake` and `aliceLoginStart` in `exampleEnv`: it is in
`STATE_INIT`. -/
def initSession : Session :=
  handlePackets (freshSession "10.0.0.1" "50000")
    [(exampleEnv, loginHandshake), (exampleEnv, aliceLoginStart)]

/-- A session in `STATE_LOGIN_ENCRYPT` for `alice` whose stored verify token is 7, 7, 7, 7. -/
def encryptSession : Session :=
  { loginSession with
    name := "alice"
    serverId := "salt"
    publicKey := [48, 129]
    verifyToken := [7, 7, 7, 7]
    state := .STATE_LOGIN_ENCRYPT }

/-- The world `exampleEnv`, but RSA decryption fails on the ciphertext 0. -/
def brokenSecretEnv : Env :=
  { exampleEnv with
    Authenticate := true
    DecryptPKCS1v15 := fun ct =>
      if ct = [0] then ([], some "crypto/rsa: decryption error") else (ct, none) }

/-- The world `exampleEnv`, but the backend-connection manager answers -2 to
`AddLocalPlayer`. -/
def minusTwoEnv : Env :=
  { exampleEnv with AddLocalPlayer := fun _ => -2 }

/-- The world `exampleEnv`, but with a player cap of 5 (and five registered sessions). -/
def fullEnv : Env :=
  { exampleEnv with MaxPlayers := 5 }

/-- The world `exampleEnv`, but the name asked for is already registered. -/
def takenEnv : Env :=
  { exampleEnv with HasName := fun _ => true }

/-- The world `exampleEnv`, but the backend-connection manager answers 0 to
`AddLocalPlayer`. -/
def presentEnv : Env :=
  { exampleEnv with AddLocalPlayer := fun _ => 0 }

/-- A sixteen-byte shared secret. -/
def secret16 : Bytes :=
  [1, 2, 3, 4, 5, 6, 7, 8, 9, 10, 11, 12, 13, 14, 15, 16]

/-- The status document `HandlePacket` builds in `STATE_STATUS` (lines 166 to 185 of the
source): the favicon entry is set only when the favicon string is not empty. -/
def statusDocument (env : Env) : StatusResponse :=
  let favicon := (env.ReadFile "server-icon.png").1
  let faviconErr := (env.ReadFile "server-icon.png").2
  let faviconString : String :=
    if faviconErr = none then "data:image/png;base64," ++ env.base64 favicon else ""
  { versionName := env.STRING_VERSION
    versionProtocol := env.VERSION
    playersMax := env.ConnectMaxPlayers
    playersOnline := env.Players
    descriptionText := env.Colorize env.Motd
    favicon := if faviconString ≠ "" then some faviconString else none }

/-- The edges of the transition graph of the state table, `STATE_INIT` to `STATE_CONNECTED`
(taken by the bridge) left out. -/
def legalEdge : SessionState → SessionState → Bool
  | .STATE_DISCONNECTED, .STATE_STATUS => true
  | .STATE_DISCONNECTED, .STATE_LOGIN => true
  | .STATE_STATUS, .STATE_STATUS_PING => true
  | .STATE_LOGIN, .STATE_LOGIN_ENCRYPT => true
  | .STATE_LOGIN, .STATE_INIT => true
  | .STATE_LOGIN_ENCRYPT, .STATE_INIT => true
  | _, _ => false

/-- The position of a phase on the way from a fresh session to a bridged one; the two
status phases lie on a branch of their own. -/
def SessionState.rank : SessionState → Nat
  | .STATE_DISCONNECTED => 0
  | .STATE_STATUS => 1
  | .STATE_STATUS_PING => 2
  | .STATE_LOGIN => 1
  | .STATE_LOGIN_ENCRYPT => 2
  | .STATE_INIT => 3
  | .STATE_CONNECTED => 4

/-- The read loop's calls of `HandlePacket`, as calls. -/
def packetCalls (inputs : List (Env × Packet)) : List Call :=
  inputs.map (fun input => Call.HandlePacket input.1 input.2)

/-- The phases from which `STATE_LOGIN` can no longer be entered by `HandlePacket`. -/
def SessionState.pastLogin : SessionState → Bool
  | .STATE_LOGIN_ENCRYPT => true
  | .STATE_INIT => true
  | .STATE_CONNECTED => true
  | .STATE_STATUS => true
  | .STATE_STATUS_PING => true
  | _ => false

/-- The phases before the encryption response has been handled. -/
def SessionState.beforeEncrypt : SessionState → Bool
  | .STATE_DISCONNECTED => true
  | .STATE_STATUS => true
  | .STATE_STATUS_PING => true
  | .STATE_LOGIN => true
  | _ => false

/-- Modelled from the spec: the two shared structures of the proxy, which are not in
`session.go`: the names in the active-sessions registry and the names holding a player
reservation in the backend-connection manager. -/
structure Registries where
  sessions : List String
  players : List String
  deriving DecidableEq, Repr

/-- Modelled from the spec: what one call of a session does to the shared structures, by
their interfaces: `Register` enters the name, `Unregister` removes it, `AddLocalPlayer`
reserves the name when its answer is positive, `RemoveLocalPlayer` releases it; no other
call changes them. -/
def Registries.apply (w : Registries) : Event → Registries
  | .Register n => { w with sessions := n :: w.sessions }
  | .Unregister n => { w with sessions := w.sessions.filter (fun m => m != n) }
  | .AddLocalPlayer n r => if 0 < r then { w with players := n :: w.players } else w
  | .RemoveLocalPlayer n => { w with players := w.players.filter (fun m => m != n) }
  | _ => w

/-- The shared structures after a list of events. -/
def Registries.applyAll (w : Registries) : List Event → Registries
  | [] => w
  | e :: es => Registries.applyAll (w.apply e) es

/-- Whether an event is free of the encryption handshake and, if it is the write of a
login-success packet, carries the given uuid and name: it is no encryption request and no
installation of a cipher reader or writer. -/
def Event.plainLogin (uuid name : String) : Event → Bool
  | .Write (.PacketClientLoginEncryptRequest _ _ _) => false
  | .SetReader _ => false
  | .SetWriter _ => false
  | .Write (.PacketClientLoginSuccess u n) => decide (u = uuid ∧ n = name)
  | _ => true

/-- The world `exampleEnv`, but the proxy requires authentication. -/
def authEnv : Env :=
  { exampleEnv with Authenticate := true }

/-- The world `authEnv`, but exporting the public key fails. -/
def exportFailsEnv : Env :=
  { authEnv with MarshalPKIXPublicKey := ([], some "x509: unsupported public key type") }

/-- The world `exampleEnv`, but the favicon file exists. -/
def faviconEnv : Env :=
  { exampleEnv with ReadFile := fun _ => ([137, 80, 78, 71], none) }

/-- A handshake that asks for the status phase, announcing a protocol version the proxy
does not expect. -/
def statusHandshake : Packet :=
  .ServerHandshake ⟨47, "play.example.org", 1⟩

/-- A session in `STATE_CONNECTED`, bridged to a backend. -/
def connectedSession : Session :=
  (BridgeConnected initSession 1).session


/-! ## Unexpected packets (C1) -/

/-- C1 (as stated, refuted): the session `initSession`, produced from a fresh session by a
login handshake and a login-start packet, is in `STATE_INIT`, whose accepted set is empty;
yet `HandlePacket` returns a nil error for the packet given to it there. -/
theorem C1_init_returns_nil :
    initSession = handlePackets (freshSession "10.0.0.1" "50000")
        [(exampleEnv, loginHandshake), (exampleEnv, aliceLoginStart)] ∧
      initSession.state = .STATE_INIT ∧
      accepted exampleEnv initSession.state (.Other 99 []) = false ∧
      (HandlePacket exampleEnv initSession (.Other 99 [])).outcome = .returned none := by
  decide

/-- C1 (amended): in every phase other than `STATE_INIT`, a packet whose type identifier is
not in the accepted set of the phase makes `HandlePacket` return the error
"Unexpected packet", with no call made on any collaborator and the session (its phase
included) unchanged; in `STATE_INIT` every packet is ignored: `HandlePacket` returns a nil
error and leaves the session unchanged. -/
theorem C1_unexpected_packet (env : Env) (s : Session) (packet : Packet) :
    (s.state ≠ .STATE_INIT → accepted env s.state packet = false →
      (HandlePacket env s packet).outcome = .returned (some "Unexpected packet") ∧
      (HandlePacket env s packet).session = s ∧
      (HandlePacket env s packet).events = []) ∧
    (s.state = .STATE_INIT →
      (HandlePacket env s packet).outcome = .returned none ∧
      (HandlePacket env s packet).session = s ∧
      (HandlePacket env s packet).events = []) := by
  constructor
  · intro hinit hacc
    cases hst : s.state <;> simp [hst, accepted] at hinit hacc <;>
      simp [HandlePacket, hst, handleDisconnected, handleStatus, handleStatusPing,
        handleLogin, handleLoginEncrypt, failWith, hacc]
  · intro hst
    simp [HandlePacket, hst]

/-- C1 witness: a status-ping packet delivered to a fresh session (phase
`STATE_DISCONNECTED`) is answered with "Unexpected packet". -/
theorem C1_unexpected_packet_witness :
    (HandlePacket exampleEnv (freshSession "10.0.0.1" "50000")
        (.ServerStatusPing ⟨12⟩)).outcome = .returned (some "Unexpected packet") :=
  ((C1_unexpected_packet exampleEnv (freshSession "10.0.0.1" "50000")
    (.ServerStatusPing ⟨12⟩)).1 (by decide) (by decide)).1

/-! ## Verify token and protocol version (C2, C3) -/

/-- C2 (as stated, refuted): in `STATE_LOGIN_ENCRYPT`, for a response whose verify token
decrypts to 9, 9, 9, 9 while the stored token is 7, 7, 7, 7, but whose shared secret does
not decrypt, `HandlePacket` returns the RSA error, not "Verify token does not match". -/
theorem C2_secret_error_first :
    encryptSession.state = .STATE_LOGIN_ENCRYPT ∧
      brokenSecretEnv.DecryptPKCS1v15 [9, 9, 9, 9] = ([9, 9, 9, 9], none) ∧
      [9, 9, 9, 9] ≠ encryptSession.verifyToken ∧
      (HandlePacket brokenSecretEnv encryptSession
          (.ServerLoginEncryptResponse ⟨[0], [9, 9, 9, 9]⟩)).outcome =
        .returned (some "crypto/rsa: decryption error") ∧
      (HandlePacket brokenSecretEnv encryptSession
          (.ServerLoginEncryptResponse ⟨[0], [9, 9, 9, 9]⟩)).outcome ≠
        .returned (some "Verify token does not match") := by
  decide

/-- C2 (amended): in `STATE_LOGIN_ENCRYPT`, for every login-encrypt-response whose
RSA-decrypted verify token differs from the stored `verifyToken` (a different length
included), `HandlePacket` returns a non-nil error, which is "Verify token does not match"
when the shared secret RSA-decrypts and the decryption error of the shared secret
otherwise, and does not reach authenticated-handling: it makes no call at all (no cipher
installed, no identity verifier, no `SetAuthenticated`, no registry or reservation call)
and leaves the session, its phase included, unchanged. -/
theorem C2_verify_token_mismatch (env : Env) (s : Session)
    (response : PacketServerLoginEncryptResponse)
    (hstate : s.state = .STATE_LOGIN_ENCRYPT)
    (htoken : (env.DecryptPKCS1v15 response.VerifyToken).2 = none)
    (hdiff : (env.DecryptPKCS1v15 response.VerifyToken).1 ≠ s.verifyToken) :
    (∃ err, (HandlePacket env s (.ServerLoginEncryptResponse response)).outcome =
        .returned (some err)) ∧
      ((env.DecryptPKCS1v15 response.SharedSecret).2 = none →
        (HandlePacket env s (.ServerLoginEncryptResponse response)).outcome =
          .returned (some "Verify token does not match")) ∧
      (∀ err, (env.DecryptPKCS1v15 response.SharedSecret).2 = some err →
        (HandlePacket env s (.ServerLoginEncryptResponse response)).outcome =
          .returned (some err)) ∧
      (HandlePacket env s (.ServerLoginEncryptResponse response)).events = [] ∧
      (HandlePacket env s (.ServerLoginEncryptResponse response)).events.filter
        Event.isCallSetAuthenticated = [] ∧
      (HandlePacket env s (.ServerLoginEncryptResponse response)).events.filter
        Event.isAuthAuthenticate = [] ∧
      (HandlePacket env s (.ServerLoginEncryptResponse response)).events.filter
        Event.touchesRegistry = [] ∧
      (HandlePacket env s (.ServerLoginEncryptResponse response)).session = s ∧
      (HandlePacket env s (.ServerLoginEncryptResponse response)).session.connCodec =
        s.connCodec ∧
      (HandlePacket env s (.ServerLoginEncryptResponse response)).session.state =
        .STATE_LOGIN_ENCRYPT := by
  have hdiff2 : ¬ s.verifyToken = (env.DecryptPKCS1v15 response.VerifyToken).1 :=
    fun h => hdiff h.symm
  cases hsecret : (env.DecryptPKCS1v15 response.SharedSecret).2 with
  | none =>
    simp [HandlePacket, hstate, handleLoginEncrypt, Packet.Id, hsecret, htoken, hdiff2,
      failWith]
  | some e =>
    simp [HandlePacket, hstate, handleLoginEncrypt, Packet.Id, hsecret, failWith]

/-- C2 witness: a token of a different length than the stored one is refused, with the
mismatch error when the secret decrypts. -/
theorem C2_verify_token_mismatch_witness :
    (HandlePacket exampleEnv encryptSession
          (.ServerLoginEncryptResponse ⟨secret16, [7, 7, 7]⟩)).outcome =
        .returned (some "Verify token does not match") ∧
      (HandlePacket brokenSecretEnv encryptSession
          (.ServerLoginEncryptResponse ⟨[0], [9, 9, 9, 9]⟩)).events = [] ∧
      (HandlePacket brokenSecretEnv encryptSession
          (.ServerLoginEncryptResponse ⟨[0], [9, 9, 9, 9]⟩)).session = encryptSession :=
  ⟨(C2_verify_token_mismatch exampleEnv encryptSession ⟨secret16, [7, 7, 7]⟩
      (by decide) (by decide) (by decide)).2.1 (by decide),
    (C2_verify_token_mismatch brokenSecretEnv encryptSession ⟨[0], [9, 9, 9, 9]⟩
      (by decide) (by decide) (by decide)).2.2.2.1,
    (C2_verify_token_mismatch brokenSecretEnv encryptSession ⟨[0], [9, 9, 9, 9]⟩
      (by decide) (by decide) (by decide)).2.2.2.2.2.2.2.1⟩

/-- C3: in `STATE_DISCONNECTED`, a handshake with next-state 2 whose protocol version is
not `minecraft.VERSION` makes `HandlePacket` return "Protocol version does not match"; the
phase stays `STATE_DISCONNECTED`, the codecs are the ones in force before the call and no
codec call is made. -/
theorem C3_version_mismatch (env : Env) (s : Session) (handshake : PacketServerHandshake)
    (hstate : s.state = .STATE_DISCONNECTED)
    (hnext : handshake.State = 2)
    (hversion : handshake.ProtocolVersion ≠ env.VERSION) :
    (HandlePacket env s (.ServerHandshake handshake)).outcome =
        .returned (some "Protocol version does not match") ∧
      (HandlePacket env s (.ServerHandshake handshake)).session.state =
        .STATE_DISCONNECTED ∧
      (HandlePacket env s (.ServerHandshake handshake)).session.state ≠ .STATE_LOGIN ∧
      (HandlePacket env s (.ServerHandshake handshake)).session.codec = s.codec ∧
      (HandlePacket env s (.ServerHandshake handshake)).events = [] := by
  simp [HandlePacket, hstate, handleDisconnected, Packet.Id, hnext, hversion, failWith]

/-- C3 witness: a login handshake announcing protocol version 5 to a proxy expecting 4. -/
theorem C3_version_mismatch_witness :
    (HandlePacket exampleEnv (freshSession "10.0.0.1" "50000")
        (.ServerHandshake ⟨5, "play.example.org", 2⟩)).outcome =
      .returned (some "Protocol version does not match") :=
  (C3_version_mismatch exampleEnv (freshSession "10.0.0.1" "50000")
    ⟨5, "play.example.org", 2⟩ (by decide) (by decide) (by decide)).1

/-! ## The branches of `SetAuthenticated` -/

/-- The events of `Disconnect` are at most one write followed by the close. -/
theorem Disconnect_events (env : Env) (s : Session) (reason : String) :
    (Disconnect env s reason).events =
        [.Write (.PacketClientLoginDisconnect (chatText env reason)), .ConnClose] ∨
      (Disconnect env s reason).events =
        [.Write (.PacketClientDisconnect (chatText env reason)), .ConnClose] ∨
      (Disconnect env s reason).events = [.ConnClose] := by
  simp only [Disconnect, DisconnectRaw]
  split
  · simp
  · split <;> simp

/-- The session after `Disconnect` is the session with its connection closed. -/
theorem Disconnect_session (env : Env) (s : Session) (reason : String) :
    (Disconnect env s reason).session = { s with conn := ⟨true⟩ } := by
  simp [Disconnect, DisconnectRaw]

/-- The session after `Redirect` is the session, with its connection closed or not. -/
theorem Redirect_session (env : Env) (s : Session) (server : ConnectServer) :
    (Redirect env s server).session = s ∨
      (Redirect env s server).session = { s with conn := ⟨true⟩ } := by
  simp only [Redirect]
  split
  · split
    · right
      simp [Disconnect_session]
    · left
      rfl
  · left
    rfl

/-- The events of `Redirect`: the dial, followed by the start of the bridge, by nothing,
or by the events of a `Disconnect`. -/
theorem Redirect_events (env : Env) (s : Session) (server : ConnectServer) :
    (Redirect env s server).events = [.Dial server.Addr, .OutBridgeServe server] ∨
      (Redirect env s server).events = [.Dial server.Addr] ∨
      (Redirect env s server).events =
        .Dial server.Addr ::
          (Disconnect env s "Error: Outbound Connection Mismatch").events := by
  simp only [Redirect]
  split
  · split
    · right
      right
      simp
    · right
      left
      rfl
  · left
    rfl

/-- Every call of `SetAuthenticated` takes one of three courses: it disconnects before
reserving a player slot, it disconnects after a reservation answered 0 or -1, or it accepts
the session and redirects it. -/
theorem SetAuthenticated_cases (env : Env) (s : Session) (result : Bool) :
    (∃ queries reason, (∀ e ∈ queries, e.isQuery = true) ∧ reason ∈ rejectionReasons env ∧
        SetAuthenticated env s result =
          (Disconnect env s reason).after (.CallSetAuthenticated result :: queries)) ∨
      (∃ reason, reason ∈ rejectionReasons env ∧
        (env.AddLocalPlayer s.name = 0 ∨ env.AddLocalPlayer s.name = -1) ∧
        SetAuthenticated env s result =
          (Disconnect env s reason).after
            (.CallSetAuthenticated result :: queriesBeforeReservation env s ++
              [.AddLocalPlayer s.name (env.AddLocalPlayer s.name)])) ∨
      (∃ server, result = true ∧ env.AddLocalPlayer s.name ≠ 0 ∧
        env.AddLocalPlayer s.name ≠ -1 ∧
        SetAuthenticated env s result =
          (Redirect env s.accepted server).after
            (.CallSetAuthenticated result :: queriesBeforeReservation env s ++
              acceptEvents s (env.AddLocalPlayer s.name))) := by
  by_cases hr : result = true
  swap
  · refine Or.inl ⟨[], "Error: Authentication to Minecraft.net Failed", by simp, ?_, ?_⟩
    · simp [rejectionReasons]
    · simp [SetAuthenticated, hr]
  by_cases hn : env.HasName s.name = true
  · refine Or.inl ⟨[.HasName s.name], env.Colorize env.LocaleLoggedIn, ?_, ?_, ?_⟩
    · simp [Event.isQuery]
    · simp [rejectionReasons]
    · simp [SetAuthenticated, hr, hn]
  by_cases hc : 1 < env.MaxPlayers ∧ env.MaxPlayers ≤ env.Len
  · refine Or.inl ⟨[.HasName s.name, .Len], env.Colorize env.LocaleFull, ?_, ?_, ?_⟩
    · simp [Event.isQuery]
    · simp [rejectionReasons]
    · simp [SetAuthenticated, hr, hn, hc]
  by_cases hroute : (env.Route s.serverAddress).length = 0
  · refine Or.inl ⟨[.HasName s.name] ++ (if 1 < env.MaxPlayers then [.Len] else []) ++
        [.Route s.serverAddress], env.Colorize env.LocaleOffline, ?_, ?_, ?_⟩
    · rw [← List.all_eq_true]
      split <;> rfl
    · simp [rejectionReasons]
    · simp [SetAuthenticated, hr, hn, hc, hroute]
  cases hserver : env.Server (env.Route s.serverAddress) with
  | none =>
    refine Or.inl ⟨queriesBeforeReservation env s, env.Colorize env.LocaleOffline, ?_, ?_, ?_⟩
    · rw [← List.all_eq_true]
      simp only [queriesBeforeReservation]
      split <;> rfl
    · simp [rejectionReasons]
    · simp [SetAuthenticated, hr, hn, hc, hroute, hserver, queriesBeforeReservation]
  | some server =>
    by_cases h0 : env.AddLocalPlayer s.name = 0
    · refine Or.inr (Or.inl ⟨env.Colorize env.LocaleLoggedIn, ?_, Or.inl h0, ?_⟩)
      · simp [rejectionReasons]
      · simp [SetAuthenticated, hr, hn, hc, hroute, hserver, h0, queriesBeforeReservation]
    by_cases h1 : env.AddLocalPlayer s.name = -1
    · refine Or.inr (Or.inl ⟨env.Colorize env.LocaleLoggedIn, ?_, Or.inr h1, ?_⟩)
      · simp [rejectionReasons]
      · simp [SetAuthenticated, hr, hn, hc, hroute, hserver, h1, queriesBeforeReservation]
    · refine Or.inr (Or.inr ⟨server, hr, h0, h1, ?_⟩)
      simp [SetAuthenticated, hr, hn, hc, hroute, hserver, h0, h1, queriesBeforeReservation,
        acceptEvents, Session.accepted]

/-- The session after `SetAuthenticated`: the session with its connection closed (a
rejection), or the accepted session, with its connection closed or not. -/
theorem SetAuthenticated_session (env : Env) (s : Session) (result : Bool) :
    (SetAuthenticated env s result).session = { s with conn := ⟨true⟩ } ∨
      (SetAuthenticated env s result).session = s.accepted ∨
      (SetAuthenticated env s result).session = { s.accepted with conn := ⟨true⟩ } := by
  rcases SetAuthenticated_cases env s result with
    ⟨queries, reason, -, -, heq⟩ | ⟨reason, -, -, heq⟩ | ⟨server, -, -, -, heq⟩
  · left
    rw [heq]
    simp [Effect.after, Disconnect_session]
  · left
    rw [heq]
    simp [Effect.after, Disconnect_session]
  · right
    rw [heq]
    simpa [Effect.after] using Redirect_session env s.accepted server

/-! ## Authenticated-handling (C5, C6, C8) -/

/-- The events of `Disconnect` contain no registry or reservation call. -/
theorem Disconnect_events_filter_touchesRegistry (env : Env) (s : Session) (reason : String) :
    (Disconnect env s reason).events.filter Event.touchesRegistry = [] := by
  simp only [Disconnect, DisconnectRaw]
  split
  · simp [List.filter, Event.touchesRegistry]
  · split <;> simp [List.filter, Event.touchesRegistry]

/-- The events of `Redirect` contain no registry or reservation call. -/
theorem Redirect_events_filter_touchesRegistry (env : Env) (s : Session)
    (server : ConnectServer) :
    (Redirect env s server).events.filter Event.touchesRegistry = [] := by
  simp only [Redirect]
  split
  · split
    · simp [List.filter_cons, Event.touchesRegistry, Disconnect_events_filter_touchesRegistry]
    · simp [List.filter, Event.touchesRegistry]
  · simp [List.filter, Event.touchesRegistry]

/-- A list without registry or reservation calls has no event satisfying a test that only
such calls satisfy. -/
theorem filter_eq_nil_of_touchesRegistry (test : Event → Bool) (events : List Event)
    (himp : ∀ e, test e = true → e.touchesRegistry = true)
    (hnone : events.filter Event.touchesRegistry = []) :
    events.filter test = [] := by
  rw [List.filter_eq_nil_iff] at hnone ⊢
  intro e he ht
  exact hnone e he (himp e ht)

/-- A `Register` call touches the registry. -/
theorem isRegister_touchesRegistry (e : Event) (h : e.isRegister = true) :
    e.touchesRegistry = true := by
  cases e <;> simp_all [Event.isRegister, Event.touchesRegistry]

/-- An `AddLocalPlayer` call touches the reservations. -/
theorem isAddLocalPlayer_touchesRegistry (e : Event) (h : e.isAddLocalPlayer = true) :
    e.touchesRegistry = true := by
  cases e <;> simp_all [Event.isAddLocalPlayer, Event.touchesRegistry]

/-- C5 (as stated, refuted): with a player cap of 1 and five registered sessions, a call
`SetAuthenticated(true)` for an unregistered name is not refused: the phase becomes
`STATE_INIT`, a reservation is made and the session is registered. -/
theorem C5_cap_one_not_enforced :
    exampleEnv.HasName loginSession.name = false ∧
      1 ≤ exampleEnv.MaxPlayers ∧
      exampleEnv.MaxPlayers ≤ exampleEnv.Len ∧
      (SetAuthenticated exampleEnv loginSession true).session.state = .STATE_INIT ∧
      Event.AddLocalPlayer loginSession.name 1 ∈
        (SetAuthenticated exampleEnv loginSession true).events ∧
      Event.Register loginSession.name ∈
        (SetAuthenticated exampleEnv loginSession true).events := by
  decide

/-- C5 (amended): for every call `SetAuthenticated(true)` in which the name is not already
registered, if the player cap `MaxPlayers()` is greater than 1 and the registry size `Len()`
is at least that cap, the session is disconnected with the "server full" text (after the
`HasName` and `Len` queries), no reservation and no registration is made, and the phase is
the one before the call. -/
theorem C5_server_full (env : Env) (s : Session)
    (hname : env.HasName s.name = false)
    (hcap : 1 < env.MaxPlayers)
    (hlen : env.MaxPlayers ≤ env.Len) :
    SetAuthenticated env s true =
        (Disconnect env s (env.Colorize env.LocaleFull)).after
          [.CallSetAuthenticated true, .HasName s.name, .Len] ∧
      (SetAuthenticated env s true).session.state = s.state ∧
      (SetAuthenticated env s true).events.filter Event.isAddLocalPlayer = [] ∧
      (SetAuthenticated env s true).events.filter Event.isRegister = [] := by
  have heq : SetAuthenticated env s true =
      (Disconnect env s (env.Colorize env.LocaleFull)).after
        [.CallSetAuthenticated true, .HasName s.name, .Len] := by
    simp [SetAuthenticated, hname, hcap, hlen]
  refine ⟨heq, ?_, ?_, ?_⟩
  · rw [heq]
    simp [Effect.after, Disconnect, DisconnectRaw]
  · rw [heq]
    simp only [Effect.after, List.filter_append]
    rw [filter_eq_nil_of_touchesRegistry _ _ isAddLocalPlayer_touchesRegistry
      (Disconnect_events_filter_touchesRegistry env s _)]
    simp [List.filter, Event.isAddLocalPlayer]
  · rw [heq]
    simp only [Effect.after, List.filter_append]
    rw [filter_eq_nil_of_touchesRegistry _ _ isRegister_touchesRegistry
      (Disconnect_events_filter_touchesRegistry env s _)]
    simp [List.filter, Event.isRegister]

/-- C5 witness: a cap of 5 with five registered sessions refuses the login. -/
theorem C5_server_full_witness :
    SetAuthenticated fullEnv loginSession true =
        (Disconnect fullEnv loginSession (fullEnv.Colorize fullEnv.LocaleFull)).after
          [.CallSetAuthenticated true, .HasName loginSession.name, .Len] ∧
      (SetAuthenticated fullEnv loginSession true).session.state = loginSession.state ∧
      (SetAuthenticated fullEnv loginSession true).events.filter Event.isAddLocalPlayer = [] ∧
      (SetAuthenticated fullEnv loginSession true).events.filter Event.isRegister = [] :=
  C5_server_full fullEnv loginSession (by decide) (by decide) (by decide)

/-- C6 (as stated, refuted): when `AddLocalPlayer` answers -2, a negative result, the call
`SetAuthenticated(true)` is not refused: the phase becomes `STATE_INIT`, the login-success
packet is written and the session is registered. -/
theorem C6_minus_two_accepted :
    minusTwoEnv.AddLocalPlayer loginSession.name = -2 ∧
      (SetAuthenticated minusTwoEnv loginSession true).session.state = .STATE_INIT ∧
      Event.Write (.PacketClientLoginSuccess loginSession.uuid loginSession.name) ∈
        (SetAuthenticated minusTwoEnv loginSession true).events ∧
      Event.Register loginSession.name ∈
        (SetAuthenticated minusTwoEnv loginSession true).events := by
  decide

/-- C6 (amended): for every call `SetAuthenticated(true)` that passes the name, cap,
routing and backend-lookup checks, when `AddLocalPlayer(name)` answers 0 or -1 the session
is disconnected with the "already logged in" text, the phase is the one before the call,
no login-success packet is written and the session is not registered. -/
theorem C6_reservation_refused (env : Env) (s : Session) (server : ConnectServer)
    (hname : env.HasName s.name = false)
    (hcap : ¬ (1 < env.MaxPlayers ∧ env.MaxPlayers ≤ env.Len))
    (hroute : (env.Route s.serverAddress).length ≠ 0)
    (hserver : env.Server (env.Route s.serverAddress) = some server)
    (hadd : env.AddLocalPlayer s.name = 0 ∨ env.AddLocalPlayer s.name = -1) :
    SetAuthenticated env s true =
        (Disconnect env s (env.Colorize env.LocaleLoggedIn)).after
          ([.CallSetAuthenticated true, .HasName s.name] ++
            (if 1 < env.MaxPlayers then [.Len] else []) ++
            [ .Route s.serverAddress, .ConnectServer (env.Route s.serverAddress),
              .AddLocalPlayer s.name (env.AddLocalPlayer s.name) ]) ∧
      (SetAuthenticated env s true).session.state = s.state ∧
      Event.Write (.PacketClientLoginSuccess s.uuid s.name) ∉
        (SetAuthenticated env s true).events ∧
      (SetAuthenticated env s true).events.filter Event.isRegister = [] := by
  have heq : SetAuthenticated env s true =
      (Disconnect env s (env.Colorize env.LocaleLoggedIn)).after
        ([.CallSetAuthenticated true, .HasName s.name] ++
          (if 1 < env.MaxPlayers then [.Len] else []) ++
          [ .Route s.serverAddress, .ConnectServer (env.Route s.serverAddress),
            .AddLocalPlayer s.name (env.AddLocalPlayer s.name) ]) := by
    rcases hadd with h | h <;>
      simp [SetAuthenticated, hname, hcap, hroute, hserver, h]
  refine ⟨heq, ?_, ?_, ?_⟩
  · rw [heq]
    simp [Effect.after, Disconnect, DisconnectRaw]
  · rw [heq]
    simp only [Effect.after, Disconnect, DisconnectRaw]
    split <;> split <;> simp
  · rw [heq]
    simp only [Effect.after, List.filter_append]
    rw [filter_eq_nil_of_touchesRegistry _ _ isRegister_touchesRegistry
      (Disconnect_events_filter_touchesRegistry env s _)]
    split <;> simp [List.filter, Event.isRegister]

/-- C6 witness: the answer 0 (name already present) refuses the login. -/
theorem C6_reservation_refused_witness :
    (SetAuthenticated presentEnv loginSession true).session.state = loginSession.state :=
  (C6_reservation_refused presentEnv loginSession ⟨"127.0.0.1:25566"⟩
    (by decide) (by decide) (by decide) (by decide) (by decide)).2.1

/-- The events of `Redirect` contain no `Register` call. -/
theorem Redirect_events_filter_isRegister (env : Env) (s : Session) (server : ConnectServer) :
    (Redirect env s server).events.filter Event.isRegister = [] :=
  filter_eq_nil_of_touchesRegistry _ _ isRegister_touchesRegistry
    (Redirect_events_filter_touchesRegistry env s server)

/-- The events of `Redirect` contain no `AddLocalPlayer` call. -/
theorem Redirect_events_filter_isAddLocalPlayer (env : Env) (s : Session)
    (server : ConnectServer) :
    (Redirect env s server).events.filter Event.isAddLocalPlayer = [] :=
  filter_eq_nil_of_touchesRegistry _ _ isAddLocalPlayer_touchesRegistry
    (Redirect_events_filter_touchesRegistry env s server)

/-- C8: for every call `SetAuthenticated(true)`, made with the login encode codec in
force, in which all checks pass (name not registered, cap not reached, non-empty route,
backend descriptor found, positive reservation result), the events are, in this order: the
queries with the one `AddLocalPlayer` call; the phase set to `STATE_INIT`; the login-success
packet carrying (uuid, name), written while the encode codec is still the login codec; the
encode and decode codecs switched to the play codecs; one `Register`; and `Redirect` on the
descriptor that was looked up.  `AddLocalPlayer` and `Register` occur exactly once. -/
theorem C8_accept_order (env : Env) (s : Session) (server : ConnectServer)
    (hcodec : s.codec.encodeCodec = .LoginPacketClientCodec)
    (hname : env.HasName s.name = false)
    (hcap : ¬ (1 < env.MaxPlayers ∧ env.MaxPlayers ≤ env.Len))
    (hroute : (env.Route s.serverAddress).length ≠ 0)
    (hserver : env.Server (env.Route s.serverAddress) = some server)
    (hadd : 0 < env.AddLocalPlayer s.name) :
    SetAuthenticated env s true =
        (Redirect env
            { s with
              state := .STATE_INIT
              codec := ⟨.PlayPacketClientCodec, .PlayPacketServerCodec⟩ }
            server).after
          ([.CallSetAuthenticated true, .HasName s.name] ++
            (if 1 < env.MaxPlayers then [.Len] else []) ++
            [ .Route s.serverAddress, .ConnectServer (env.Route s.serverAddress),
              .AddLocalPlayer s.name (env.AddLocalPlayer s.name),
              .SetState .STATE_INIT,
              .Write (.PacketClientLoginSuccess s.uuid s.name),
              .SetEncodeCodec .PlayPacketClientCodec,
              .SetDecodeCodec .PlayPacketServerCodec,
              .Register s.name ]) ∧
      (writtenUnder s.codec.encodeCodec (SetAuthenticated env s true).events).head? =
        some (.LoginPacketClientCodec, .PacketClientLoginSuccess s.uuid s.name) ∧
      (SetAuthenticated env s true).events.filter Event.isRegister = [.Register s.name] ∧
      (SetAuthenticated env s true).events.filter Event.isAddLocalPlayer =
        [.AddLocalPlayer s.name (env.AddLocalPlayer s.name)] ∧
      (SetAuthenticated env s true).session.state = .STATE_INIT := by
  have h0 : ¬ env.AddLocalPlayer s.name = 0 := by omega
  have h1 : ¬ env.AddLocalPlayer s.name = -1 := by omega
  have heq : SetAuthenticated env s true =
      (Redirect env
          { s with
            state := .STATE_INIT
            codec := ⟨.PlayPacketClientCodec, .PlayPacketServerCodec⟩ }
          server).after
        ([.CallSetAuthenticated true, .HasName s.name] ++
          (if 1 < env.MaxPlayers then [.Len] else []) ++
          [ .Route s.serverAddress, .ConnectServer (env.Route s.serverAddress),
            .AddLocalPlayer s.name (env.AddLocalPlayer s.name),
            .SetState .STATE_INIT,
            .Write (.PacketClientLoginSuccess s.uuid s.name),
            .SetEncodeCodec .PlayPacketClientCodec,
            .SetDecodeCodec .PlayPacketServerCodec,
            .Register s.name ]) := by
    simp [SetAuthenticated, hname, hcap, hroute, hserver, h0, h1]
  refine ⟨heq, ?_, ?_, ?_, ?_⟩
  · rw [heq, hcodec]
    simp only [Effect.after]
    split <;> simp [writtenUnder]
  · rw [heq]
    simp only [Effect.after, List.filter_append, Redirect_events_filter_isRegister]
    split <;> simp [List.filter, Event.isRegister]
  · rw [heq]
    simp only [Effect.after, List.filter_append, Redirect_events_filter_isAddLocalPlayer]
    split <;> simp [List.filter, Event.isAddLocalPlayer]
  · rw [heq]
    simp only [Effect.after, Redirect, Disconnect, DisconnectRaw]
    split
    · split <;> rfl
    · rfl

/-- C8 witness: the login of `alice` in `exampleEnv` registers her once. -/
theorem C8_accept_order_witness :
    (SetAuthenticated exampleEnv loginSession true).events.filter Event.isRegister =
      [.Register loginSession.name] :=
  (C8_accept_order exampleEnv loginSession ⟨"127.0.0.1:25566"⟩
    (by decide) (by decide) (by decide) (by decide) (by decide) (by decide)).2.2.1

/-- A list of queries has no event satisfying a test that no query satisfies. -/
theorem filter_eq_nil_of_isQuery (test : Event → Bool) (events : List Event)
    (hdisj : ∀ e, test e = true → e.isQuery = false)
    (hall : ∀ e ∈ events, e.isQuery = true) :
    events.filter test = [] := by
  rw [List.filter_eq_nil_iff]
  intro e he ht
  have h1 := hall e he
  have h2 := hdisj e ht
  simp [h1] at h2

/-- The queries made before the reservation are queries. -/
theorem queriesBeforeReservation_isQuery (env : Env) (s : Session) :
    ∀ e ∈ queriesBeforeReservation env s, e.isQuery = true := by
  rw [← List.all_eq_true]
  simp only [queriesBeforeReservation]
  split <;> rfl

/-- The events of `Disconnect` contain neither an identity-verifier call nor an entry into
`SetAuthenticated`. -/
theorem Disconnect_events_filter_auth (env : Env) (s : Session) (reason : String) :
    (Disconnect env s reason).events.filter Event.isAuthAuthenticate = [] ∧
      (Disconnect env s reason).events.filter Event.isCallSetAuthenticated = [] := by
  rcases Disconnect_events env s reason with h | h | h <;>
    simp [h, List.filter, Event.isAuthAuthenticate, Event.isCallSetAuthenticated]

/-- The events of `Redirect` contain neither an identity-verifier call nor an entry into
`SetAuthenticated`. -/
theorem Redirect_events_filter_auth (env : Env) (s : Session) (server : ConnectServer) :
    (Redirect env s server).events.filter Event.isAuthAuthenticate = [] ∧
      (Redirect env s server).events.filter Event.isCallSetAuthenticated = [] := by
  rcases Redirect_events env s server with h | h | h <;>
    simp [h, List.filter_cons, Event.isAuthAuthenticate, Event.isCallSetAuthenticated,
      Disconnect_events_filter_auth]

/-- The events of `SetAuthenticated` contain no identity-verifier call and exactly one
entry into `SetAuthenticated`. -/
theorem SetAuthenticated_events_filter_auth (env : Env) (s : Session) (result : Bool) :
    (SetAuthenticated env s result).events.filter Event.isAuthAuthenticate = [] ∧
      (SetAuthenticated env s result).events.filter Event.isCallSetAuthenticated =
        [.CallSetAuthenticated result] := by
  have hq1 : ∀ e : Event, e.isAuthAuthenticate = true → e.isQuery = false := by
    intro e; cases e <;> simp [Event.isAuthAuthenticate, Event.isQuery]
  have hq2 : ∀ e : Event, e.isCallSetAuthenticated = true → e.isQuery = false := by
    intro e; cases e <;> simp [Event.isCallSetAuthenticated, Event.isQuery]
  have hb1 := filter_eq_nil_of_isQuery _ _ hq1 (queriesBeforeReservation_isQuery env s)
  have hb2 := filter_eq_nil_of_isQuery _ _ hq2 (queriesBeforeReservation_isQuery env s)
  rcases SetAuthenticated_cases env s result with
    ⟨queries, reason, hall, -, heq⟩ | ⟨reason, -, -, heq⟩ | ⟨server, -, -, -, heq⟩
  · rw [heq]
    simp [Effect.after, List.filter_cons, Event.isAuthAuthenticate,
      Event.isCallSetAuthenticated, Disconnect_events_filter_auth,
      filter_eq_nil_of_isQuery _ _ hq1 hall, filter_eq_nil_of_isQuery _ _ hq2 hall]
  · rw [heq]
    simp [Effect.after, List.filter_cons, List.filter_append, Event.isAuthAuthenticate,
      Event.isCallSetAuthenticated, Disconnect_events_filter_auth, hb1, hb2]
  · rw [heq]
    simp [Effect.after, List.filter_cons, List.filter_append, Event.isAuthAuthenticate,
      Event.isCallSetAuthenticated, Redirect_events_filter_auth, hb1, hb2, acceptEvents]

/-! ## The encryption response (C9) -/

/-- C9 (as stated, refuted): a response that encrypts the three-byte shared secret 1, 2, 3
and the stored verify token (in `exampleEnv` decryption gives back the bytes it is given)
does not succeed: `aes.NewCipher` refuses the key, `HandlePacket` returns its error, no
cipher is installed and the identity verifier is not called. -/
theorem C9_short_secret_fails :
    encryptSession.state = .STATE_LOGIN_ENCRYPT ∧
      exampleEnv.DecryptPKCS1v15 [1, 2, 3] = ([1, 2, 3], none) ∧
      exampleEnv.DecryptPKCS1v15 [7, 7, 7, 7] = (encryptSession.verifyToken, none) ∧
      (HandlePacket exampleEnv encryptSession
          (.ServerLoginEncryptResponse ⟨[1, 2, 3], [7, 7, 7, 7]⟩)).outcome =
        .returned (some "crypto/aes: invalid key size 3") ∧
      (HandlePacket exampleEnv encryptSession
          (.ServerLoginEncryptResponse ⟨[1, 2, 3], [7, 7, 7, 7]⟩)).events = [] ∧
      (HandlePacket exampleEnv encryptSession
          (.ServerLoginEncryptResponse ⟨[1, 2, 3], [7, 7, 7, 7]⟩)).session.connCodec =
        ⟨none, none⟩ := by
  decide

/-- C9 (amended): in `STATE_LOGIN_ENCRYPT`, for every login-encrypt-response that
RSA-decrypts to a shared secret of 16, 24 or 32 bytes, for which both CFB8 constructors
succeed, and to the stored verify token, `HandlePacket` returns a nil error; it installs
the decrypting reader and the encrypting writer (both CFB8 streams keyed and seeded with
the shared secret) before it calls the identity verifier, calls the verifier exactly once
with (name, serverId, sharedSecret, publicKey), stores the uuid it answers, and then calls
`SetAuthenticated` exactly once, with `true` iff the verifier returned no error. -/
theorem C9_encrypt_response (env : Env) (s : Session)
    (response : PacketServerLoginEncryptResponse) (secret : Bytes)
    (hstate : s.state = .STATE_LOGIN_ENCRYPT)
    (hsecret : env.DecryptPKCS1v15 response.SharedSecret = (secret, none))
    (htoken : env.DecryptPKCS1v15 response.VerifyToken = (s.verifyToken, none))
    (hlen : secret.length = 16 ∨ secret.length = 24 ∨ secret.length = 32)
    (hdecrypter : env.NewCFB8DecrypterErr ⟨secret⟩ secret = none)
    (hencrypter : env.NewCFB8EncrypterErr ⟨secret⟩ secret = none) :
    HandlePacket env s (.ServerLoginEncryptResponse response) =
        ((SetAuthenticated env
            { s with
              connCodec := ⟨some ⟨⟨secret⟩, secret, true⟩, some ⟨⟨secret⟩, secret, false⟩⟩
              uuid := (env.AuthAuthenticate s.name s.serverId secret s.publicKey).1 }
            (env.AuthAuthenticate s.name s.serverId secret s.publicKey).2.isNone).after
          [ .SetReader ⟨⟨secret⟩, secret, true⟩,
            .SetWriter ⟨⟨secret⟩, secret, false⟩,
            .AuthAuthenticate s.name s.serverId secret s.publicKey ]).done ∧
      (HandlePacket env s (.ServerLoginEncryptResponse response)).outcome = .returned none ∧
      (HandlePacket env s (.ServerLoginEncryptResponse response)).session.connCodec =
        ⟨some ⟨⟨secret⟩, secret, true⟩, some ⟨⟨secret⟩, secret, false⟩⟩ ∧
      (HandlePacket env s (.ServerLoginEncryptResponse response)).events.filter
          Event.isAuthAuthenticate =
        [.AuthAuthenticate s.name s.serverId secret s.publicKey] ∧
      (HandlePacket env s (.ServerLoginEncryptResponse response)).events.filter
          Event.isCallSetAuthenticated =
        [.CallSetAuthenticated
          (env.AuthAuthenticate s.name s.serverId secret s.publicKey).2.isNone] := by
  have haes : aesNewCipher secret = (⟨secret⟩, none) := by
    simp [aesNewCipher, hlen]
  have heq : HandlePacket env s (.ServerLoginEncryptResponse response) =
      ((SetAuthenticated env
          { s with
            connCodec := ⟨some ⟨⟨secret⟩, secret, true⟩, some ⟨⟨secret⟩, secret, false⟩⟩
            uuid := (env.AuthAuthenticate s.name s.serverId secret s.publicKey).1 }
          (env.AuthAuthenticate s.name s.serverId secret s.publicKey).2.isNone).after
        [ .SetReader ⟨⟨secret⟩, secret, true⟩,
          .SetWriter ⟨⟨secret⟩, secret, false⟩,
          .AuthAuthenticate s.name s.serverId secret s.publicKey ]).done := by
    simp only [HandlePacket, hstate, handleLoginEncrypt, Packet.Id, hsecret, htoken, haes,
      hdecrypter, hencrypter]
    cases (env.AuthAuthenticate s.name s.serverId secret s.publicKey).2 <;> simp
  refine ⟨heq, ?_, ?_, ?_, ?_⟩
  · rw [heq]
    rfl
  · rw [heq]
    simp only [Effect.done, Effect.after]
    rcases SetAuthenticated_session env
      { s with
        connCodec := ⟨some ⟨⟨secret⟩, secret, true⟩, some ⟨⟨secret⟩, secret, false⟩⟩
        uuid := (env.AuthAuthenticate s.name s.serverId secret s.publicKey).1 }
      (env.AuthAuthenticate s.name s.serverId secret s.publicKey).2.isNone with h | h | h <;>
      rw [h] <;> rfl
  · rw [heq]
    simp [Effect.done, Effect.after, List.filter_cons, Event.isAuthAuthenticate,
      SetAuthenticated_events_filter_auth]
  · rw [heq]
    simp [Effect.done, Effect.after, List.filter_cons, Event.isCallSetAuthenticated,
      SetAuthenticated_events_filter_auth]

/-- C9 witness: a sixteen-byte secret and the stored token, in `exampleEnv`. -/
theorem C9_encrypt_response_witness :
    (HandlePacket exampleEnv encryptSession
        (.ServerLoginEncryptResponse ⟨secret16, [7, 7, 7, 7]⟩)).outcome = .returned none :=
  (C9_encrypt_response exampleEnv encryptSession ⟨secret16, [7, 7, 7, 7]⟩ secret16
    (by decide) (by decide) (by decide) (by decide) (by decide) (by decide)).2.1

/-! ## The login codec is in force during the login phases -/

/-- A fresh session is not in a login phase. -/
theorem freshSession_LoginCodecInForce (host port : String) :
    LoginCodecInForce (freshSession host port) := by
  intro h
  simp [freshSession, Serve, NewSession] at h

/-- After `SetAuthenticated` the session is in its former phase with its former codecs,
or in `STATE_INIT`. -/
theorem SetAuthenticated_state (env : Env) (s : Session) (result : Bool) :
    ((SetAuthenticated env s result).session.state = s.state ∧
        (SetAuthenticated env s result).session.codec = s.codec) ∨
      (SetAuthenticated env s result).session.state = .STATE_INIT := by
  rcases SetAuthenticated_session env s result with h | h | h <;> rw [h]
  · left
    exact ⟨rfl, rfl⟩
  · right
    rfl
  · right
    rfl

/-- `SetAuthenticated`, called with the login codec in force, leaves a session in which
the login codec is in force during the login phases. -/
theorem SetAuthenticated_LoginCodecInForce (env : Env) (s : Session) (result : Bool)
    (hcodec : s.codec.encodeCodec = .LoginPacketClientCodec) :
    ((SetAuthenticated env s result).session.state = .STATE_LOGIN ∨
        (SetAuthenticated env s result).session.state = .STATE_LOGIN_ENCRYPT) →
      (SetAuthenticated env s result).session.codec.encodeCodec =
        .LoginPacketClientCodec := by
  rcases SetAuthenticated_state env s result with ⟨-, h2⟩ | h1
  · intro _
    rw [h2]
    exact hcodec
  · intro h
    rw [h1] at h
    simp at h

/-- `HandlePacket` is the handler of the session's phase. -/
theorem HandlePacket_eq (env : Env) (s : Session) (packet : Packet) :
    (s.state = .STATE_DISCONNECTED →
        HandlePacket env s packet = handleDisconnected env s packet) ∧
      (s.state = .STATE_STATUS → HandlePacket env s packet = handleStatus env s packet) ∧
      (s.state = .STATE_STATUS_PING →
        HandlePacket env s packet = handleStatusPing env s packet) ∧
      (s.state = .STATE_LOGIN → HandlePacket env s packet = handleLogin env s packet) ∧
      (s.state = .STATE_LOGIN_ENCRYPT →
        HandlePacket env s packet = handleLoginEncrypt env s packet) ∧
      (s.state = .STATE_CONNECTED →
        HandlePacket env s packet = handleConnected env s packet) ∧
      (s.state = .STATE_INIT →
        HandlePacket env s packet =
          { session := s, events := [], outcome := .returned none }) := by
  refine ⟨?_, ?_, ?_, ?_, ?_, ?_, ?_⟩ <;> intro h <;> unfold HandlePacket <;> rw [h]

/-- `HandlePacket` keeps the login codec in force during the login phases. -/
theorem HandlePacket_LoginCodecInForce (env : Env) (s : Session) (packet : Packet)
    (hinv : LoginCodecInForce s) :
    LoginCodecInForce (HandlePacket env s packet).session := by
  unfold LoginCodecInForce at hinv ⊢
  cases hstate : s.state
  case STATE_DISCONNECTED =>
    rw [(HandlePacket_eq env s packet).1 hstate]
    simp only [handleDisconnected]
    split
    · split
      · split_ifs <;> simp [failWith, hstate]
      · simp [panicAt, hstate]
    · simp [failWith, hstate]
  case STATE_STATUS =>
    rw [(HandlePacket_eq env s packet).2.1 hstate]
    simp only [handleStatus]
    split
    · split
      · simp [failWith, hstate]
      · split <;> simp [hstate]
    · simp [failWith, hstate]
  case STATE_STATUS_PING =>
    rw [(HandlePacket_eq env s packet).2.2.1 hstate]
    simp only [handleStatusPing]
    split
    · split
      · split <;> simp [hstate]
      · simp [panicAt, hstate]
    · simp [failWith, hstate]
  case STATE_LOGIN =>
    have hcodec : s.codec.encodeCodec = .LoginPacketClientCodec := hinv (Or.inl hstate)
    rw [(HandlePacket_eq env s packet).2.2.2.1 hstate]
    simp only [handleLogin]
    split
    · split
      · split
        · split
          · simp [hcodec]
          · split
            · simp [hcodec]
            · split
              · simp [hcodec]
              · split <;> simp [hcodec]
        · exact SetAuthenticated_LoginCodecInForce env _ true hcodec
      · simp [panicAt, hcodec]
    · simp [failWith, hcodec]
  case STATE_LOGIN_ENCRYPT =>
    have hcodec : s.codec.encodeCodec = .LoginPacketClientCodec := hinv (Or.inr hstate)
    rw [(HandlePacket_eq env s packet).2.2.2.2.1 hstate]
    simp only [handleLoginEncrypt]
    split
    · split
      · repeat' split
        all_goals first
          | exact SetAuthenticated_LoginCodecInForce env _ _ hcodec
          | simp [failWith, hcodec]
      · simp [panicAt, hcodec]
    · simp [failWith, hcodec]
  case STATE_INIT =>
    rw [(HandlePacket_eq env s packet).2.2.2.2.2.2 hstate]
    simp [hstate]
  case STATE_CONNECTED =>
    rw [(HandlePacket_eq env s packet).2.2.2.2.2.1 hstate]
    simp only [handleConnected]
    split <;> split <;> simp [hstate]

/-- Every session that `HandlePacket` calls produce from a fresh session has the login
codec in force during the login phases. -/
theorem handlePackets_LoginCodecInForce (inputs : List (Env × Packet)) (s : Session)
    (hinv : LoginCodecInForce s) :
    LoginCodecInForce (handlePackets s inputs) := by
  induction inputs generalizing s with
  | nil => exact hinv
  | cons input rest ih =>
    obtain ⟨env, packet⟩ := input
    exact ih _ (HandlePacket_LoginCodecInForce env s packet hinv)

/-! ## The calls of `HandlePacket` that enter `SetAuthenticated` -/

/-- With the login codec in force, `Disconnect` writes one login-disconnect packet carrying
the reason and then closes the connection. -/
theorem Disconnect_events_login (env : Env) (s : Session) (reason : String)
    (hcodec : s.codec.encodeCodec = .LoginPacketClientCodec) :
    (Disconnect env s reason).events =
      [.Write (.PacketClientLoginDisconnect (chatText env reason)), .ConnClose] := by
  simp [Disconnect, DisconnectRaw, hcodec]

/-- A list of queries does not contain the closing of the connection. -/
theorem ConnClose_not_mem_of_isQuery (events : List Event)
    (hall : ∀ e ∈ events, e.isQuery = true) : Event.ConnClose ∉ events := by
  intro h
  have := hall _ h
  simp [Event.isQuery] at this

/-- With the login codec in force, a call of `SetAuthenticated` either accepts the session
(phase `STATE_INIT`) or leaves the phase as it was and ends with the login-disconnect
packet carrying one of the reason texts followed by the first closing of the connection. -/
theorem SetAuthenticated_login (env : Env) (s : Session) (result : Bool)
    (hcodec : s.codec.encodeCodec = .LoginPacketClientCodec) :
    (SetAuthenticated env s result).session.state = .STATE_INIT ∨
      ((SetAuthenticated env s result).session.state = s.state ∧
        ∃ pre reason, reason ∈ rejectionReasons env ∧
          (SetAuthenticated env s result).events =
            pre ++ [.Write (.PacketClientLoginDisconnect (chatText env reason)), .ConnClose] ∧
          Event.ConnClose ∉ pre) := by
  rcases SetAuthenticated_cases env s result with
    ⟨queries, reason, hall, hreason, heq⟩ | ⟨reason, hreason, -, heq⟩ | ⟨server, -, -, -, heq⟩
  · right
    rw [heq]
    refine ⟨by simp [Effect.after, Disconnect_session],
      .CallSetAuthenticated result :: queries, reason, hreason, ?_, ?_⟩
    · simp [Effect.after, Disconnect_events_login env s reason hcodec]
    · simpa using ConnClose_not_mem_of_isQuery queries hall
  · right
    rw [heq]
    refine ⟨by simp [Effect.after, Disconnect_session],
      .CallSetAuthenticated result :: queriesBeforeReservation env s ++
        [.AddLocalPlayer s.name (env.AddLocalPlayer s.name)], reason, hreason, ?_, ?_⟩
    · simp [Effect.after, Disconnect_events_login env s reason hcodec]
    · simpa using ConnClose_not_mem_of_isQuery _ (queriesBeforeReservation_isQuery env s)
  · left
    rw [heq]
    simp only [Effect.after]
    rcases Redirect_session env s.accepted server with h | h <;> rw [h] <;> rfl

/-- A session is authenticated exactly in the phases `STATE_INIT` and `STATE_CONNECTED`. -/
theorem Authenticated_iff (s : Session) :
    s.Authenticated = true ↔ s.state = .STATE_INIT ∨ s.state = .STATE_CONNECTED := by
  simp [Session.Authenticated]

/-- Every call of `HandlePacket` takes one of two courses.  Either it is made in one of the
two login phases and is a call of `SetAuthenticated` on a session with the same phase and
codecs, preceded by events that neither change the registry or the reservations nor close
the connection; or it does not enter `SetAuthenticated`, changes neither the registry nor
the reservations, and leaves the session authenticated under the same name, or not
authenticated, as it was. -/
theorem HandlePacket_cases (env : Env) (s : Session) (packet : Packet) :
    ((s.state = .STATE_LOGIN ∨ s.state = .STATE_LOGIN_ENCRYPT) ∧
        ∃ s2 pre answer, s2.codec = s.codec ∧ s2.state = s.state ∧
          pre.filter Event.changesRegistry = [] ∧ Event.ConnClose ∉ pre ∧
          HandlePacket env s packet = ((SetAuthenticated env s2 answer).after pre).done) ∨
      ((HandlePacket env s packet).events.filter Event.changesRegistry = [] ∧
        (HandlePacket env s packet).events.filter Event.isCallSetAuthenticated = [] ∧
        ((HandlePacket env s packet).session.Authenticated = true ↔
          s.Authenticated = true) ∧
        (s.Authenticated = true → (HandlePacket env s packet).session.name = s.name)) := by
  have hphases : s.state = .STATE_DISCONNECTED ∨ s.state = .STATE_STATUS ∨
      s.state = .STATE_STATUS_PING ∨ s.state = .STATE_LOGIN ∨
      s.state = .STATE_LOGIN_ENCRYPT ∨ s.state = .STATE_INIT ∨
      s.state = .STATE_CONNECTED := by
    cases s.state <;> simp
  rcases hphases with hstate | hstate | hstate | hstate | hstate | hstate | hstate
  · right
    rw [(HandlePacket_eq env s packet).1 hstate]
    simp only [handleDisconnected]
    repeat' split
    all_goals
      simp [failWith, panicAt, Authenticated_iff, hstate, List.filter,
        Event.changesRegistry, Event.isCallSetAuthenticated]
  · right
    rw [(HandlePacket_eq env s packet).2.1 hstate]
    simp only [handleStatus]
    repeat' split
    all_goals
      simp [failWith, panicAt, Authenticated_iff, hstate, List.filter,
        Event.changesRegistry, Event.isCallSetAuthenticated]
  · right
    rw [(HandlePacket_eq env s packet).2.2.1 hstate]
    simp only [handleStatusPing]
    repeat' split
    all_goals
      simp [failWith, panicAt, Authenticated_iff, hstate, List.filter,
        Event.changesRegistry, Event.isCallSetAuthenticated]
  · rw [(HandlePacket_eq env s packet).2.2.2.1 hstate]
    simp only [handleLogin]
    split
    · split
      · split
        · right
          repeat' split
          all_goals
            simp [Authenticated_iff, hstate, List.filter, Event.changesRegistry,
              Event.isCallSetAuthenticated]
        · rename_i loginStart _ _
          left
          exact ⟨Or.inl hstate, { s with name := loginStart.Name }, [], true, rfl, rfl,
            rfl, by simp, rfl⟩
      · right
        simp [panicAt]
    · right
      simp [failWith]
  · rw [(HandlePacket_eq env s packet).2.2.2.2.1 hstate]
    simp only [handleLoginEncrypt]
    split
    · split
      · repeat' split
        all_goals first
          | (left
             refine ⟨Or.inr hstate, _, _, _, ?_, ?_, ?_, ?_, rfl⟩
             · rfl
             · rfl
             · rfl
             · simp)
          | (right
             simp [failWith])
      · right
        simp [panicAt]
    · right
      simp [failWith]
  · right
    rw [(HandlePacket_eq env s packet).2.2.2.2.2.2 hstate]
    simp
  · right
    rw [(HandlePacket_eq env s packet).2.2.2.2.2.1 hstate]
    simp only [handleConnected]
    repeat' split
    all_goals
      simp [Authenticated_iff, hstate, List.filter, Event.changesRegistry,
        Event.isCallSetAuthenticated]

/-- A call of `HandlePacket` that enters `SetAuthenticated` is made in one of the two login
phases, and is a call of `SetAuthenticated` on a session with the same phase and codecs,
preceded by events that do not close the connection. -/
theorem HandlePacket_enters_SetAuthenticated (env : Env) (s : Session) (packet : Packet)
    (result : Bool)
    (hcall : Event.CallSetAuthenticated result ∈ (HandlePacket env s packet).events) :
    (s.state = .STATE_LOGIN ∨ s.state = .STATE_LOGIN_ENCRYPT) ∧
      ∃ s2 pre answer, s2.codec = s.codec ∧ s2.state = s.state ∧ Event.ConnClose ∉ pre ∧
        HandlePacket env s packet = ((SetAuthenticated env s2 answer).after pre).done := by
  rcases HandlePacket_cases env s packet with
    ⟨hphase, s2, pre, answer, hc, hs, -, hpre, heq⟩ | ⟨-, hnone, -, -⟩
  · exact ⟨hphase, s2, pre, answer, hc, hs, hpre, heq⟩
  · rw [List.filter_eq_nil_iff] at hnone
    exact absurd rfl (hnone _ hcall)

/-! ## Registration and reservation are paired with authentication (C4) -/

/-- The registry entry after two lists of events. -/
theorem registryEntry_append (entry : Option String) (a b : List Event) :
    registryEntry entry (a ++ b) = registryEntry (registryEntry entry a) b := by
  induction a generalizing entry with
  | nil => rfl
  | cons e rest ih => cases e <;> simp [registryEntry, ih]

/-- The reservation after two lists of events. -/
theorem reservation_append (held : Option String) (a b : List Event) :
    reservation held (a ++ b) = reservation (reservation held a) b := by
  induction a generalizing held with
  | nil => rfl
  | cons e rest ih => cases e <;> simp [reservation, ih]

/-- Two lists of events are paired when the first is, and the second is from the entry and
reservation the first leaves. -/
theorem wellPaired_append (entry held : Option String) (a b : List Event) :
    wellPaired entry held (a ++ b) =
      (wellPaired entry held a &&
        wellPaired (registryEntry entry a) (reservation held a) b) := by
  induction a generalizing entry held with
  | nil => simp [wellPaired, registryEntry, reservation]
  | cons e rest ih =>
    cases e
    case Unregister n =>
      by_cases h : entry = some n <;>
        simp [wellPaired, registryEntry, reservation, ih, h, Bool.and_assoc]
    case RemoveLocalPlayer n =>
      by_cases h : held = some n <;>
        simp [wellPaired, registryEntry, reservation, ih, h, Bool.and_assoc]
    all_goals simp [wellPaired, registryEntry, reservation, ih, Bool.and_assoc]

/-- Events that change neither the registry nor the reservations leave the entry and the
reservation as they are, and are paired. -/
theorem unchanged_of_filter_changesRegistry (entry held : Option String)
    (events : List Event) (hnone : events.filter Event.changesRegistry = []) :
    registryEntry entry events = entry ∧ reservation held events = held ∧
      wellPaired entry held events = true := by
  rw [List.filter_eq_nil_iff] at hnone
  induction events generalizing entry held with
  | nil => simp [registryEntry, reservation, wellPaired]
  | cons e rest ih =>
    have hrest := fun entry held =>
      ih entry held (fun x hx => hnone x (List.mem_cons_of_mem _ hx))
    have he := hnone e (List.mem_cons_self _ _)
    cases e <;>
      first
        | simpa [registryEntry, reservation, wellPaired] using hrest entry held
        | exact absurd rfl he

/-- A test that only registry and reservation changes satisfy finds nothing among queries. -/
theorem filter_changesRegistry_of_isQuery (events : List Event)
    (hall : ∀ e ∈ events, e.isQuery = true) :
    events.filter Event.changesRegistry = [] :=
  filter_eq_nil_of_isQuery _ _
    (by intro e; cases e <;> simp [Event.changesRegistry, Event.isQuery]) hall

/-- The events of `Disconnect` change neither the registry nor the reservations. -/
theorem Disconnect_events_filter_changesRegistry (env : Env) (s : Session)
    (reason : String) :
    (Disconnect env s reason).events.filter Event.changesRegistry = [] :=
  filter_eq_nil_of_touchesRegistry _ _
    (by intro e; cases e <;> simp [Event.changesRegistry, Event.touchesRegistry])
    (Disconnect_events_filter_touchesRegistry env s reason)

/-- The events of `Redirect` change neither the registry nor the reservations. -/
theorem Redirect_events_filter_changesRegistry (env : Env) (s : Session)
    (server : ConnectServer) :
    (Redirect env s server).events.filter Event.changesRegistry = [] :=
  filter_eq_nil_of_touchesRegistry _ _
    (by intro e; cases e <;> simp [Event.changesRegistry, Event.touchesRegistry])
    (Redirect_events_filter_touchesRegistry env s server)

/-- Events that are paired for the registry and the reservations are paired for the
registry. -/
theorem registerPaired_of_wellPaired (entry held : Option String) (events : List Event)
    (h : wellPaired entry held events = true) : registerPaired entry events = true := by
  induction events generalizing entry held with
  | nil => rfl
  | cons e rest ih =>
    cases e <;> simp only [wellPaired, registerPaired, Bool.and_eq_true] at h ⊢ <;>
      first
        | exact ⟨h.1, ih _ _ h.2⟩
        | exact ih _ _ h.2
        | exact ih _ _ h

/-- Two lists of events are paired for the registry when the first is, and the second is
from the entry the first leaves. -/
theorem registerPaired_append (entry : Option String) (a b : List Event) :
    registerPaired entry (a ++ b) =
      (registerPaired entry a && registerPaired (registryEntry entry a) b) := by
  induction a generalizing entry with
  | nil => simp [registerPaired, registryEntry]
  | cons e rest ih =>
    cases e
    case Unregister n =>
      by_cases h : entry = some n <;>
        simp [registerPaired, registryEntry, ih, h, Bool.and_assoc]
    all_goals simp [registerPaired, registryEntry, ih, Bool.and_assoc]

/-- A call of `SetAuthenticated` on a session that is not authenticated, whatever the
manager answers: afterwards the session is entered in the registry under its name if it
is authenticated, and not otherwise; the registry events of the call are paired. -/
theorem SetAuthenticated_registered (env : Env) (s : Session) (result : Bool)
    (hunauth : ¬ s.Authenticated = true) :
    registryEntry none (SetAuthenticated env s result).events =
        (SetAuthenticated env s result).session.registeredName ∧
      registerPaired none (SetAuthenticated env s result).events = true := by
  have hrejected : ({ s with conn := ⟨true⟩ } : Session).registeredName = none := by
    have : ¬ ({ s with conn := ⟨true⟩ } : Session).Authenticated = true := hunauth
    simp [Session.registeredName, this]
  rcases SetAuthenticated_cases env s result with
    ⟨queries, reason, hall, -, heq⟩ | ⟨reason, -, hadd, heq⟩ | ⟨server, -, h0, h1, heq⟩
  · have hnone : (SetAuthenticated env s result).events.filter Event.changesRegistry =
        [] := by
      rw [heq]
      simp [Effect.after, List.filter_cons, Event.changesRegistry,
        filter_changesRegistry_of_isQuery queries hall,
        Disconnect_events_filter_changesRegistry]
    have hsession : (SetAuthenticated env s result).session = { s with conn := ⟨true⟩ } := by
      rw [heq]
      simp [Effect.after, Disconnect_session]
    have hu := unchanged_of_filter_changesRegistry none none _ hnone
    rw [hsession, hrejected]
    exact ⟨hu.1, registerPaired_of_wellPaired _ _ _ hu.2.2⟩
  · have hsession : (SetAuthenticated env s result).session = { s with conn := ⟨true⟩ } := by
      rw [heq]
      simp [Effect.after, Disconnect_session]
    have hq := unchanged_of_filter_changesRegistry none none _
      (filter_changesRegistry_of_isQuery _ (queriesBeforeReservation_isQuery env s))
    have hd := unchanged_of_filter_changesRegistry none none _
      (Disconnect_events_filter_changesRegistry env s reason)
    have hq2 := registerPaired_of_wellPaired _ _ _ hq.2.2
    have hd2 := registerPaired_of_wellPaired _ _ _ hd.2.2
    rw [hsession, hrejected, heq]
    simp only [Effect.after, List.cons_append, List.append_assoc]
    generalize queriesBeforeReservation env s = queries at hq hq2 ⊢
    generalize (Disconnect env s reason).events = closing at hd hd2 ⊢
    refine ⟨?_, ?_⟩
    · simp [registryEntry, registryEntry_append, hq.1, hd.1]
    · simp [registerPaired, registerPaired_append, registryEntry, hq.1, hq2, hd2]
  · have hq := unchanged_of_filter_changesRegistry none none _
      (filter_changesRegistry_of_isQuery _ (queriesBeforeReservation_isQuery env s))
    have hr := unchanged_of_filter_changesRegistry (some s.name) none _
      (Redirect_events_filter_changesRegistry env s.accepted server)
    have hq2 := registerPaired_of_wellPaired _ _ _ hq.2.2
    have hr2 := registerPaired_of_wellPaired _ _ _ hr.2.2
    have hsession : (SetAuthenticated env s result).session.registeredName =
        some s.name := by
      rw [heq]
      simp only [Effect.after]
      rcases Redirect_session env s.accepted server with h | h <;> rw [h] <;> rfl
    rw [hsession, heq]
    simp only [Effect.after, List.cons_append, List.append_assoc]
    generalize queriesBeforeReservation env s = queries at hq hq2 ⊢
    generalize (Redirect env s.accepted server).events = redirect at hr hr2 ⊢
    refine ⟨?_, ?_⟩
    · simp [registryEntry, registryEntry_append, hq.1, hr.1, acceptEvents]
    · simp [registerPaired, registerPaired_append, registryEntry, hq.1, hq2, hr2,
        acceptEvents]

/-- A call of `SetAuthenticated` on a session that is not authenticated, when the manager
does not answer below -1: afterwards the session is entered in the registry and holds a
reservation under its name if it is authenticated, and neither otherwise; the events of
the call are paired. -/
theorem SetAuthenticated_paired (env : Env) (s : Session) (result : Bool)
    (hcontract : -1 ≤ env.AddLocalPlayer s.name)
    (hunauth : ¬ s.Authenticated = true) :
    registryEntry none (SetAuthenticated env s result).events =
        (SetAuthenticated env s result).session.registeredName ∧
      reservation none (SetAuthenticated env s result).events =
        (SetAuthenticated env s result).session.registeredName ∧
      wellPaired none none (SetAuthenticated env s result).events = true := by
  have hrejected : ({ s with conn := ⟨true⟩ } : Session).registeredName = none := by
    have : ¬ ({ s with conn := ⟨true⟩ } : Session).Authenticated = true := hunauth
    simp [Session.registeredName, this]
  rcases SetAuthenticated_cases env s result with
    ⟨queries, reason, hall, -, heq⟩ | ⟨reason, -, hadd, heq⟩ | ⟨server, -, h0, h1, heq⟩
  · have hnone : (SetAuthenticated env s result).events.filter Event.changesRegistry =
        [] := by
      rw [heq]
      simp [Effect.after, List.filter_cons, Event.changesRegistry,
        filter_changesRegistry_of_isQuery queries hall,
        Disconnect_events_filter_changesRegistry]
    have hsession : (SetAuthenticated env s result).session = { s with conn := ⟨true⟩ } := by
      rw [heq]
      simp [Effect.after, Disconnect_session]
    rw [hsession, hrejected]
    exact unchanged_of_filter_changesRegistry none none _ hnone
  · have hsession : (SetAuthenticated env s result).session = { s with conn := ⟨true⟩ } := by
      rw [heq]
      simp [Effect.after, Disconnect_session]
    have hq := unchanged_of_filter_changesRegistry none none _
      (filter_changesRegistry_of_isQuery _ (queriesBeforeReservation_isQuery env s))
    have hd := unchanged_of_filter_changesRegistry none none _
      (Disconnect_events_filter_changesRegistry env s reason)
    have hle : ¬ 0 < env.AddLocalPlayer s.name := by omega
    rw [hsession, hrejected, heq]
    simp only [Effect.after, List.cons_append, List.append_assoc]
    generalize queriesBeforeReservation env s = queries at hq ⊢
    generalize (Disconnect env s reason).events = closing at hd ⊢
    refine ⟨?_, ?_, ?_⟩
    · simp [registryEntry, registryEntry_append, hq.1, hd.1]
    · simp [reservation, reservation_append, hq.2.1, hd.2.1, hle]
    · simp [wellPaired, wellPaired_append, registryEntry, reservation, hq.1, hq.2.1, hq.2.2,
        hd.2.2, hle]
  · have hpos : 0 < env.AddLocalPlayer s.name := by omega
    have hq := unchanged_of_filter_changesRegistry none none _
      (filter_changesRegistry_of_isQuery _ (queriesBeforeReservation_isQuery env s))
    have hr := unchanged_of_filter_changesRegistry (some s.name) (some s.name) _
      (Redirect_events_filter_changesRegistry env s.accepted server)
    have hsession : (SetAuthenticated env s result).session.registeredName =
        some s.name := by
      rw [heq]
      simp only [Effect.after]
      rcases Redirect_session env s.accepted server with h | h <;> rw [h] <;> rfl
    rw [hsession, heq]
    simp only [Effect.after, List.cons_append, List.append_assoc]
    generalize queriesBeforeReservation env s = queries at hq ⊢
    generalize (Redirect env s.accepted server).events = redirect at hr ⊢
    refine ⟨?_, ?_, ?_⟩
    · simp [registryEntry, registryEntry_append, hq.1, hr.1, acceptEvents]
    · simp [reservation, reservation_append, hq.2.1, hr.2.1, acceptEvents, hpos]
    · simp [wellPaired, wellPaired_append, registryEntry, reservation, hq.1, hq.2.1, hq.2.2,
        hr.2.2, acceptEvents, hpos]

/-- One call, whatever the manager answers, keeps the registry entry equal to the name the
session is authenticated under, and its registry events are paired. -/
theorem Call_apply_registered (s : Session) (c : Call) :
    registryEntry s.registeredName (c.apply s).events = (c.apply s).session.registeredName ∧
      registerPaired s.registeredName (c.apply s).events = true := by
  cases c with
  | HandlePacket env packet =>
    simp only [Call.apply]
    rcases HandlePacket_cases env s packet with
      ⟨hphase, s2, pre, answer, -, hs, hpre, -, heq⟩ | ⟨hnone, -, hauth, hname⟩
    · have hunauth : ¬ s.Authenticated = true := by
        rw [Authenticated_iff]
        rcases hphase with h | h <;> simp [h]
      have hunauth2 : ¬ s2.Authenticated = true := by
        rw [Authenticated_iff, hs, ← Authenticated_iff]
        exact hunauth
      have hnot : s.registeredName = none := by
        simp [Session.registeredName, hunauth]
      have hp := unchanged_of_filter_changesRegistry none none pre hpre
      have hp2 := registerPaired_of_wellPaired _ _ _ hp.2.2
      have hsa := SetAuthenticated_registered env s2 answer hunauth2
      rw [heq, hnot]
      simp only [Effect.done, Effect.after]
      refine ⟨?_, ?_⟩
      · rw [registryEntry_append, hp.1]
        exact hsa.1
      · rw [registerPaired_append, hp.1, hp2, hsa.2]
        rfl
    · have hsame : (HandlePacket env s packet).session.registeredName =
          s.registeredName := by
        by_cases h : s.Authenticated = true
        · simp [Session.registeredName, h, hauth.2 h, hname h]
        · have h2 : ¬ (HandlePacket env s packet).session.Authenticated = true :=
            fun h3 => h (hauth.1 h3)
          simp [Session.registeredName, h, h2]
      have hu := unchanged_of_filter_changesRegistry s.registeredName none _ hnone
      rw [hsame]
      exact ⟨hu.1, registerPaired_of_wellPaired _ _ _ hu.2.2⟩
  | ErrorCaught err =>
    simp only [Call.apply, ErrorCaught]
    by_cases h : s.state = .STATE_INIT ∨ s.state = .STATE_CONNECTED
    · simp [Session.registeredName, h, Session.Authenticated, registryEntry, registerPaired]
    · simp [Session.registeredName, h, Session.Authenticated, registryEntry, registerPaired]
  | BridgeConnected bridge =>
    simp only [Call.apply, BridgeConnected]
    by_cases h : s.state = .STATE_INIT
    · simp [Session.registeredName, h, Session.Authenticated, registryEntry, registerPaired]
    · simp [h, registryEntry, registerPaired]

/-- One call, when the manager does not answer below -1, keeps the registry entry and the
reservation equal to the name the session is authenticated under, and its events are
paired. -/
theorem Call_apply_paired (s : Session) (c : Call)
    (hcontract : ∀ env packet, c = .HandlePacket env packet →
      ∀ n, -1 ≤ env.AddLocalPlayer n) :
    registryEntry s.registeredName (c.apply s).events = (c.apply s).session.registeredName ∧
      reservation s.registeredName (c.apply s).events =
        (c.apply s).session.registeredName ∧
      wellPaired s.registeredName s.registeredName (c.apply s).events = true := by
  cases c with
  | HandlePacket env packet =>
    simp only [Call.apply]
    rcases HandlePacket_cases env s packet with
      ⟨hphase, s2, pre, answer, -, hs, hpre, -, heq⟩ | ⟨hnone, -, hauth, hname⟩
    · have hunauth : ¬ s.Authenticated = true := by
        rw [Authenticated_iff]
        rcases hphase with h | h <;> simp [h]
      have hunauth2 : ¬ s2.Authenticated = true := by
        rw [Authenticated_iff, hs, ← Authenticated_iff]
        exact hunauth
      have hnot : s.registeredName = none := by
        simp [Session.registeredName, hunauth]
      have hp := unchanged_of_filter_changesRegistry none none pre hpre
      have hsa := SetAuthenticated_paired env s2 answer (hcontract env packet rfl s2.name)
        hunauth2
      rw [heq, hnot]
      simp only [Effect.done, Effect.after]
      refine ⟨?_, ?_, ?_⟩
      · rw [registryEntry_append, hp.1]
        exact hsa.1
      · rw [reservation_append, hp.2.1]
        exact hsa.2.1
      · rw [wellPaired_append, hp.1, hp.2.1, hp.2.2, hsa.2.2]
        rfl
    · have hsame : (HandlePacket env s packet).session.registeredName =
          s.registeredName := by
        by_cases h : s.Authenticated = true
        · simp [Session.registeredName, h, hauth.2 h, hname h]
        · have h2 : ¬ (HandlePacket env s packet).session.Authenticated = true :=
            fun h3 => h (hauth.1 h3)
          simp [Session.registeredName, h, h2]
      rw [hsame]
      exact unchanged_of_filter_changesRegistry _ _ _ hnone
  | ErrorCaught err =>
    simp only [Call.apply, ErrorCaught]
    by_cases h : s.state = .STATE_INIT ∨ s.state = .STATE_CONNECTED
    · simp [Session.registeredName, h, Session.Authenticated, registryEntry, reservation,
        wellPaired]
    · simp [Session.registeredName, h, Session.Authenticated, registryEntry, reservation,
        wellPaired]
  | BridgeConnected bridge =>
    simp only [Call.apply, BridgeConnected]
    by_cases h : s.state = .STATE_INIT
    · simp [Session.registeredName, h, Session.Authenticated, registryEntry, reservation,
        wellPaired]
    · simp [h, registryEntry, reservation, wellPaired]

/-- A sequence of calls, whatever the manager answers, keeps the registry entry equal to
the name the session is authenticated under, and its registry events are paired. -/
theorem runCalls_registered (calls : List Call) (s : Session) :
    registryEntry s.registeredName (runCalls s calls).events =
        (runCalls s calls).session.registeredName ∧
      registerPaired s.registeredName (runCalls s calls).events = true := by
  induction calls generalizing s with
  | nil => simp [runCalls, registryEntry, registerPaired]
  | cons c rest ih =>
    have hstep := Call_apply_registered s c
    have hrest := ih (c.apply s).session
    simp only [runCalls, Effect.after]
    refine ⟨?_, ?_⟩
    · rw [registryEntry_append, hstep.1]
      exact hrest.1
    · rw [registerPaired_append, hstep.1, hstep.2, hrest.2]
      rfl

/-- A sequence of calls, when the manager does not answer below -1, keeps the registry
entry and the reservation equal to the name the session is authenticated under, and its
events are paired. -/
theorem runCalls_paired (calls : List Call) (s : Session)
    (hcontract : ∀ env packet, Call.HandlePacket env packet ∈ calls →
      ∀ n, -1 ≤ env.AddLocalPlayer n) :
    registryEntry s.registeredName (runCalls s calls).events =
        (runCalls s calls).session.registeredName ∧
      reservation s.registeredName (runCalls s calls).events =
        (runCalls s calls).session.registeredName ∧
      wellPaired s.registeredName s.registeredName (runCalls s calls).events = true := by
  induction calls generalizing s with
  | nil => simp [runCalls, registryEntry, reservation, wellPaired]
  | cons c rest ih =>
    have hstep := Call_apply_paired s c
      (fun env packet h => hcontract env packet (h ▸ List.mem_cons_self _ _))
    have hrest := ih (c.apply s).session
      (fun env packet hx => hcontract env packet (List.mem_cons_of_mem _ hx))
    simp only [runCalls, Effect.after]
    refine ⟨?_, ?_, ?_⟩
    · rw [registryEntry_append, hstep.1]
      exact hrest.1
    · rw [reservation_append, hstep.2.1]
      exact hrest.2.1
    · rw [wellPaired_append, hstep.1, hstep.2.1, hstep.2.2, hrest.2.2]
      rfl

/-- The calls applied after other calls start from the session those leave. -/
theorem runCalls_append_session (s : Session) (a b : List Call) :
    (runCalls s (a ++ b)).session = (runCalls (runCalls s a).session b).session := by
  induction a generalizing s with
  | nil => rfl
  | cons c rest ih => simp [runCalls, Effect.after, ih]

/-- After a final `ErrorCaught` the session is not authenticated. -/
theorem runCalls_ErrorCaught_registeredName (s : Session) (calls : List Call)
    (err : String) :
    (runCalls s (calls ++ [.ErrorCaught err])).session.registeredName = none := by
  rw [runCalls_append_session]
  simp [runCalls, Effect.after, Call.apply, ErrorCaught, Session.registeredName,
    Session.Authenticated]

/-- C4 (as stated, refuted): `alice` logs in while the backend-connection manager answers
-2 to `AddLocalPlayer`: the session is authenticated and entered in the registry, yet
holds no reservation; the `ErrorCaught` that follows releases a reservation that is not
held, so the events are not paired. -/
theorem C4_minus_two_unreserved :
    (runCalls (freshSession "10.0.0.1" "50000")
        [ .HandlePacket exampleEnv loginHandshake,
          .HandlePacket minusTwoEnv aliceLoginStart ]).session.Authenticated = true ∧
      registryEntry none
        (runCalls (freshSession "10.0.0.1" "50000")
          [ .HandlePacket exampleEnv loginHandshake,
            .HandlePacket minusTwoEnv aliceLoginStart ]).events = some "alice" ∧
      reservation none
        (runCalls (freshSession "10.0.0.1" "50000")
          [ .HandlePacket exampleEnv loginHandshake,
            .HandlePacket minusTwoEnv aliceLoginStart ]).events = none ∧
      Event.RemoveLocalPlayer "alice" ∈
        (runCalls (freshSession "10.0.0.1" "50000")
          [ .HandlePacket exampleEnv loginHandshake,
            .HandlePacket minusTwoEnv aliceLoginStart,
            .ErrorCaught "EOF" ]).events ∧
      wellPaired none none
        (runCalls (freshSession "10.0.0.1" "50000")
          [ .HandlePacket exampleEnv loginHandshake,
            .HandlePacket minusTwoEnv aliceLoginStart,
            .ErrorCaught "EOF" ]).events = false := by
  decide

/-- C4 (amended): over every sequence of `HandlePacket`, `ErrorCaught` and bridge calls on
a fresh session (the bridge only moving `STATE_INIT` to `STATE_CONNECTED`): after the calls
the session is entered in the active-sessions registry under its name if and only if
`Authenticated()` is true, `Register` is never called while it is entered and `Unregister`
never of a name not entered, and after a further `ErrorCaught` it is not entered; and when
the backend-connection manager never answers `AddLocalPlayer` below -1 in these calls, the
session also holds a player reservation under its name if and only if `Authenticated()` is
true, the reservation calls are paired as well (no `AddLocalPlayer` while a reservation is
held, no `RemoveLocalPlayer` of a name not held), and after a further `ErrorCaught` it
holds no reservation. -/
theorem C4_registration_paired (host port : String) (calls : List Call) :
    registryEntry none (runCalls (freshSession host port) calls).events =
        (if (runCalls (freshSession host port) calls).session.Authenticated then some (runCalls (freshSession host port) calls).session.name else none) ∧
      registerPaired none (runCalls (freshSession host port) calls).events = true ∧
      (∀ err, registryEntry none (runCalls (freshSession host port) (calls ++ [.ErrorCaught err])).events = none) ∧
      ((∀ env packet, Call.HandlePacket env packet ∈ calls →
          ∀ n, -1 ≤ env.AddLocalPlayer n) →
        reservation none (runCalls (freshSession host port) calls).events =
            (if (runCalls (freshSession host port) calls).session.Authenticated then some (runCalls (freshSession host port) calls).session.name else none) ∧
          wellPaired none none (runCalls (freshSession host port) calls).events = true ∧
          ∀ err, reservation none (runCalls (freshSession host port) (calls ++ [.ErrorCaught err])).events = none ∧
            wellPaired none none (runCalls (freshSession host port) (calls ++ [.ErrorCaught err])).events = true) := by
  have hfresh : (freshSession host port).registeredName = none := rfl
  have hregistered := runCalls_registered calls (freshSession host port)
  rw [hfresh] at hregistered
  refine ⟨hregistered.1, hregistered.2, ?_, ?_⟩
  · intro err
    have hafter := runCalls_registered (calls ++ [.ErrorCaught err]) (freshSession host port)
    rw [hfresh, runCalls_ErrorCaught_registeredName] at hafter
    exact hafter.1
  · intro hcontract
    have hmain := runCalls_paired calls (freshSession host port) hcontract
    rw [hfresh] at hmain
    refine ⟨hmain.2.1, hmain.2.2, ?_⟩
    intro err
    have hafter := runCalls_paired (calls ++ [.ErrorCaught err]) (freshSession host port)
      (by
        intro env packet hmem
        rcases List.mem_append.1 hmem with h | h
        · exact hcontract env packet h
        · simp at h)
    rw [hfresh, runCalls_ErrorCaught_registeredName] at hafter
    exact ⟨hafter.2.1, hafter.2.2⟩

/-- C4 witness: `alice` logs in (the manager answering 1) and the read loop then reports
an error: after the three calls she holds no reservation, and the events of the calls are
paired. -/
theorem C4_registration_paired_witness :
    reservation none
        (runCalls (freshSession "10.0.0.1" "50000")
          [ .HandlePacket exampleEnv loginHandshake,
            .HandlePacket exampleEnv aliceLoginStart,
            .ErrorCaught "EOF" ]).events = none ∧
      wellPaired none none
        (runCalls (freshSession "10.0.0.1" "50000")
          [ .HandlePacket exampleEnv loginHandshake,
            .HandlePacket exampleEnv aliceLoginStart,
            .ErrorCaught "EOF" ]).events = true :=
  ((C4_registration_paired "10.0.0.1" "50000"
    [ .HandlePacket exampleEnv loginHandshake,
      .HandlePacket exampleEnv aliceLoginStart ]).2.2.2
    (by
      intro env packet hmem
      simp only [List.mem_cons, List.mem_singleton, List.not_mem_nil, or_false] at hmem
      rcases hmem with h | h <;> cases h <;> intro n <;> simp [exampleEnv])).2.2 "EOF"

/-! ## Teardown (C10) -/

/-- C10: calling `ErrorCaught` twice in succession: the second call makes neither
`RemoveLocalPlayer` nor `Unregister` (it only resets the phase and closes the connection),
both calls together make at most one `RemoveLocalPlayer` and at most one `Unregister`, and
the session after the second call equals the session after the first. -/
theorem C10_error_caught_twice (s : Session) (err1 err2 : String) :
    (ErrorCaught (ErrorCaught s err1).session err2).events =
        [.SetState .STATE_DISCONNECTED, .ConnClose] ∧
      (ErrorCaught (ErrorCaught s err1).session err2).session =
        (ErrorCaught s err1).session ∧
      (((ErrorCaught s err1).events ++
        (ErrorCaught (ErrorCaught s err1).session err2).events).filter
          Event.isRemoveLocalPlayer).length ≤ 1 ∧
      (((ErrorCaught s err1).events ++
        (ErrorCaught (ErrorCaught s err1).session err2).events).filter
          Event.isUnregister).length ≤ 1 := by
  refine ⟨?_, ?_, ?_, ?_⟩
  · simp [ErrorCaught, Session.Authenticated]
  · simp [ErrorCaught]
  · simp only [ErrorCaught]
    split <;> simp [Session.Authenticated, List.filter, Event.isRemoveLocalPlayer]
  · simp only [ErrorCaught]
    split <;> simp [Session.Authenticated, List.filter, Event.isUnregister]

/-! ## Teardown and disconnect (C11, C12) -/

/-- C11: for every session and every error argument, `ErrorCaught` calls
`RemoveLocalPlayer(name)` and then `Unregister` exactly when the phase on entry is
`STATE_INIT` or `STATE_CONNECTED` (and makes neither call otherwise), then sets the phase to
`STATE_DISCONNECTED` and closes the connection; the session afterwards is the session on
entry with only the phase and the connection changed. -/
theorem C11_error_caught (s : Session) (err : String) :
    ((s.state = .STATE_INIT ∨ s.state = .STATE_CONNECTED) →
        (ErrorCaught s err).events =
          [ .RemoveLocalPlayer s.name, .Unregister s.name,
            .SetState .STATE_DISCONNECTED, .ConnClose ]) ∧
      (¬ (s.state = .STATE_INIT ∨ s.state = .STATE_CONNECTED) →
        (ErrorCaught s err).events = [.SetState .STATE_DISCONNECTED, .ConnClose]) ∧
      (ErrorCaught s err).session.state = .STATE_DISCONNECTED ∧
      (ErrorCaught s err).session.conn.closed = true ∧
      (ErrorCaught s err).session =
        { s with state := .STATE_DISCONNECTED, conn := ⟨true⟩ } := by
  refine ⟨?_, ?_, rfl, rfl, rfl⟩
  · intro h
    simp [ErrorCaught, Session.Authenticated, h]
  · intro h
    simp [ErrorCaught, Session.Authenticated, h]

/-- C11 witness: the teardown of the bridged session of `alice`. -/
theorem C11_error_caught_witness :
    (ErrorCaught connectedSession "EOF").events =
      [ .RemoveLocalPlayer connectedSession.name, .Unregister connectedSession.name,
        .SetState .STATE_DISCONNECTED, .ConnClose ] :=
  (C11_error_caught connectedSession "EOF").1 (by decide)

/-- C12: for every raw chat document, `DisconnectRaw` writes exactly one login-disconnect
packet carrying it when the encode codec is the login codec, exactly one play-disconnect
packet carrying it when the encode codec is the play codec, and no packet for any other
encode codec; in every case (the result of the write is not looked at) its last action is
the closing of the connection, and it changes nothing of the session but the connection:
the phase is the one before the call. -/
theorem C12_disconnect_raw (s : Session) (raw : String) :
    (s.codec.encodeCodec = .LoginPacketClientCodec →
        (DisconnectRaw s raw).events =
          [.Write (.PacketClientLoginDisconnect raw), .ConnClose]) ∧
      (s.codec.encodeCodec = .PlayPacketClientCodec →
        (DisconnectRaw s raw).events = [.Write (.PacketClientDisconnect raw), .ConnClose]) ∧
      (s.codec.encodeCodec ≠ .LoginPacketClientCodec →
        s.codec.encodeCodec ≠ .PlayPacketClientCodec →
        (DisconnectRaw s raw).events = [.ConnClose]) ∧
      (DisconnectRaw s raw).events.getLast? = some .ConnClose ∧
      (DisconnectRaw s raw).session = { s with conn := ⟨true⟩ } ∧
      (DisconnectRaw s raw).session.state = s.state := by
  refine ⟨?_, ?_, ?_, ?_, rfl, rfl⟩
  · intro h
    simp [DisconnectRaw, h]
  · intro h
    simp [DisconnectRaw, h]
  · intro h1 h2
    simp [DisconnectRaw, h1, h2]
  · simp only [DisconnectRaw]
    split
    · simp
    · split <;> simp

/-- C12 witness: a disconnect in the login phase. -/
theorem C12_disconnect_raw_witness :
    (DisconnectRaw loginSession "\x7b\"text\":\"bye\"\x7d").events =
      [.Write (.PacketClientLoginDisconnect "\x7b\"text\":\"bye\"\x7d"), .ConnClose] :=
  (C12_disconnect_raw loginSession "\x7b\"text\":\"bye\"\x7d").1 (by decide)

/-! ## Status, ping, forwarding and handshake (C13, C14, C15, C17) -/

/-- C13: in `STATE_STATUS_PING`, for every status-ping packet with payload `t`, when the
write succeeds `HandlePacket` writes exactly one status-ping reply with payload `t`, then
closes the connection, returns a nil error and leaves the phase at `STATE_STATUS_PING`;
nothing of the session but the connection changes. -/
theorem C13_ping_echo (env : Env) (s : Session) (ping : PacketServerStatusPing)
    (hstate : s.state = .STATE_STATUS_PING)
    (hwrite : env.Write (.PacketClientStatusPing ping.Time) = none) :
    (HandlePacket env s (.ServerStatusPing ping)).events =
        [.Write (.PacketClientStatusPing ping.Time), .ConnClose] ∧
      (HandlePacket env s (.ServerStatusPing ping)).outcome = .returned none ∧
      (HandlePacket env s (.ServerStatusPing ping)).session.state = .STATE_STATUS_PING ∧
      (HandlePacket env s (.ServerStatusPing ping)).session = { s with conn := ⟨true⟩ } := by
  rw [(HandlePacket_eq env s _).2.2.1 hstate]
  simp [handleStatusPing, Packet.Id, hwrite, hstate]

/-- C13 witness: a ping with payload 1234 after a status request. -/
theorem C13_ping_echo_witness :
    (HandlePacket exampleEnv
        (handlePackets (freshSession "10.0.0.1" "50000")
          [(exampleEnv, statusHandshake), (exampleEnv, .ServerStatusRequest)])
        (.ServerStatusPing ⟨1234⟩)).events =
      [.Write (.PacketClientStatusPing 1234), .ConnClose] :=
  (C13_ping_echo exampleEnv
    (handlePackets (freshSession "10.0.0.1" "50000")
      [(exampleEnv, statusHandshake), (exampleEnv, .ServerStatusRequest)])
    ⟨1234⟩ (by decide) (by decide)).1

/-- The favicon string built from a file that was read is not empty. -/
theorem favicon_string_ne_empty (encoded : String) :
    "data:image/png;base64," ++ encoded ≠ "" := by
  intro h
  have hlen := congrArg String.length h
  rw [String.length_append] at hlen
  have h22 : ("data:image/png;base64,").length = 22 := by decide
  have h0 : ("").length = 0 := by decide
  omega

/-- The status-request branch of `HandlePacket`, in terms of `statusDocument`. -/
theorem handleStatus_request (env : Env) (s : Session) (packet : Packet)
    (hid : packet.Id env = env.PACKET_SERVER_STATUS_REQUEST) :
    handleStatus env s packet =
      match env.jsonMarshalStatus (statusDocument env) with
      | (_, some err) => failWith s err
      | (marshalled, none) =>
        match env.Write (.PacketClientStatusResponse marshalled) with
        | some err =>
          { session := s
            events := [.Write (.PacketClientStatusResponse marshalled)]
            outcome := .returned (some err) }
        | none =>
          { session := { s with state := .STATE_STATUS_PING }
            events :=
              [.Write (.PacketClientStatusResponse marshalled),
                .SetState .STATE_STATUS_PING]
            outcome := .returned none } := by
  simp only [handleStatus, hid, if_true]
  rfl

/-- C14: in `STATE_STATUS`, for a status request: the document that is marshalled has a
favicon entry if and only if reading `server-icon.png` succeeded (a failed read is not an
error); its players.max and players.online are the manager's `MaxPlayers()` and
`Players()`; a call in which a packet is written is a call in which exactly the marshalled
document is written; and when that write succeeds the phase becomes `STATE_STATUS_PING`
with a nil error. -/
theorem C14_status_response (env : Env) (s : Session) (packet : Packet)
    (hstate : s.state = .STATE_STATUS)
    (hid : packet.Id env = env.PACKET_SERVER_STATUS_REQUEST) :
    ((statusDocument env).favicon.isSome = true ↔
        (env.ReadFile "server-icon.png").2 = none) ∧
      (statusDocument env).playersMax = env.ConnectMaxPlayers ∧
      (statusDocument env).playersOnline = env.Players ∧
      (∀ written, Event.Write written ∈ (HandlePacket env s packet).events →
        written =
          .PacketClientStatusResponse (env.jsonMarshalStatus (statusDocument env)).1) ∧
      (∀ written, Event.Write written ∈ (HandlePacket env s packet).events →
        env.Write written = none →
        (HandlePacket env s packet).session.state = .STATE_STATUS_PING ∧
          (HandlePacket env s packet).outcome = .returned none ∧
          (HandlePacket env s packet).events =
            [.Write written, .SetState .STATE_STATUS_PING]) := by
  refine ⟨?_, rfl, rfl, ?_, ?_⟩
  · simp only [statusDocument]
    cases h : (env.ReadFile "server-icon.png").2 with
    | none => simp [favicon_string_ne_empty]
    | some e => simp
  · intro written
    rw [(HandlePacket_eq env s packet).2.1 hstate, handleStatus_request env s packet hid]
    generalize env.jsonMarshalStatus (statusDocument env) = marshalResult
    obtain ⟨marshalled, marshalErr⟩ := marshalResult
    cases marshalErr with
    | some e => simp [failWith]
    | none =>
      cases hw : env.Write (.PacketClientStatusResponse marshalled) <;> simp [hw]
  · intro written
    rw [(HandlePacket_eq env s packet).2.1 hstate, handleStatus_request env s packet hid]
    generalize env.jsonMarshalStatus (statusDocument env) = marshalResult
    obtain ⟨marshalled, marshalErr⟩ := marshalResult
    cases marshalErr with
    | some e => simp [failWith]
    | none =>
      cases hw : env.Write (.PacketClientStatusResponse marshalled) with
      | some e =>
        simp only [hw]
        intro hmem hnone
        simp at hmem
        rw [hmem, hw] at hnone
        exact absurd hnone (by simp)
      | none =>
        simp only [hw]
        intro hmem _
        simp at hmem
        simp [hmem]

/-- C14 witness: a status request with no favicon file: the phase becomes
`STATE_STATUS_PING`. -/
theorem C14_status_response_witness :
    (HandlePacket exampleEnv
          (handlePackets (freshSession "10.0.0.1" "50000") [(exampleEnv, statusHandshake)])
          .ServerStatusRequest).session.state = .STATE_STATUS_PING ∧
      (statusDocument exampleEnv).favicon = none ∧
      (statusDocument faviconEnv).favicon.isSome = true :=
  ⟨((C14_status_response exampleEnv
      (handlePackets (freshSession "10.0.0.1" "50000") [(exampleEnv, statusHandshake)])
      .ServerStatusRequest (by decide) (by decide)).2.2.2.2
      (.PacketClientStatusResponse "\x7b\x7d") (by decide) (by decide)).1,
    by decide, by decide⟩

/-- C15: in `STATE_CONNECTED`, for every packet `p`: when `redirecting` is false `p` is
written to the bridge exactly once, when `redirecting` is true nothing is written to the
bridge; in both cases `HandlePacket` returns nil and the phase stays `STATE_CONNECTED`;
`clientSettings` is set to `p` when `p` is a client-settings packet (also while
redirecting) and nothing of the session changes otherwise. -/
theorem C15_connected_forward (env : Env) (s : Session) (packet : Packet)
    (hstate : s.state = .STATE_CONNECTED) :
    (s.redirecting = false →
        (HandlePacket env s packet).events = [.OutBridgeWrite packet]) ∧
      (s.redirecting = true → (HandlePacket env s packet).events = []) ∧
      (HandlePacket env s packet).outcome = .returned none ∧
      (HandlePacket env s packet).session.state = .STATE_CONNECTED ∧
      (packet.Id env = env.PACKET_SERVER_CLIENT_SETTINGS →
        (HandlePacket env s packet).session = { s with clientSettings := some packet }) ∧
      (packet.Id env ≠ env.PACKET_SERVER_CLIENT_SETTINGS →
        (HandlePacket env s packet).session = s) := by
  rw [(HandlePacket_eq env s packet).2.2.2.2.2.1 hstate]
  by_cases hid : packet.Id env = env.PACKET_SERVER_CLIENT_SETTINGS <;>
    by_cases hred : s.redirecting = true <;>
    simp [handleConnected, hid, hred, hstate]

/-- C15 witness: a client-settings packet on the bridged session of `alice` is cached and
forwarded. -/
theorem C15_connected_forward_witness :
    (HandlePacket exampleEnv connectedSession (.ServerClientSettings [1, 2])).events =
        [.OutBridgeWrite (.ServerClientSettings [1, 2])] ∧
      (HandlePacket exampleEnv connectedSession (.ServerClientSettings [1, 2])).session =
        { connectedSession with clientSettings := some (.ServerClientSettings [1, 2]) } :=
  ⟨(C15_connected_forward exampleEnv connectedSession (.ServerClientSettings [1, 2])
      (by decide)).1 (by decide),
    (C15_connected_forward exampleEnv connectedSession (.ServerClientSettings [1, 2])
      (by decide)).2.2.2.2.1 (by decide)⟩

/-- C17: in `STATE_DISCONNECTED`, for every handshake packet: next-state 1 moves the phase
to `STATE_STATUS` and installs the status codecs, whatever the protocol version; next-state
2 with the expected protocol version moves the phase to `STATE_LOGIN` and installs the
login codecs; any other next-state value returns "Unexpected state" with the phase and the
codecs unchanged and no codec call made.  In every case the server address of the
handshake is recorded. -/
theorem C17_handshake (env : Env) (s : Session) (handshake : PacketServerHandshake)
    (hstate : s.state = .STATE_DISCONNECTED) :
    (handshake.State = 1 →
        HandlePacket env s (.ServerHandshake handshake) =
          { session :=
              { s with
                serverAddress := handshake.ServerAddress
                codec := ⟨.StatusPacketClientCodec, .StatusPacketServerCodec⟩
                state := .STATE_STATUS }
            events :=
              [ .SetEncodeCodec .StatusPacketClientCodec,
                .SetDecodeCodec .StatusPacketServerCodec,
                .SetState .STATE_STATUS ]
            outcome := .returned none }) ∧
      (handshake.State = 2 → handshake.ProtocolVersion = env.VERSION →
        HandlePacket env s (.ServerHandshake handshake) =
          { session :=
              { s with
                serverAddress := handshake.ServerAddress
                codec := ⟨.LoginPacketClientCodec, .LoginPacketServerCodec⟩
                state := .STATE_LOGIN }
            events :=
              [ .SetEncodeCodec .LoginPacketClientCodec,
                .SetDecodeCodec .LoginPacketServerCodec,
                .SetState .STATE_LOGIN ]
            outcome := .returned none }) ∧
      (handshake.State ≠ 1 → handshake.State ≠ 2 →
        (HandlePacket env s (.ServerHandshake handshake)).outcome =
            .returned (some "Unexpected state") ∧
          (HandlePacket env s (.ServerHandshake handshake)).session.state =
            .STATE_DISCONNECTED ∧
          (HandlePacket env s (.ServerHandshake handshake)).session.codec = s.codec ∧
          (HandlePacket env s (.ServerHandshake handshake)).events = []) := by
  rw [(HandlePacket_eq env s _).1 hstate]
  refine ⟨?_, ?_, ?_⟩
  · intro h1
    simp [handleDisconnected, Packet.Id, h1]
  · intro h2 hv
    simp [handleDisconnected, Packet.Id, h2, hv]
  · intro h1 h2
    simp [handleDisconnected, Packet.Id, h1, h2, failWith, hstate]

/-- C17 witness: a status handshake announcing an unexpected protocol version. -/
theorem C17_handshake_witness :
    (HandlePacket exampleEnv (freshSession "10.0.0.1" "50000")
        statusHandshake).session.state = .STATE_STATUS :=
  congrArg (fun r => r.session.state)
    ((C17_handshake exampleEnv (freshSession "10.0.0.1" "50000")
      ⟨47, "play.example.org", 1⟩ (by decide)).1 (by decide))

/-! ## The transition graph (C16) -/

/-- After `SetAuthenticated`, called in a login phase, the phase is unchanged or has moved
along the edge to `STATE_INIT`. -/
theorem SetAuthenticated_edge (env : Env) (s s2 : Session) (result : Bool)
    (hs : s2.state = s.state)
    (hphase : s.state = .STATE_LOGIN ∨ s.state = .STATE_LOGIN_ENCRYPT) :
    (SetAuthenticated env s2 result).session.state = s.state ∨
      legalEdge s.state (SetAuthenticated env s2 result).session.state = true := by
  rcases SetAuthenticated_state env s2 result with ⟨h, -⟩ | h
  · left
    rw [h, hs]
  · right
    rw [h]
    rcases hphase with hp | hp <;> rw [hp] <;> rfl

/-- A call of `HandlePacket` leaves the phase unchanged or moves it along an edge of the
transition graph. -/
theorem HandlePacket_edge (env : Env) (s : Session) (packet : Packet) :
    (HandlePacket env s packet).session.state = s.state ∨
      legalEdge s.state (HandlePacket env s packet).session.state = true := by
  have hphases : s.state = .STATE_DISCONNECTED ∨ s.state = .STATE_STATUS ∨
      s.state = .STATE_STATUS_PING ∨ s.state = .STATE_LOGIN ∨
      s.state = .STATE_LOGIN_ENCRYPT ∨ s.state = .STATE_INIT ∨
      s.state = .STATE_CONNECTED := by
    cases s.state <;> simp
  rcases hphases with hstate | hstate | hstate | hstate | hstate | hstate | hstate
  · rw [(HandlePacket_eq env s packet).1 hstate]
    simp only [handleDisconnected]
    repeat' split
    all_goals simp [failWith, panicAt, hstate, legalEdge]
  · rw [(HandlePacket_eq env s packet).2.1 hstate]
    simp only [handleStatus]
    repeat' split
    all_goals simp [failWith, panicAt, hstate, legalEdge]
  · rw [(HandlePacket_eq env s packet).2.2.1 hstate]
    simp only [handleStatusPing]
    repeat' split
    all_goals simp [failWith, panicAt, hstate, legalEdge]
  · rw [(HandlePacket_eq env s packet).2.2.2.1 hstate]
    simp only [handleLogin]
    split
    · split
      · split
        · repeat' split
          all_goals simp [hstate, legalEdge]
        · exact SetAuthenticated_edge env s _ true rfl (Or.inl hstate)
      · simp [panicAt]
    · simp [failWith]
  · rw [(HandlePacket_eq env s packet).2.2.2.2.1 hstate]
    simp only [handleLoginEncrypt]
    split
    · split
      · repeat' split
        all_goals first
          | exact SetAuthenticated_edge env s _ _ rfl (Or.inr hstate)
          | simp [failWith]
      · simp [panicAt]
    · simp [failWith]
  · rw [(HandlePacket_eq env s packet).2.2.2.2.2.2 hstate]
    simp
  · rw [(HandlePacket_eq env s packet).2.2.2.2.2.1 hstate]
    simp only [handleConnected]
    repeat' split
    all_goals simp

/-- C16: for every session and every packet, a call of `HandlePacket` leaves the phase
unchanged or moves it along an edge of the transition graph (`STATE_DISCONNECTED` to
`STATE_STATUS` or `STATE_LOGIN`, `STATE_STATUS` to `STATE_STATUS_PING`, `STATE_LOGIN` to
`STATE_LOGIN_ENCRYPT` or `STATE_INIT`, `STATE_LOGIN_ENCRYPT` to `STATE_INIT`); it never
moves the phase backwards, never to `STATE_CONNECTED`, and never from
`STATE_DISCONNECTED`, `STATE_STATUS` or `STATE_STATUS_PING` to an authenticated phase. -/
theorem C16_legal_transitions (env : Env) (s : Session) (packet : Packet) :
    ((HandlePacket env s packet).session.state = s.state ∨
        legalEdge s.state (HandlePacket env s packet).session.state = true) ∧
      s.state.rank ≤ (HandlePacket env s packet).session.state.rank ∧
      ((HandlePacket env s packet).session.state = .STATE_CONNECTED →
        s.state = .STATE_CONNECTED) ∧
      ((s.state = .STATE_DISCONNECTED ∨ s.state = .STATE_STATUS ∨
          s.state = .STATE_STATUS_PING) →
        (HandlePacket env s packet).session.Authenticated = false) := by
  have hedge := HandlePacket_edge env s packet
  generalize (HandlePacket env s packet).session = after at hedge ⊢
  refine ⟨hedge, ?_, ?_, ?_⟩
  · rcases hedge with h | h
    · rw [h]
    · revert h
      cases s.state <;> cases after.state <;> simp [legalEdge, SessionState.rank]
  · rcases hedge with h | h
    · intro h2
      rw [← h, h2]
    · revert h
      cases s.state <;> cases after.state <;> simp [legalEdge]
  · rcases hedge with h | h
    · intro h2
      rcases h2 with h3 | h3 | h3 <;> simp [Session.Authenticated, h, h3]
    · revert h
      cases s.state <;> cases hafter : after.state <;>
        simp [legalEdge, Session.Authenticated, hafter]

/-- C16 witness: the login handshake moves a fresh session along the edge from
`STATE_DISCONNECTED` to `STATE_LOGIN`. -/
theorem C16_legal_transitions_witness :
    legalEdge (freshSession "10.0.0.1" "50000").state
        (HandlePacket exampleEnv (freshSession "10.0.0.1" "50000")
          loginHandshake).session.state = true :=
  (C16_legal_transitions exampleEnv (freshSession "10.0.0.1" "50000")
    loginHandshake).1.resolve_left (by decide)

/-! ## The key material of the encryption handshake (C18) -/

/-- An event that is not a query is not in a list of queries. -/
theorem not_mem_of_isQuery (e : Event) (events : List Event) (he : e.isQuery = false)
    (hall : ∀ x ∈ events, x.isQuery = true) : e ∉ events := by
  intro h
  have := hall e h
  simp [he] at this

/-- The events of `SetAuthenticated` do not set the phase to `STATE_LOGIN_ENCRYPT`. -/
theorem SetAuthenticated_no_SetState_LOGIN_ENCRYPT (env : Env) (s : Session)
    (result : Bool) :
    Event.SetState .STATE_LOGIN_ENCRYPT ∉ (SetAuthenticated env s result).events := by
  have hq : ∀ queries : List Event, (∀ x ∈ queries, x.isQuery = true) →
      Event.SetState .STATE_LOGIN_ENCRYPT ∉ queries :=
    fun queries hall => not_mem_of_isQuery _ queries rfl hall
  have hd : ∀ reason, Event.SetState .STATE_LOGIN_ENCRYPT ∉
      (Disconnect env s reason).events := by
    intro reason
    rcases Disconnect_events env s reason with h | h | h <;> simp [h]
  rcases SetAuthenticated_cases env s result with
    ⟨queries, reason, hall, -, heq⟩ | ⟨reason, -, -, heq⟩ | ⟨server, -, -, -, heq⟩
  · rw [heq]
    simp [Effect.after, hq queries hall, hd reason]
  · rw [heq]
    simp [Effect.after, hq _ (queriesBeforeReservation_isQuery env s), hd reason]
  · rw [heq]
    have hr : Event.SetState .STATE_LOGIN_ENCRYPT ∉
        (Redirect env s.accepted server).events := by
      rcases Redirect_events env s.accepted server with h | h | h
      · simp [h]
      · simp [h]
      · rw [h]
        rcases Disconnect_events env s.accepted "Error: Outbound Connection Mismatch" with
          h2 | h2 | h2 <;> simp [h2]
    simp [Effect.after, hq _ (queriesBeforeReservation_isQuery env s), hr, acceptEvents]

/-- The key material and the uuid are not touched by `SetAuthenticated`. -/
theorem SetAuthenticated_keys (env : Env) (s : Session) (result : Bool) :
    (SetAuthenticated env s result).session.serverId = s.serverId ∧
      (SetAuthenticated env s result).session.publicKey = s.publicKey ∧
      (SetAuthenticated env s result).session.verifyToken = s.verifyToken ∧
      (SetAuthenticated env s result).session.uuid = s.uuid ∧
      (SetAuthenticated env s result).session.name = s.name ∧
      (SetAuthenticated env s result).session.connCodec = s.connCodec := by
  rcases SetAuthenticated_session env s result with h | h | h <;> rw [h] <;>
    exact ⟨rfl, rfl, rfl, rfl, rfl, rfl⟩

/-- The three courses of a call of `HandlePacket` with respect to the key material: the
login-start step that generates all three values, sends them and moves the phase to
`STATE_LOGIN_ENCRYPT`; a login-start step under authentication that fails and stays in
`STATE_LOGIN`; or a step that leaves the key material as it is and does not enter
`STATE_LOGIN_ENCRYPT`. -/
theorem HandlePacket_keys (env : Env) (s : Session) (packet : Packet) :
    (s.state = .STATE_LOGIN ∧ env.Authenticate = true ∧
        packet.Id env = env.PACKET_SERVER_LOGIN_START ∧
        env.GenSalt.2 = none ∧ env.MarshalPKIXPublicKey.2 = none ∧
        (env.RandomBytes 4).2 = none ∧
        (HandlePacket env s packet).session.state = .STATE_LOGIN_ENCRYPT ∧
        (HandlePacket env s packet).outcome = .returned none ∧
        (HandlePacket env s packet).session.serverId = env.GenSalt.1 ∧
        (HandlePacket env s packet).session.publicKey = env.MarshalPKIXPublicKey.1 ∧
        (HandlePacket env s packet).session.verifyToken = (env.RandomBytes 4).1 ∧
        (HandlePacket env s packet).events =
          [ .Write (.PacketClientLoginEncryptRequest env.GenSalt.1
              env.MarshalPKIXPublicKey.1 (env.RandomBytes 4).1),
            .SetState .STATE_LOGIN_ENCRYPT ]) ∨
      (s.state = .STATE_LOGIN ∧ env.Authenticate = true ∧
        packet.Id env = env.PACKET_SERVER_LOGIN_START ∧
        (HandlePacket env s packet).session.state = .STATE_LOGIN ∧
        (∃ err, (HandlePacket env s packet).outcome = .returned (some err)) ∧
        Event.SetState .STATE_LOGIN_ENCRYPT ∉ (HandlePacket env s packet).events) ∨
      ((HandlePacket env s packet).session.serverId = s.serverId ∧
        (HandlePacket env s packet).session.publicKey = s.publicKey ∧
        (HandlePacket env s packet).session.verifyToken = s.verifyToken ∧
        Event.SetState .STATE_LOGIN_ENCRYPT ∉ (HandlePacket env s packet).events ∧
        ((HandlePacket env s packet).session.state = .STATE_LOGIN_ENCRYPT →
          s.state = .STATE_LOGIN_ENCRYPT)) := by
  have hphases : s.state = .STATE_DISCONNECTED ∨ s.state = .STATE_STATUS ∨
      s.state = .STATE_STATUS_PING ∨ s.state = .STATE_LOGIN ∨
      s.state = .STATE_LOGIN_ENCRYPT ∨ s.state = .STATE_INIT ∨
      s.state = .STATE_CONNECTED := by
    cases s.state <;> simp
  have hset : ∀ (s2 : Session) (result : Bool) (pre : List Event),
      s2.state = s.state → s2.serverId = s.serverId → s2.publicKey = s.publicKey →
      s2.verifyToken = s.verifyToken →
      (s.state = .STATE_LOGIN ∨ s.state = .STATE_LOGIN_ENCRYPT) →
      Event.SetState .STATE_LOGIN_ENCRYPT ∉ pre →
      (((SetAuthenticated env s2 result).after pre).done.session.serverId = s.serverId ∧
        ((SetAuthenticated env s2 result).after pre).done.session.publicKey = s.publicKey ∧
        ((SetAuthenticated env s2 result).after pre).done.session.verifyToken =
          s.verifyToken ∧
        Event.SetState .STATE_LOGIN_ENCRYPT ∉
          ((SetAuthenticated env s2 result).after pre).done.events ∧
        (((SetAuthenticated env s2 result).after pre).done.session.state =
            .STATE_LOGIN_ENCRYPT →
          s.state = .STATE_LOGIN_ENCRYPT)) := by
    intro s2 result pre hs h1 h2 h3 hphase hpre
    have hk := SetAuthenticated_keys env s2 result
    have hn := SetAuthenticated_no_SetState_LOGIN_ENCRYPT env s2 result
    simp only [Effect.done, Effect.after]
    refine ⟨by rw [hk.1, h1], by rw [hk.2.1, h2], by rw [hk.2.2.1, h3], ?_, ?_⟩
    · simp [hpre, hn]
    · rcases SetAuthenticated_state env s2 result with ⟨h, -⟩ | h
      · intro h4
        rw [← hs, ← h, h4]
      · intro h4
        rw [h] at h4
        exact absurd h4 (by decide)
  rcases hphases with hstate | hstate | hstate | hstate | hstate | hstate | hstate
  · right
    right
    rw [(HandlePacket_eq env s packet).1 hstate]
    simp only [handleDisconnected]
    repeat' split
    all_goals simp [failWith, panicAt, hstate]
  · right
    right
    rw [(HandlePacket_eq env s packet).2.1 hstate]
    simp only [handleStatus]
    repeat' split
    all_goals simp [failWith, panicAt, hstate]
  · right
    right
    rw [(HandlePacket_eq env s packet).2.2.1 hstate]
    simp only [handleStatusPing]
    repeat' split
    all_goals simp [failWith, panicAt, hstate]
  · rw [(HandlePacket_eq env s packet).2.2.2.1 hstate]
    simp only [handleLogin]
    split
    · rename_i hid
      split
      · split
        · rename_i hauth
          repeat' split
          all_goals first
            | (left
               simp [*]
               done)
            | (right
               left
               simp [*])
        · right
          right
          exact hset _ true [] rfl rfl rfl rfl (Or.inl hstate) (by simp)
      · right
        right
        simp [panicAt, hstate]
    · right
      right
      simp [failWith, hstate]
  · right
    right
    rw [(HandlePacket_eq env s packet).2.2.2.2.1 hstate]
    simp only [handleLoginEncrypt]
    split
    · split
      · repeat' split
        all_goals first
          | exact hset _ _ _ rfl rfl rfl rfl (Or.inr hstate) (by simp)
          | simp [failWith, hstate]
      · simp [panicAt, hstate]
    · simp [failWith, hstate]
  · right
    right
    rw [(HandlePacket_eq env s packet).2.2.2.2.2.2 hstate]
    simp [hstate]
  · right
    right
    rw [(HandlePacket_eq env s packet).2.2.2.2.2.1 hstate]
    simp only [handleConnected]
    repeat' split
    all_goals simp [hstate]

/-- A call of `HandlePacket` made past the login phase ends past the login phase. -/
theorem HandlePacket_pastLogin (env : Env) (s : Session) (packet : Packet)
    (hpast : s.state.pastLogin = true) :
    (HandlePacket env s packet).session.state.pastLogin = true := by
  rcases HandlePacket_edge env s packet with h | h
  · rw [h]
    exact hpast
  · revert h hpast
    cases s.state <;> cases (HandlePacket env s packet).session.state <;>
      simp [legalEdge, SessionState.pastLogin]

/-- The session after the read loop's calls, run as calls. -/
theorem runCalls_packetCalls_session (inputs : List (Env × Packet)) (s : Session) :
    (runCalls s (packetCalls inputs)).session = handlePackets s inputs := by
  induction inputs generalizing s with
  | nil => rfl
  | cons input rest ih =>
    obtain ⟨env, packet⟩ := input
    simp only [packetCalls, List.map_cons, runCalls, Effect.after, Call.apply, handlePackets]
    exact ih _

/-- Over a sequence of `HandlePacket` calls the phase is set to `STATE_LOGIN_ENCRYPT` at
most once, and not at all when the sequence starts past the login phase. -/
theorem runCalls_count_SetState_LOGIN_ENCRYPT (inputs : List (Env × Packet)) (s : Session) :
    (runCalls s (packetCalls inputs)).events.count (.SetState .STATE_LOGIN_ENCRYPT) ≤ 1 ∧
      (s.state.pastLogin = true →
        (runCalls s (packetCalls inputs)).events.count (.SetState .STATE_LOGIN_ENCRYPT) =
          0) := by
  induction inputs generalizing s with
  | nil => simp [packetCalls, runCalls]
  | cons input rest ih =>
    obtain ⟨env, packet⟩ := input
    have hrest := ih (HandlePacket env s packet).session
    simp only [packetCalls, List.map_cons, runCalls, Effect.after, Call.apply,
      List.count_append]
    simp only [packetCalls] at hrest
    rcases HandlePacket_keys env s packet with
      ⟨hs, -, -, -, -, -, hafter, -, -, -, -, hev⟩ | ⟨hs, -, -, -, -, hno⟩ |
      ⟨-, -, -, hno, -⟩
    · have hzero := hrest.2 (by rw [hafter]; rfl)
      rw [hzero, hev]
      refine ⟨by simp [List.count_cons], ?_⟩
      intro hpast
      rw [hs] at hpast
      exact absurd hpast (by decide)
    · rw [List.count_eq_zero_of_not_mem hno]
      refine ⟨by simpa using hrest.1, ?_⟩
      intro hpast
      rw [hs] at hpast
      exact absurd hpast (by decide)
    · rw [List.count_eq_zero_of_not_mem hno]
      refine ⟨by simpa using hrest.1, ?_⟩
      intro hpast
      simpa using hrest.2 (HandlePacket_pastLogin env s packet hpast)

/-- The session after one more call of `HandlePacket`. -/
theorem handlePackets_append (s : Session) (inputs : List (Env × Packet)) (env : Env)
    (packet : Packet) :
    handlePackets s (inputs ++ [(env, packet)]) =
      (HandlePacket env (handlePackets s inputs) packet).session := by
  induction inputs generalizing s with
  | nil => rfl
  | cons input rest ih =>
    obtain ⟨env2, packet2⟩ := input
    simp only [List.cons_append, handlePackets]
    exact ih _

/-- Whenever a sequence of `HandlePacket` calls, started outside `STATE_LOGIN_ENCRYPT`,
ends in `STATE_LOGIN_ENCRYPT`, the key material is the one generated without error in one
of its calls, made while the proxy requires authentication. -/
theorem handlePackets_keys_populated (inputs : List (Env × Packet)) (s : Session)
    (hstart : s.state ≠ .STATE_LOGIN_ENCRYPT)
    (hend : (handlePackets s inputs).state = .STATE_LOGIN_ENCRYPT) :
    ∃ input ∈ inputs, input.1.Authenticate = true ∧ input.1.GenSalt.2 = none ∧
      input.1.MarshalPKIXPublicKey.2 = none ∧ (input.1.RandomBytes 4).2 = none ∧
      (handlePackets s inputs).serverId = input.1.GenSalt.1 ∧
      (handlePackets s inputs).publicKey = input.1.MarshalPKIXPublicKey.1 ∧
      (handlePackets s inputs).verifyToken = (input.1.RandomBytes 4).1 := by
  induction inputs using List.reverseRecOn with
  | nil => exact absurd hend hstart
  | append_singleton rest input ih =>
    obtain ⟨env, packet⟩ := input
    rw [handlePackets_append] at hend ⊢
    rcases HandlePacket_keys env (handlePackets s rest) packet with
      ⟨-, hauth, -, h1, h2, h3, -, -, k1, k2, k3, -⟩ | ⟨-, -, -, hafter, -, -⟩ |
      ⟨k1, k2, k3, -, hback⟩
    · exact ⟨(env, packet), by simp, hauth, h1, h2, h3, k1, k2, k3⟩
    · rw [hafter] at hend
      exact absurd hend (by decide)
    · obtain ⟨input, hmem, hrest⟩ := ih (hback hend)
      refine ⟨input, by simp [hmem], ?_⟩
      rw [k1, k2, k3]
      exact hrest

/-- While the proxy does not require authentication, a sequence of `HandlePacket` calls
leaves the key material as it is. -/
theorem handlePackets_keys_unassigned (inputs : List (Env × Packet)) (s : Session)
    (hnoauth : ∀ input ∈ inputs, input.1.Authenticate = false) :
    (handlePackets s inputs).serverId = s.serverId ∧
      (handlePackets s inputs).publicKey = s.publicKey ∧
      (handlePackets s inputs).verifyToken = s.verifyToken := by
  induction inputs generalizing s with
  | nil => exact ⟨rfl, rfl, rfl⟩
  | cons input rest ih =>
    obtain ⟨env, packet⟩ := input
    have hfalse : env.Authenticate = false := hnoauth (env, packet) (by simp)
    have hrest := ih (HandlePacket env s packet).session
      (fun x hx => hnoauth x (List.mem_cons_of_mem _ hx))
    simp only [handlePackets]
    rcases HandlePacket_keys env s packet with
      ⟨-, hauth, -⟩ | ⟨-, hauth, -⟩ | ⟨k1, k2, k3, -, -⟩
    · rw [hfalse] at hauth
      exact absurd hauth (by decide)
    · rw [hfalse] at hauth
      exact absurd hauth (by decide)
    · rw [hrest.1, hrest.2.1, hrest.2.2, k1, k2, k3]
      exact ⟨rfl, rfl, rfl⟩

/-- C18 (as stated, refuted): while the proxy requires authentication, a login-start step
in which the export of the public key fails assigns `serverId` (and `publicKey`) but not
`verifyToken`: the three are not assigned in the same step. -/
theorem C18_partial_assignment :
    exportFailsEnv.Authenticate = true ∧
      (freshSession "10.0.0.1" "50000").serverId = "" ∧
      (handlePackets (freshSession "10.0.0.1" "50000")
        [(exportFailsEnv, loginHandshake)]).state = .STATE_LOGIN ∧
      (HandlePacket exportFailsEnv
          (handlePackets (freshSession "10.0.0.1" "50000")
            [(exportFailsEnv, loginHandshake)])
          aliceLoginStart).outcome =
        .returned (some "x509: unsupported public key type") ∧
      (handlePackets (freshSession "10.0.0.1" "50000")
        [(exportFailsEnv, loginHandshake), (exportFailsEnv, aliceLoginStart)]).serverId =
        "salt" ∧
      (handlePackets (freshSession "10.0.0.1" "50000")
        [(exportFailsEnv, loginHandshake), (exportFailsEnv, aliceLoginStart)]).verifyToken =
        [] ∧
      (handlePackets (freshSession "10.0.0.1" "50000")
        [(exportFailsEnv, loginHandshake), (exportFailsEnv, aliceLoginStart)]).state =
        .STATE_LOGIN := by
  decide

/-- C18 (amended): a call of `HandlePacket` changes `serverId`, `publicKey` or
`verifyToken` only if it is a login-start step taken in `STATE_LOGIN` while the proxy
requires authentication; the step that moves the phase to `STATE_LOGIN_ENCRYPT` assigns
all three, to the values `GenSalt`, `MarshalPKIXPublicKey` and `RandomBytes(4)` returned
without error, which are the ones it sends in the encryption request; over every sequence
of `HandlePacket` calls on a fresh session there is at most one such step; whenever such a
sequence ends in `STATE_LOGIN_ENCRYPT` the three fields hold the values generated without
error in one of its calls; when the proxy does not require authentication throughout
the sequence, the three fields are still unset; and a login-start step taken in
`STATE_LOGIN` while the proxy requires authentication, in which a generator or the write
of the encryption request fails, returns an error and stays in `STATE_LOGIN`. -/
theorem C18_key_material (host port : String) (inputs : List (Env × Packet)) (env : Env)
    (s : Session) (packet : Packet) :
    (((HandlePacket env s packet).session.serverId ≠ s.serverId ∨
          (HandlePacket env s packet).session.publicKey ≠ s.publicKey ∨
          (HandlePacket env s packet).session.verifyToken ≠ s.verifyToken) →
        s.state = .STATE_LOGIN ∧ env.Authenticate = true ∧
          packet.Id env = env.PACKET_SERVER_LOGIN_START) ∧
      (s.state ≠ .STATE_LOGIN_ENCRYPT →
        (HandlePacket env s packet).session.state = .STATE_LOGIN_ENCRYPT →
        env.Authenticate = true ∧ env.GenSalt.2 = none ∧
          env.MarshalPKIXPublicKey.2 = none ∧ (env.RandomBytes 4).2 = none ∧
          (HandlePacket env s packet).session.serverId = env.GenSalt.1 ∧
          (HandlePacket env s packet).session.publicKey = env.MarshalPKIXPublicKey.1 ∧
          (HandlePacket env s packet).session.verifyToken = (env.RandomBytes 4).1 ∧
          (HandlePacket env s packet).events =
            [ .Write (.PacketClientLoginEncryptRequest env.GenSalt.1
                env.MarshalPKIXPublicKey.1 (env.RandomBytes 4).1),
              .SetState .STATE_LOGIN_ENCRYPT ]) ∧
      (runCalls (freshSession host port) (packetCalls inputs)).events.count
          (.SetState .STATE_LOGIN_ENCRYPT) ≤ 1 ∧
      ((handlePackets (freshSession host port) inputs).state = .STATE_LOGIN_ENCRYPT →
        ∃ input ∈ inputs, input.1.Authenticate = true ∧ input.1.GenSalt.2 = none ∧
          input.1.MarshalPKIXPublicKey.2 = none ∧ (input.1.RandomBytes 4).2 = none ∧
          (handlePackets (freshSession host port) inputs).serverId = input.1.GenSalt.1 ∧
          (handlePackets (freshSession host port) inputs).publicKey =
            input.1.MarshalPKIXPublicKey.1 ∧
          (handlePackets (freshSession host port) inputs).verifyToken =
            (input.1.RandomBytes 4).1) ∧
      ((∀ input ∈ inputs, input.1.Authenticate = false) →
        (handlePackets (freshSession host port) inputs).serverId = "" ∧
          (handlePackets (freshSession host port) inputs).publicKey = [] ∧
          (handlePackets (freshSession host port) inputs).verifyToken = []) ∧
      (∀ loginStart, s.state = .STATE_LOGIN → env.Authenticate = true →
        (Packet.ServerLoginStart loginStart).Id env = env.PACKET_SERVER_LOGIN_START →
        (env.GenSalt.2 ≠ none ∨ env.MarshalPKIXPublicKey.2 ≠ none ∨
          (env.RandomBytes 4).2 ≠ none ∨
          env.Write (.PacketClientLoginEncryptRequest env.GenSalt.1
            env.MarshalPKIXPublicKey.1 (env.RandomBytes 4).1) ≠ none) →
        (∃ err, (HandlePacket env s (.ServerLoginStart loginStart)).outcome =
            .returned (some err)) ∧
          (HandlePacket env s (.ServerLoginStart loginStart)).session.state =
            .STATE_LOGIN) := by
  refine ⟨?_, ?_, (runCalls_count_SetState_LOGIN_ENCRYPT inputs _).1, ?_, ?_, ?_⟩
  · intro hchanged
    rcases HandlePacket_keys env s packet with
      ⟨hs, hauth, hid, -⟩ | ⟨hs, hauth, hid, -⟩ | ⟨k1, k2, k3, -, -⟩
    · exact ⟨hs, hauth, hid⟩
    · exact ⟨hs, hauth, hid⟩
    · rcases hchanged with h | h | h
      · exact absurd k1 h
      · exact absurd k2 h
      · exact absurd k3 h
  · intro hbefore hafter
    rcases HandlePacket_keys env s packet with
      ⟨-, hauth, -, h1, h2, h3, -, -, k1, k2, k3, hev⟩ | ⟨-, -, -, hstay, -, -⟩ |
      ⟨-, -, -, -, hback⟩
    · exact ⟨hauth, h1, h2, h3, k1, k2, k3, hev⟩
    · rw [hstay] at hafter
      exact absurd hafter (by decide)
    · exact absurd (hback hafter) hbefore
  · intro hend
    exact handlePackets_keys_populated inputs (freshSession host port)
      (by simp [freshSession, Serve, NewSession]) hend
  · intro hnoauth
    exact handlePackets_keys_unassigned inputs (freshSession host port) hnoauth
  · intro loginStart hstate hauth hid hfail
    rw [(HandlePacket_eq env s _).2.2.2.1 hstate]
    simp only [handleLogin]
    rw [if_pos hid, if_pos hauth]
    repeat' split
    all_goals first
      | exact ⟨⟨_, rfl⟩, hstate⟩
      | (exfalso
         simp_all)

/-- C18 witness: a login under authentication ends in `STATE_LOGIN_ENCRYPT` with the
generated key material. -/
theorem C18_key_material_witness :
    ∃ input ∈ [(authEnv, loginHandshake), (authEnv, aliceLoginStart)],
      input.1.Authenticate = true ∧ input.1.GenSalt.2 = none ∧
        input.1.MarshalPKIXPublicKey.2 = none ∧ (input.1.RandomBytes 4).2 = none ∧
        (handlePackets (freshSession "10.0.0.1" "50000")
          [(authEnv, loginHandshake), (authEnv, aliceLoginStart)]).serverId =
          input.1.GenSalt.1 ∧
        (handlePackets (freshSession "10.0.0.1" "50000")
          [(authEnv, loginHandshake), (authEnv, aliceLoginStart)]).publicKey =
          input.1.MarshalPKIXPublicKey.1 ∧
        (handlePackets (freshSession "10.0.0.1" "50000")
          [(authEnv, loginHandshake), (authEnv, aliceLoginStart)]).verifyToken =
          (input.1.RandomBytes 4).1 :=
  (C18_key_material "10.0.0.1" "50000"
    [(authEnv, loginHandshake), (authEnv, aliceLoginStart)] authEnv
    (freshSession "10.0.0.1" "50000") loginHandshake).2.2.2.1 (by decide)

/-! ## The login-start step (C19) -/

/-- Every event of a call of `SetAuthenticated` is free of the encryption handshake, and a
login-success packet it writes carries the uuid and the name of the session. -/
theorem SetAuthenticated_plainLogin (env : Env) (s : Session) (result : Bool) (e : Event)
    (he : e ∈ (SetAuthenticated env s result).events) :
    e.plainLogin s.uuid s.name = true := by
  have hquery : ∀ x : Event, x.isQuery = true → x.plainLogin s.uuid s.name = true := by
    intro x hx
    cases x <;> simp [Event.isQuery] at hx <;> rfl
  have hdisconnect : ∀ (s2 : Session) (reason : String),
      e ∈ (Disconnect env s2 reason).events → e.plainLogin s.uuid s.name = true := by
    intro s2 reason hmem
    rcases Disconnect_events env s2 reason with h | h | h <;> rw [h] at hmem <;>
      simp only [List.mem_cons, List.not_mem_nil, or_false] at hmem
    · rcases hmem with h2 | h2 <;> rw [h2] <;> rfl
    · rcases hmem with h2 | h2 <;> rw [h2] <;> rfl
    · rw [hmem]
      rfl
  rcases SetAuthenticated_cases env s result with
    ⟨queries, reason, hall, -, heq⟩ | ⟨reason, -, -, heq⟩ | ⟨server, -, -, -, heq⟩
  · rw [heq] at he
    simp only [Effect.after, List.cons_append, List.mem_cons, List.mem_append] at he
    rcases he with h | h | h
    · rw [h]
      rfl
    · exact hquery e (hall e h)
    · exact hdisconnect s reason h
  · rw [heq] at he
    simp only [Effect.after, List.cons_append, List.mem_cons, List.mem_append,
      List.mem_singleton, List.not_mem_nil, or_false] at he
    rcases he with h | (h | h) | h
    · rw [h]
      rfl
    · exact hquery e (queriesBeforeReservation_isQuery env s e h)
    · rw [h]
      rfl
    · exact hdisconnect s reason h
  · rw [heq] at he
    simp only [Effect.after, List.cons_append, List.mem_cons, List.mem_append,
      acceptEvents, List.not_mem_nil, or_false] at he
    rcases he with h | (h | h | h | h | h | h | h) | h
    · rw [h]
      rfl
    · exact hquery e (queriesBeforeReservation_isQuery env s e h)
    · rw [h]
      rfl
    · rw [h]
      rfl
    · rw [h]
      simp [Event.plainLogin]
    · rw [h]
      rfl
    · rw [h]
      rfl
    · rw [h]
      rfl
    · rcases Redirect_events env s.accepted server with h2 | h2 | h2 <;> rw [h2] at h <;>
        simp only [List.mem_cons, List.not_mem_nil, or_false] at h
      · rcases h with h3 | h3 <;> rw [h3] <;> rfl
      · rw [h]
        rfl
      · rcases h with h3 | h3
        · rw [h3]
          rfl
        · exact hdisconnect _ _ h3

/-- A call of `HandlePacket` outside `STATE_LOGIN_ENCRYPT` leaves the uuid as it is. -/
theorem HandlePacket_uuid (env : Env) (s : Session) (packet : Packet)
    (hstate : s.state ≠ .STATE_LOGIN_ENCRYPT) :
    (HandlePacket env s packet).session.uuid = s.uuid := by
  have hphases : s.state = .STATE_DISCONNECTED ∨ s.state = .STATE_STATUS ∨
      s.state = .STATE_STATUS_PING ∨ s.state = .STATE_LOGIN ∨
      s.state = .STATE_LOGIN_ENCRYPT ∨ s.state = .STATE_INIT ∨
      s.state = .STATE_CONNECTED := by
    cases s.state <;> simp
  rcases hphases with h | h | h | h | h | h | h
  · rw [(HandlePacket_eq env s packet).1 h]
    simp only [handleDisconnected]
    repeat' split
    all_goals simp [failWith, panicAt]
  · rw [(HandlePacket_eq env s packet).2.1 h]
    simp only [handleStatus]
    repeat' split
    all_goals simp [failWith, panicAt]
  · rw [(HandlePacket_eq env s packet).2.2.1 h]
    simp only [handleStatusPing]
    repeat' split
    all_goals simp [failWith, panicAt]
  · rw [(HandlePacket_eq env s packet).2.2.2.1 h]
    simp only [handleLogin]
    split
    · split
      · split
        · repeat' split
          all_goals simp
        · exact (SetAuthenticated_keys env _ true).2.2.2.1
      · simp [panicAt]
    · simp [failWith]
  · exact absurd h hstate
  · rw [(HandlePacket_eq env s packet).2.2.2.2.2.2 h]
  · rw [(HandlePacket_eq env s packet).2.2.2.2.2.1 h]
    simp only [handleConnected]
    repeat' split
    all_goals simp

/-- A call of `HandlePacket` that ends before the encryption response has been handled
started there. -/
theorem HandlePacket_beforeEncrypt (env : Env) (s : Session) (packet : Packet)
    (hafter : (HandlePacket env s packet).session.state.beforeEncrypt = true) :
    s.state.beforeEncrypt = true := by
  rcases HandlePacket_edge env s packet with h | h
  · rw [← h]
    exact hafter
  · revert h hafter
    cases s.state <;> cases (HandlePacket env s packet).session.state <;>
      simp [legalEdge, SessionState.beforeEncrypt]

/-- In every session that `HandlePacket` calls produce from a fresh session, the uuid is
unset before the encryption response has been handled. -/
theorem handlePackets_uuid_unset (host port : String) (inputs : List (Env × Packet))
    (hbefore : (handlePackets (freshSession host port) inputs).state.beforeEncrypt = true) :
    (handlePackets (freshSession host port) inputs).uuid = "" := by
  induction inputs using List.reverseRecOn with
  | nil => rfl
  | append_singleton rest input ih =>
    obtain ⟨env, packet⟩ := input
    rw [handlePackets_append] at hbefore ⊢
    have hprev := HandlePacket_beforeEncrypt env _ packet hbefore
    have hne : (handlePackets (freshSession host port) rest).state ≠
        .STATE_LOGIN_ENCRYPT := by
      intro h
      rw [h] at hprev
      exact absurd hprev (by decide)
    rw [HandlePacket_uuid env _ packet hne]
    exact ih hprev

/-- C19: for every session in `STATE_LOGIN` produced from a fresh session by `HandlePacket`
calls, and every login-start packet.  When the proxy does not require authentication,
`HandlePacket` records the claimed name and calls `SetAuthenticated(true)` directly: the
identity verifier is not called, no encryption request is written, no cipher is installed,
the phase does not become `STATE_LOGIN_ENCRYPT`, and a login-success packet written in the
call carries the unset (empty) uuid and the claimed name.  When the proxy requires
authentication and a write of the call succeeds, the events of the call are exactly the
write of one encryption request carrying (serverId, publicKey, verifyToken) and the change
of the phase to `STATE_LOGIN_ENCRYPT`; `SetAuthenticated` is not called. -/
theorem C19_login_start (host port : String) (inputs : List (Env × Packet)) (env : Env)
    (loginStart : PacketServerLoginStart)
    (hstate : (handlePackets (freshSession host port) inputs).state = .STATE_LOGIN) :
    (env.Authenticate = false →
        HandlePacket env (handlePackets (freshSession host port) inputs)
            (.ServerLoginStart loginStart) =
          (SetAuthenticated env
            { handlePackets (freshSession host port) inputs with name := loginStart.Name }
            true).done ∧
        (HandlePacket env (handlePackets (freshSession host port) inputs)
          (.ServerLoginStart loginStart)).session.name = loginStart.Name ∧
        (HandlePacket env (handlePackets (freshSession host port) inputs)
          (.ServerLoginStart loginStart)).events.filter Event.isCallSetAuthenticated =
          [.CallSetAuthenticated true] ∧
        (HandlePacket env (handlePackets (freshSession host port) inputs)
          (.ServerLoginStart loginStart)).events.filter Event.isAuthAuthenticate = [] ∧
        (∀ serverId publicKey verifyToken,
          Event.Write (.PacketClientLoginEncryptRequest serverId publicKey verifyToken) ∉
            (HandlePacket env (handlePackets (freshSession host port) inputs)
              (.ServerLoginStart loginStart)).events) ∧
        (∀ stream,
          Event.SetReader stream ∉
              (HandlePacket env (handlePackets (freshSession host port) inputs)
                (.ServerLoginStart loginStart)).events ∧
            Event.SetWriter stream ∉
              (HandlePacket env (handlePackets (freshSession host port) inputs)
                (.ServerLoginStart loginStart)).events) ∧
        (HandlePacket env (handlePackets (freshSession host port) inputs)
          (.ServerLoginStart loginStart)).session.connCodec =
          (handlePackets (freshSession host port) inputs).connCodec ∧
        (HandlePacket env (handlePackets (freshSession host port) inputs)
          (.ServerLoginStart loginStart)).session.state ≠ .STATE_LOGIN_ENCRYPT ∧
        (∀ uuid name,
          Event.Write (.PacketClientLoginSuccess uuid name) ∈
              (HandlePacket env (handlePackets (freshSession host port) inputs)
                (.ServerLoginStart loginStart)).events →
            uuid = "" ∧ name = loginStart.Name)) ∧
      (env.Authenticate = true →
        (∃ written,
          Event.Write written ∈
              (HandlePacket env (handlePackets (freshSession host port) inputs)
                (.ServerLoginStart loginStart)).events ∧
            env.Write written = none) →
        (HandlePacket env (handlePackets (freshSession host port) inputs)
            (.ServerLoginStart loginStart)).events =
            [ .Write (.PacketClientLoginEncryptRequest env.GenSalt.1
                env.MarshalPKIXPublicKey.1 (env.RandomBytes 4).1),
              .SetState .STATE_LOGIN_ENCRYPT ] ∧
          (HandlePacket env (handlePackets (freshSession host port) inputs)
            (.ServerLoginStart loginStart)).session.state = .STATE_LOGIN_ENCRYPT ∧
          (HandlePacket env (handlePackets (freshSession host port) inputs)
            (.ServerLoginStart loginStart)).session.serverId = env.GenSalt.1 ∧
          (HandlePacket env (handlePackets (freshSession host port) inputs)
            (.ServerLoginStart loginStart)).session.publicKey =
            env.MarshalPKIXPublicKey.1 ∧
          (HandlePacket env (handlePackets (freshSession host port) inputs)
            (.ServerLoginStart loginStart)).session.verifyToken = (env.RandomBytes 4).1 ∧
          (HandlePacket env (handlePackets (freshSession host port) inputs)
            (.ServerLoginStart loginStart)).events.filter Event.isCallSetAuthenticated =
            []) := by
  have huuid : (handlePackets (freshSession host port) inputs).uuid = "" :=
    handlePackets_uuid_unset host port inputs (by rw [hstate]; rfl)
  generalize handlePackets (freshSession host port) inputs = s at hstate huuid ⊢
  constructor
  · intro hnoauth
    have heq : HandlePacket env s (.ServerLoginStart loginStart) =
        (SetAuthenticated env { s with name := loginStart.Name } true).done := by
      rw [(HandlePacket_eq env s _).2.2.2.1 hstate]
      simp [handleLogin, Packet.Id, hnoauth]
    have hkinds := SetAuthenticated_plainLogin env { s with name := loginStart.Name } true
    have hkeys := SetAuthenticated_keys env { s with name := loginStart.Name } true
    have hauth := SetAuthenticated_events_filter_auth env
      { s with name := loginStart.Name } true
    rw [heq]
    simp only [Effect.done]
    refine ⟨trivial, hkeys.2.2.2.2.1, hauth.2, hauth.1, ?_, ?_, hkeys.2.2.2.2.2, ?_, ?_⟩
    · intro a b c hmem
      have := hkinds _ hmem
      simp [Event.plainLogin] at this
    · intro stream
      constructor
      · intro hmem
        have := hkinds _ hmem
        simp [Event.plainLogin] at this
      · intro hmem
        have := hkinds _ hmem
        simp [Event.plainLogin] at this
    · rcases SetAuthenticated_state env { s with name := loginStart.Name } true with
        ⟨h, -⟩ | h
      · rw [h]
        show s.state ≠ _
        rw [hstate]
        decide
      · rw [h]
        decide
    · intro uuid name hmem
      have := hkinds _ hmem
      simp [Event.plainLogin] at this
      rw [this.1, this.2]
      exact ⟨huuid, rfl⟩
  · intro hauth hwritten
    rw [(HandlePacket_eq env s _).2.2.2.1 hstate] at hwritten ⊢
    simp only [handleLogin, Packet.Id, if_true, hauth] at hwritten ⊢
    cases hg : env.GenSalt.2 with
    | some e =>
      simp [hg] at hwritten
    | none =>
      cases hm : env.MarshalPKIXPublicKey.2 with
      | some e =>
        simp [hg, hm] at hwritten
      | none =>
        cases hr : (env.RandomBytes 4).2 with
        | some e =>
          simp [hg, hm, hr] at hwritten
        | none =>
          cases hw : env.Write (.PacketClientLoginEncryptRequest env.GenSalt.1
              env.MarshalPKIXPublicKey.1 (env.RandomBytes 4).1) with
          | some e =>
            simp [hg, hm, hr, hw] at hwritten
          | none =>
            simp [hg, hm, hr, hw, List.filter, Event.isCallSetAuthenticated]

/-- C19 witness: `alice` logs in at a proxy that does not require authentication: the
login-success packet carries the empty uuid. -/
theorem C19_login_start_witness :
    (HandlePacket exampleEnv
        (handlePackets (freshSession "10.0.0.1" "50000") [(exampleEnv, loginHandshake)])
        (.ServerLoginStart ⟨"alice"⟩)).session.name = "alice" ∧
      (HandlePacket authEnv
        (handlePackets (freshSession "10.0.0.1" "50000") [(exampleEnv, loginHandshake)])
        (.ServerLoginStart ⟨"alice"⟩)).session.state = .STATE_LOGIN_ENCRYPT :=
  ⟨((C19_login_start "10.0.0.1" "50000" [(exampleEnv, loginHandshake)] exampleEnv
      ⟨"alice"⟩ (by decide)).1 (by decide)).2.1,
    ((C19_login_start "10.0.0.1" "50000" [(exampleEnv, loginHandshake)] authEnv
      ⟨"alice"⟩ (by decide)).2 (by decide)
      ⟨.PacketClientLoginEncryptRequest "salt" [48, 129] [7, 7, 7, 7], by decide,
        by decide⟩).2.1⟩

/-! ## A rejected session leaves the shared structures alone (C20) -/

/-- The shared structures after two lists of events. -/
theorem Registries.applyAll_append (w : Registries) (a b : List Event) :
    w.applyAll (a ++ b) = (w.applyAll a).applyAll b := by
  induction a generalizing w with
  | nil => rfl
  | cons e rest ih => simp [Registries.applyAll, ih]

/-- Events that change neither the registry nor the reservations leave the shared
structures as they are. -/
theorem Registries.applyAll_unchanged (w : Registries) (events : List Event)
    (hnone : events.filter Event.changesRegistry = []) :
    w.applyAll events = w := by
  rw [List.filter_eq_nil_iff] at hnone
  induction events generalizing w with
  | nil => rfl
  | cons e rest ih =>
    have hrest := ih w (fun x hx => hnone x (List.mem_cons_of_mem _ hx))
    have he := hnone e (List.mem_cons_self _ _)
    cases e <;>
      first
        | simpa [Registries.applyAll, Registries.apply] using hrest
        | exact absurd rfl he

/-- A call of `SetAuthenticated` that does not end in `STATE_INIT` has only closed the
connection of the session and has left the shared structures as they are. -/
theorem SetAuthenticated_rejected (env : Env) (s : Session) (result : Bool)
    (hrejected : (SetAuthenticated env s result).session.state ≠ .STATE_INIT) :
    (SetAuthenticated env s result).session = { s with conn := ⟨true⟩ } ∧
      ∀ w : Registries, w.applyAll (SetAuthenticated env s result).events = w := by
  rcases SetAuthenticated_cases env s result with
    ⟨queries, reason, hall, -, heq⟩ | ⟨reason, -, hadd, heq⟩ | ⟨server, -, -, -, heq⟩
  · refine ⟨by rw [heq]; simp [Effect.after, Disconnect_session], ?_⟩
    intro w
    apply Registries.applyAll_unchanged
    rw [heq]
    simp [Effect.after, List.filter_cons, Event.changesRegistry,
      filter_changesRegistry_of_isQuery queries hall,
      Disconnect_events_filter_changesRegistry]
  · refine ⟨by rw [heq]; simp [Effect.after, Disconnect_session], ?_⟩
    intro w
    have hle : ¬ 0 < env.AddLocalPlayer s.name := by omega
    have hq := fun w : Registries => Registries.applyAll_unchanged w _
      (filter_changesRegistry_of_isQuery _ (queriesBeforeReservation_isQuery env s))
    have hd := fun w : Registries => Registries.applyAll_unchanged w _
      (Disconnect_events_filter_changesRegistry env s reason)
    rw [heq]
    simp only [Effect.after, List.cons_append, List.append_assoc]
    generalize queriesBeforeReservation env s = queries at hq ⊢
    generalize (Disconnect env s reason).events = closing at hd ⊢
    simp [Registries.applyAll, Registries.apply, Registries.applyAll_append, hq, hd, hle]
  · exfalso
    apply hrejected
    rw [heq]
    simp only [Effect.after]
    rcases Redirect_session env s.accepted server with h | h <;> rw [h] <;> rfl

/-- C20: for every call of `HandlePacket` that enters `SetAuthenticated` and takes a
rejection branch (the phase afterwards is not `STATE_INIT`): `Authenticated()` is false
afterwards; a subsequent `ErrorCaught` on the rejected session only resets the phase and
closes the connection, making neither a `RemoveLocalPlayer` nor an `Unregister` call; and
the events of the rejected call and of that `ErrorCaught` leave the names in the
active-sessions registry and the names holding a reservation exactly as they were, so the
existing holder's entries remain.  The name-collision branch is such a rejection branch:
when the name of the session is registered, the phase afterwards is not `STATE_INIT`. -/
theorem C20_rejected_session_harmless (env : Env) (s : Session) (packet : Packet)
    (result : Bool) (err : String)
    (hcall : Event.CallSetAuthenticated result ∈ (HandlePacket env s packet).events) :
    ((HandlePacket env s packet).session.state ≠ .STATE_INIT →
        (HandlePacket env s packet).session.Authenticated = false ∧
          (ErrorCaught (HandlePacket env s packet).session err).events =
            [.SetState .STATE_DISCONNECTED, .ConnClose] ∧
          (∀ w : Registries,
            w.applyAll ((HandlePacket env s packet).events ++
              (ErrorCaught (HandlePacket env s packet).session err).events) = w) ∧
          (∀ (w : Registries) (name : String), name ∈ w.sessions → name ∈ w.players →
            name ∈ (w.applyAll ((HandlePacket env s packet).events ++
                (ErrorCaught (HandlePacket env s packet).session err).events)).sessions ∧
              name ∈ (w.applyAll ((HandlePacket env s packet).events ++
                (ErrorCaught (HandlePacket env s packet).session err).events)).players)) ∧
      (env.HasName (HandlePacket env s packet).session.name = true →
        (HandlePacket env s packet).session.state ≠ .STATE_INIT) := by
  obtain ⟨hphase, s2, pre, answer, hs, hpre, heq⟩ :
      (s.state = .STATE_LOGIN ∨ s.state = .STATE_LOGIN_ENCRYPT) ∧
      ∃ s2 pre answer, s2.state = s.state ∧ pre.filter Event.changesRegistry = [] ∧
        HandlePacket env s packet = ((SetAuthenticated env s2 answer).after pre).done := by
    rcases HandlePacket_cases env s packet with
      ⟨hphase, s2, pre, answer, -, hs, hpre, -, heq⟩ | ⟨-, hnone, -, -⟩
    · exact ⟨hphase, s2, pre, answer, hs, hpre, heq⟩
    · rw [List.filter_eq_nil_iff] at hnone
      exact absurd rfl (hnone _ hcall)
  have hlogin : s2.state ≠ .STATE_INIT ∧ s2.state ≠ .STATE_CONNECTED := by
    rw [hs]
    rcases hphase with h | h <;> rw [h] <;> exact ⟨by decide, by decide⟩
  rw [heq]
  simp only [Effect.done, Effect.after]
  constructor
  · intro hrejected
    obtain ⟨hsession, hworld⟩ := SetAuthenticated_rejected env s2 answer hrejected
    have hunauth : (SetAuthenticated env s2 answer).session.Authenticated = false := by
      rw [hsession]
      simp [Session.Authenticated, hlogin.1, hlogin.2]
    have herror : (ErrorCaught (SetAuthenticated env s2 answer).session err).events =
        [.SetState .STATE_DISCONNECTED, .ConnClose] := by
      simp [ErrorCaught, hunauth]
    have hall : ∀ w : Registries,
        w.applyAll ((pre ++ (SetAuthenticated env s2 answer).events) ++
          (ErrorCaught (SetAuthenticated env s2 answer).session err).events) = w := by
      intro w
      rw [herror, Registries.applyAll_append, Registries.applyAll_append,
        Registries.applyAll_unchanged w pre hpre, hworld w]
      rfl
    refine ⟨hunauth, herror, hall, ?_⟩
    intro w name h1 h2
    rw [hall w]
    exact ⟨h1, h2⟩
  · intro hname
    rw [(SetAuthenticated_keys env s2 answer).2.2.2.2.1] at hname
    have hsession : (SetAuthenticated env s2 answer).session = { s2 with conn := ⟨true⟩ } := by
      cases answer
      · simp [SetAuthenticated, Effect.after, Disconnect_session]
      · simp [SetAuthenticated, hname, Effect.after, Disconnect_session]
    rw [hsession]
    exact hlogin.1

/-- C20 witness: `alice` is refused because her name is registered; the teardown of her
session then makes no call on the registry or the manager. -/
theorem C20_rejected_session_harmless_witness :
    (ErrorCaught
        (HandlePacket takenEnv loginSession aliceLoginStart).session "EOF").events =
      [.SetState .STATE_DISCONNECTED, .ConnClose] :=
  ((C20_rejected_session_harmless takenEnv loginSession aliceLoginStart true "EOF"
    (by decide)).1 (by decide)).2.1

/-! ## Every rejection sends its own reason (C7) -/

/-- The decision of `SetAuthenticated`, branch by branch: each of the six rejection
conditions, met after the conditions before it have passed, leads to the `Disconnect` with
its own reason; when none is met the session is accepted and redirected to the backend
that was looked up. -/
theorem SetAuthenticated_decision (env : Env) (s : Session) (result : Bool) :
    (result = false →
        SetAuthenticated env s result =
          (Disconnect env s "Error: Authentication to Minecraft.net Failed").after
            [.CallSetAuthenticated result]) ∧
      (result = true → env.HasName s.name = true →
        SetAuthenticated env s result =
          (Disconnect env s (env.Colorize env.LocaleLoggedIn)).after
            [.CallSetAuthenticated result, .HasName s.name]) ∧
      (result = true → env.HasName s.name = false →
        (1 < env.MaxPlayers ∧ env.MaxPlayers ≤ env.Len) →
        SetAuthenticated env s result =
          (Disconnect env s (env.Colorize env.LocaleFull)).after
            [.CallSetAuthenticated result, .HasName s.name, .Len]) ∧
      (result = true → env.HasName s.name = false →
        ¬ (1 < env.MaxPlayers ∧ env.MaxPlayers ≤ env.Len) →
        (env.Route s.serverAddress).length = 0 →
        SetAuthenticated env s result =
          (Disconnect env s (env.Colorize env.LocaleOffline)).after
            ([.CallSetAuthenticated result, .HasName s.name] ++
              (if 1 < env.MaxPlayers then [.Len] else []) ++ [.Route s.serverAddress])) ∧
      (result = true → env.HasName s.name = false →
        ¬ (1 < env.MaxPlayers ∧ env.MaxPlayers ≤ env.Len) →
        (env.Route s.serverAddress).length ≠ 0 →
        env.Server (env.Route s.serverAddress) = none →
        SetAuthenticated env s result =
          (Disconnect env s (env.Colorize env.LocaleOffline)).after
            (.CallSetAuthenticated result :: queriesBeforeReservation env s)) ∧
      (result = true → env.HasName s.name = false →
        ¬ (1 < env.MaxPlayers ∧ env.MaxPlayers ≤ env.Len) →
        (env.Route s.serverAddress).length ≠ 0 →
        (∃ server, env.Server (env.Route s.serverAddress) = some server) →
        (env.AddLocalPlayer s.name = 0 ∨ env.AddLocalPlayer s.name = -1) →
        SetAuthenticated env s result =
          (Disconnect env s (env.Colorize env.LocaleLoggedIn)).after
            (.CallSetAuthenticated result :: queriesBeforeReservation env s ++
              [.AddLocalPlayer s.name (env.AddLocalPlayer s.name)])) ∧
      (result = true → env.HasName s.name = false →
        ¬ (1 < env.MaxPlayers ∧ env.MaxPlayers ≤ env.Len) →
        (env.Route s.serverAddress).length ≠ 0 →
        ∀ server, env.Server (env.Route s.serverAddress) = some server →
        env.AddLocalPlayer s.name ≠ 0 → env.AddLocalPlayer s.name ≠ -1 →
        SetAuthenticated env s result =
          (Redirect env s.accepted server).after
            (.CallSetAuthenticated result :: queriesBeforeReservation env s ++
              acceptEvents s (env.AddLocalPlayer s.name))) := by
  refine ⟨?_, ?_, ?_, ?_, ?_, ?_, ?_⟩
  · intro hr
    simp [SetAuthenticated, hr]
  · intro hr hn
    simp [SetAuthenticated, hr, hn]
  · intro hr hn hc
    simp [SetAuthenticated, hr, hn, hc]
  · intro hr hn hc hroute
    simp [SetAuthenticated, hr, hn, hc, hroute]
  · intro hr hn hc hroute hserver
    simp [SetAuthenticated, hr, hn, hc, hroute, hserver, queriesBeforeReservation]
  · intro hr hn hc hroute hserver hadd
    obtain ⟨server, hserver⟩ := hserver
    rcases hadd with h | h <;>
      simp [SetAuthenticated, hr, hn, hc, hroute, hserver, h, queriesBeforeReservation]
  · intro hr hn hc hroute server hserver h0 h1
    simp [SetAuthenticated, hr, hn, hc, hroute, hserver, h0, h1, queriesBeforeReservation,
      acceptEvents, Session.accepted]

/-- A call of `HandlePacket` that enters `SetAuthenticated` with a result is made in one of
the two login phases and is that call of `SetAuthenticated`, on a session with the same
phase, codecs and server address, preceded by nothing or by the installation of the
ciphers and the call of the identity verifier. -/
theorem HandlePacket_entry (env : Env) (s : Session) (packet : Packet) (result : Bool)
    (hcall : Event.CallSetAuthenticated result ∈ (HandlePacket env s packet).events) :
    (s.state = .STATE_LOGIN ∨ s.state = .STATE_LOGIN_ENCRYPT) ∧
      ∃ s2 pre, s2.codec = s.codec ∧ s2.state = s.state ∧
        s2.serverAddress = s.serverAddress ∧
        (pre = [] ∨ ∃ reader writer name serverId secret publicKey,
          pre = [.SetReader reader, .SetWriter writer,
            .AuthAuthenticate name serverId secret publicKey]) ∧
        HandlePacket env s packet = ((SetAuthenticated env s2 result).after pre).done := by
  have hanswer : ∀ (s2 : Session) (pre : List Event) (answer : Bool),
      (pre = [] ∨ ∃ reader writer name serverId secret publicKey,
        pre = [.SetReader reader, .SetWriter writer,
          .AuthAuthenticate name serverId secret publicKey]) →
      HandlePacket env s packet = ((SetAuthenticated env s2 answer).after pre).done →
      answer = result := by
    intro s2 pre answer hpre heq
    have hmem : Event.CallSetAuthenticated result ∈
        (HandlePacket env s packet).events.filter Event.isCallSetAuthenticated := by
      rw [List.mem_filter]
      exact ⟨hcall, rfl⟩
    rw [heq] at hmem
    rcases hpre with h | ⟨reader, writer, name, serverId, secret, publicKey, h⟩ <;>
      rw [h] at hmem
    · simp [Effect.done, Effect.after, SetAuthenticated_events_filter_auth] at hmem
      exact hmem.symm
    · simp [Effect.done, Effect.after, List.filter_cons, Event.isCallSetAuthenticated,
        SetAuthenticated_events_filter_auth] at hmem
      exact hmem.symm
  have hphases : s.state = .STATE_DISCONNECTED ∨ s.state = .STATE_STATUS ∨
      s.state = .STATE_STATUS_PING ∨ s.state = .STATE_LOGIN ∨
      s.state = .STATE_LOGIN_ENCRYPT ∨ s.state = .STATE_INIT ∨
      s.state = .STATE_CONNECTED := by
    cases s.state <;> simp
  have hother : ¬ (s.state = .STATE_LOGIN ∨ s.state = .STATE_LOGIN_ENCRYPT) → False := by
    intro hnot
    rcases HandlePacket_cases env s packet with ⟨hphase, -⟩ | ⟨-, hnone, -, -⟩
    · exact hnot hphase
    · rw [List.filter_eq_nil_iff] at hnone
      exact absurd rfl (hnone _ hcall)
  have hshape : (s.state = .STATE_LOGIN ∨ s.state = .STATE_LOGIN_ENCRYPT) →
      ∃ s2 pre answer, s2.codec = s.codec ∧ s2.state = s.state ∧
        s2.serverAddress = s.serverAddress ∧
        (pre = [] ∨ ∃ reader writer name serverId secret publicKey,
          pre = [.SetReader reader, .SetWriter writer,
            .AuthAuthenticate name serverId secret publicKey]) ∧
        HandlePacket env s packet = ((SetAuthenticated env s2 answer).after pre).done := by
    intro hphase
    revert hcall
    rcases hphase with hstate | hstate
    · rw [(HandlePacket_eq env s packet).2.2.2.1 hstate]
      simp only [handleLogin]
      split
      · split
        · split
          · repeat' split
            all_goals simp
          · rename_i loginStart _ _
            intro _
            exact ⟨{ s with name := loginStart.Name }, [], true, rfl, rfl, rfl,
              Or.inl rfl, rfl⟩
        · simp [panicAt]
      · simp [failWith]
    · rw [(HandlePacket_eq env s packet).2.2.2.2.1 hstate]
      simp only [handleLoginEncrypt]
      split
      · split
        · repeat' split
          all_goals first
            | (intro _
               refine ⟨_, _, _, ?_, ?_, ?_, ?_, rfl⟩
               · rfl
               · rfl
               · rfl
               · exact Or.inr ⟨_, _, _, _, _, _, rfl⟩)
            | simp [failWith]
        · simp [panicAt]
      · simp [failWith]
  have hphase : s.state = .STATE_LOGIN ∨ s.state = .STATE_LOGIN_ENCRYPT := by
    by_contra hnot
    exact hother hnot
  obtain ⟨s2, pre, answer, hc, hs, haddr, hpre, heq⟩ := hshape hphase
  have := hanswer s2 pre answer hpre heq
  subst this
  exact ⟨hphase, s2, pre, hc, hs, haddr, hpre, heq⟩

/-- A call of `HandlePacket` that is a `Disconnect` with a reason, made with the login
codec in force after events that neither write a packet nor close the connection, has
rejected the session with that reason. -/
theorem rejectedWith_of_Disconnect (env : Env) (before s2 : Session) (reason : String)
    (pre queries : List Event) (result : Bool)
    (hcodec : s2.codec.encodeCodec = .LoginPacketClientCodec)
    (hstate : s2.state = before.state)
    (hpre : pre = [] ∨ ∃ reader writer name serverId secret publicKey,
      pre = [.SetReader reader, .SetWriter writer,
        .AuthAuthenticate name serverId secret publicKey])
    (hclose : Event.ConnClose ∉ queries) (hwrite : ∀ p, Event.Write p ∉ queries)
    (heq : SetAuthenticated env s2 result = (Disconnect env s2 reason).after queries) :
    rejectedWith env before ((SetAuthenticated env s2 result).after pre).done reason := by
  refine ⟨rfl, ?_, pre ++ queries, ?_, ?_, ?_⟩
  · rw [heq]
    simp only [Effect.done, Effect.after, Disconnect_session]
    exact hstate
  · rcases hpre with h | ⟨reader, writer, name, serverId, secret, publicKey, h⟩ <;>
      rw [h] <;> simp [hclose]
  · intro p
    rcases hpre with h | ⟨reader, writer, name, serverId, secret, publicKey, h⟩ <;>
      rw [h] <;> simp [hwrite p]
  · rw [heq]
    simp [Effect.done, Effect.after, Disconnect_events_login env s2 reason hcodec]

/-- C7: for every session driven from a fresh session by `HandlePacket` calls, and every
further call of `HandlePacket` that enters `SetAuthenticated` (from `STATE_LOGIN` without
authentication, or from `STATE_LOGIN_ENCRYPT`): the call returns a nil error, and on each
rejection branch (a negative authentication result; the name already registered; the
server full; an empty route; no backend descriptor; a reservation answered 0 or -1), taken
when the conditions before it have passed, the phase is left unchanged and the events of
the call end with the login-disconnect packet carrying the reason text of that branch
followed by the closing of the connection, no packet having been written and the
connection not having been closed before; when no rejection condition is met the session
is accepted (phase `STATE_INIT`).  The name the conditions are about is the one
`SetAuthenticated` reads, which the session still carries after the call; the server
address is the one the session carries before the call. -/
theorem C7_rejection_sends_reason (host port : String) (inputs : List (Env × Packet))
    (env : Env) (packet : Packet) (result : Bool)
    (hcall : Event.CallSetAuthenticated result ∈
      (HandlePacket env (handlePackets (freshSession host port) inputs) packet).events) :
    (HandlePacket env (handlePackets (freshSession host port) inputs) packet).outcome = .returned none ∧
      ((HandlePacket env (handlePackets (freshSession host port) inputs) packet).session.state = .STATE_INIT ∨
        ∃ reason, reason ∈ rejectionReasons env ∧ rejectedWith env (handlePackets (freshSession host port) inputs) (HandlePacket env (handlePackets (freshSession host port) inputs) packet) reason) ∧
      (result = false →
        rejectedWith env (handlePackets (freshSession host port) inputs) (HandlePacket env (handlePackets (freshSession host port) inputs) packet) "Error: Authentication to Minecraft.net Failed") ∧
      (result = true → env.HasName (HandlePacket env (handlePackets (freshSession host port) inputs) packet).session.name = true →
        rejectedWith env (handlePackets (freshSession host port) inputs) (HandlePacket env (handlePackets (freshSession host port) inputs) packet) (env.Colorize env.LocaleLoggedIn)) ∧
      (result = true → env.HasName (HandlePacket env (handlePackets (freshSession host port) inputs) packet).session.name = false →
        (1 < env.MaxPlayers ∧ env.MaxPlayers ≤ env.Len) →
        rejectedWith env (handlePackets (freshSession host port) inputs) (HandlePacket env (handlePackets (freshSession host port) inputs) packet) (env.Colorize env.LocaleFull)) ∧
      (result = true → env.HasName (HandlePacket env (handlePackets (freshSession host port) inputs) packet).session.name = false →
        ¬ (1 < env.MaxPlayers ∧ env.MaxPlayers ≤ env.Len) →
        (env.Route (handlePackets (freshSession host port) inputs).serverAddress).length = 0 →
        rejectedWith env (handlePackets (freshSession host port) inputs) (HandlePacket env (handlePackets (freshSession host port) inputs) packet) (env.Colorize env.LocaleOffline)) ∧
      (result = true → env.HasName (HandlePacket env (handlePackets (freshSession host port) inputs) packet).session.name = false →
        ¬ (1 < env.MaxPlayers ∧ env.MaxPlayers ≤ env.Len) →
        (env.Route (handlePackets (freshSession host port) inputs).serverAddress).length ≠ 0 →
        env.Server (env.Route (handlePackets (freshSession host port) inputs).serverAddress) = none →
        rejectedWith env (handlePackets (freshSession host port) inputs) (HandlePacket env (handlePackets (freshSession host port) inputs) packet) (env.Colorize env.LocaleOffline)) ∧
      (result = true → env.HasName (HandlePacket env (handlePackets (freshSession host port) inputs) packet).session.name = false →
        ¬ (1 < env.MaxPlayers ∧ env.MaxPlayers ≤ env.Len) →
        (env.Route (handlePackets (freshSession host port) inputs).serverAddress).length ≠ 0 →
        (∃ server, env.Server (env.Route (handlePackets (freshSession host port) inputs).serverAddress) = some server) →
        (env.AddLocalPlayer (HandlePacket env (handlePackets (freshSession host port) inputs) packet).session.name = 0 ∨
          env.AddLocalPlayer (HandlePacket env (handlePackets (freshSession host port) inputs) packet).session.name = -1) →
        rejectedWith env (handlePackets (freshSession host port) inputs) (HandlePacket env (handlePackets (freshSession host port) inputs) packet) (env.Colorize env.LocaleLoggedIn)) ∧
      (result = true → env.HasName (HandlePacket env (handlePackets (freshSession host port) inputs) packet).session.name = false →
        ¬ (1 < env.MaxPlayers ∧ env.MaxPlayers ≤ env.Len) →
        (env.Route (handlePackets (freshSession host port) inputs).serverAddress).length ≠ 0 →
        (∃ server, env.Server (env.Route (handlePackets (freshSession host port) inputs).serverAddress) = some server) →
        env.AddLocalPlayer (HandlePacket env (handlePackets (freshSession host port) inputs) packet).session.name ≠ 0 →
        env.AddLocalPlayer (HandlePacket env (handlePackets (freshSession host port) inputs) packet).session.name ≠ -1 →
        (HandlePacket env (handlePackets (freshSession host port) inputs) packet).session.state = .STATE_INIT) := by
  have hinv := handlePackets_LoginCodecInForce inputs (freshSession host port)
    (freshSession_LoginCodecInForce host port)
  obtain ⟨hphase, s2, pre, hc, hs, haddr, hpre, heq⟩ :=
    HandlePacket_entry env _ packet result hcall
  have hcodec : s2.codec.encodeCodec = .LoginPacketClientCodec := by
    rw [hc]
    exact hinv hphase
  have hname : (HandlePacket env (handlePackets (freshSession host port) inputs) packet).session.name = s2.name := by
    rw [heq]
    exact (SetAuthenticated_keys env s2 result).2.2.2.2.1
  have hdecision := SetAuthenticated_decision env s2 result
  have hqclose := ConnClose_not_mem_of_isQuery _ (queriesBeforeReservation_isQuery env s2)
  have hqwrite : ∀ p, Event.Write p ∉ queriesBeforeReservation env s2 :=
    fun p => not_mem_of_isQuery _ _ rfl (queriesBeforeReservation_isQuery env s2)
  rw [hname, ← haddr]
  generalize handlePackets (freshSession host port) inputs = before at *
  rw [heq]
  refine ⟨rfl, ?_, ?_, ?_, ?_, ?_, ?_, ?_, ?_⟩
  · rcases SetAuthenticated_login env s2 result hcodec with
      h | ⟨h, pre2, reason, hreason, hev, hno⟩
    · left
      exact h
    · right
      rcases SetAuthenticated_cases env s2 result with
        ⟨queries, reason2, hall, hreason2, heq2⟩ | ⟨reason2, hreason2, -, heq2⟩ |
        ⟨server, -, -, -, heq2⟩
      · exact ⟨reason2, hreason2, rejectedWith_of_Disconnect env before s2 reason2 pre
          (.CallSetAuthenticated result :: queries) result hcodec hs hpre
          (by simpa using ConnClose_not_mem_of_isQuery queries hall)
          (by intro p; simpa using not_mem_of_isQuery (.Write p) queries rfl hall) heq2⟩
      · exact ⟨reason2, hreason2, rejectedWith_of_Disconnect env before s2 reason2 pre
          (.CallSetAuthenticated result :: queriesBeforeReservation env s2 ++
            [.AddLocalPlayer s2.name (env.AddLocalPlayer s2.name)]) result hcodec hs hpre
          (by simpa using hqclose) (by intro p; simpa using hqwrite p) heq2⟩
      · exfalso
        have hinit : (SetAuthenticated env s2 result).session.state = .STATE_INIT := by
          rw [heq2]
          simp only [Effect.after]
          rcases Redirect_session env s2.accepted server with h2 | h2 <;> rw [h2] <;> rfl
        rw [h, hs] at hinit
        rcases hphase with h3 | h3 <;> rw [h3] at hinit <;> exact absurd hinit (by decide)
  · intro hr
    exact rejectedWith_of_Disconnect env before s2 _ pre [.CallSetAuthenticated result]
      result hcodec hs hpre (by simp) (by simp) (hdecision.1 hr)
  · intro hr hn
    exact rejectedWith_of_Disconnect env before s2 _ pre
      [.CallSetAuthenticated result, .HasName s2.name]
      result hcodec hs hpre (by simp) (by simp) (hdecision.2.1 hr hn)
  · intro hr hn hcap
    exact rejectedWith_of_Disconnect env before s2 _ pre
      [.CallSetAuthenticated result, .HasName s2.name, .Len]
      result hcodec hs hpre (by simp) (by simp) (hdecision.2.2.1 hr hn hcap)
  · intro hr hn hcap hroute
    exact rejectedWith_of_Disconnect env before s2 _ pre _
      result hcodec hs hpre (by split <;> simp) (by intro p; split <;> simp)
      (hdecision.2.2.2.1 hr hn hcap hroute)
  · intro hr hn hcap hroute hserver
    exact rejectedWith_of_Disconnect env before s2 _ pre _
      result hcodec hs hpre (by simpa using hqclose) (by intro p; simpa using hqwrite p)
      (hdecision.2.2.2.2.1 hr hn hcap hroute hserver)
  · intro hr hn hcap hroute hserver hadd
    exact rejectedWith_of_Disconnect env before s2 _ pre _
      result hcodec hs hpre (by simpa using hqclose) (by intro p; simpa using hqwrite p)
      (hdecision.2.2.2.2.2.1 hr hn hcap hroute hserver hadd)
  · intro hr hn hcap hroute hserver h0 h1
    obtain ⟨server, hserver⟩ := hserver
    rw [hdecision.2.2.2.2.2.2 hr hn hcap hroute server hserver h0 h1]
    simp only [Effect.done, Effect.after]
    rcases Redirect_session env s2.accepted server with h2 | h2 <;> rw [h2] <;> rfl

/-- C7 witness: `alice` logs in while her name is registered: she is rejected with the
already-logged-in text, written in a login-disconnect packet before the connection is
closed. -/
theorem C7_rejection_sends_reason_witness :
    rejectedWith takenEnv
      (handlePackets (freshSession "10.0.0.1" "50000") [(exampleEnv, loginHandshake)])
      (HandlePacket takenEnv
        (handlePackets (freshSession "10.0.0.1" "50000") [(exampleEnv, loginHandshake)])
        aliceLoginStart)
      (takenEnv.Colorize takenEnv.LocaleLoggedIn) :=
  (C7_rejection_sends_reason "10.0.0.1" "50000" [(exampleEnv, loginHandshake)] takenEnv
    aliceLoginStart true (by decide)).2.2.2.1 rfl (by decide)

end Proxy
